import Mathlib

/-!
# RTL81xx USB wireless driver: device-management core

A shallow embedding of `drivers/net/wireless/rtlw81xx/rtlw81.c`.

* Pointers are `Option` values (`none` is `NULL` / `INVALID_HANDLE`).
* Fixed-size C arrays are lists of the array's length.
* Calls into the kernel, the USB core and the networking core are answered by
  an `Environment` record and logged, in program order, as a list of `Event`s.
* `ASSERT` does not change control flow: a failing assertion is logged as
  `Event.RtlRaiseAssertion` and execution continues.
-/

namespace Rtlw81

/-! ## Status codes -/

/-- Status codes. The three named failure codes are the ones this file produces
itself; `STATUS_OTHER` stands for any other failure code returned by a
collaborator. -/
inductive KSTATUS where
  | STATUS_SUCCESS
  | STATUS_INSUFFICIENT_RESOURCES
  | STATUS_INVALID_CONFIGURATION
  | STATUS_NO_INTERFACE
  | STATUS_OTHER (Code : Nat)
  deriving DecidableEq, Repr

/-- The `KSUCCESS` test on a status code. -/
def KSUCCESS (Status : KSTATUS) : Bool :=
  decide (Status = KSTATUS.STATUS_SUCCESS)

/-! ## Constants of the USB and driver headers -/

/-- Mask selecting the transfer type in an endpoint descriptor's attributes. -/
def USB_ENDPOINT_ATTRIBUTES_TYPE_MASK : Nat := 0x03

/-- Transfer type value of a bulk endpoint. -/
def USB_ENDPOINT_ATTRIBUTES_TYPE_BULK : Nat := 0x02

/-- Direction bit of an endpoint address. -/
def USB_ENDPOINT_ADDRESS_DIRECTION_IN : Nat := 0x80

/-- Interface class code of a vendor-specific interface. -/
def UsbInterfaceClassVendor : Nat := 0xFF

/-- Modelled from the spec: the constant `RTLW81_MAX_BULK_OUT_ENDPOINT_COUNT` of
the driver header, which is not part of the sources. The device holds "up to 3
bulk-out endpoint addresses". -/
def RTLW81_MAX_BULK_OUT_ENDPOINT_COUNT : Nat := 3

/-- Modelled from the spec: the enumeration `RTLW81_BULK_OUT_TYPE` of the driver
header, which is not part of the sources. There are four traffic classes:
best-effort, background, video and voice. -/
inductive RTLW81_BULK_OUT_TYPE where
  | Rtlw81BulkOutBe
  | Rtlw81BulkOutBk
  | Rtlw81BulkOutVi
  | Rtlw81BulkOutVo
  deriving DecidableEq, Repr

/-- Array index of a traffic class. -/
def RTLW81_BULK_OUT_TYPE.toNat : RTLW81_BULK_OUT_TYPE → Nat
  | .Rtlw81BulkOutBe => 0
  | .Rtlw81BulkOutBk => 1
  | .Rtlw81BulkOutVi => 2
  | .Rtlw81BulkOutVo => 3

/-- Number of traffic classes (the last enumerator). -/
def Rtlw81BulkOutTypeCount : Nat := 4

/-- The constants of the driver header that the sources use but do not define. -/
structure RTLW81_CONSTANTS where
  RTLW81_BULK_IN_TRANSFER_SIZE : Nat
  RTLW81_BULK_IN_TRANSFER_COUNT : Nat
  RTLW81_MAX_CONTROL_TRANSFER_SIZE : Nat
  RTLW81_FLAG_8188E : Nat
  deriving DecidableEq, Repr

/-! ## Data model -/

/-- Direction of a USB transfer. -/
inductive USB_TRANSFER_DIRECTION where
  | UsbTransferDirectionIn
  | UsbTransferDirectionOut
  deriving DecidableEq, Repr

/-- The fields of an endpoint descriptor that the driver reads. -/
structure USB_ENDPOINT_DESCRIPTION where
  Attributes : Nat
  EndpointAddress : Nat
  deriving DecidableEq, Repr

/-- The fields of an interface description that the driver reads; the endpoint
list is in list order. -/
structure USB_INTERFACE_DESCRIPTION where
  Class : Nat
  InterfaceNumber : Nat
  EndpointListHead : List USB_ENDPOINT_DESCRIPTION
  deriving DecidableEq, Repr

/-- One fragment of an I/O buffer. -/
structure IO_BUFFER_FRAGMENT where
  VirtualAddress : Nat
  PhysicalAddress : Nat
  Size : Nat
  deriving DecidableEq, Repr

/-- An I/O buffer: a non-NULL buffer has a fragment 0 and possibly more. -/
structure IO_BUFFER where
  Fragment0 : IO_BUFFER_FRAGMENT
  MoreFragments : List IO_BUFFER_FRAGMENT
  deriving DecidableEq, Repr

/-- The fragment count of an I/O buffer. -/
def IO_BUFFER.FragmentCount (Buffer : IO_BUFFER) : Nat :=
  1 + Buffer.MoreFragments.length

/-- A USB transfer. `Id` is the identity of the allocation (the number of the
`UsbAllocateTransfer` call that created it); the other fields are the ones the
driver writes, and a field it does not write is zero (`none` for the
direction). -/
structure USB_TRANSFER where
  Id : Nat
  Buffer : Nat
  BufferPhysicalAddress : Nat
  Direction : Option USB_TRANSFER_DIRECTION
  Length : Nat
  BufferActualLength : Nat
  deriving DecidableEq, Repr

/-- The device context. -/
structure RTLW81_DEVICE where
  OsDevice : Nat
  NetworkLink : Option Nat
  UsbCoreHandle : Option Nat
  InitializationPhase : Nat
  IoBuffer : Option IO_BUFFER
  ControlTransfer : Option USB_TRANSFER
  BulkInTransfer : List (Option USB_TRANSFER)
  BulkOutTypeEndpointIndex : List Nat
  BulkOutListLock : Option Nat
  Flags : Nat
  InterfaceClaimed : Bool
  InterfaceNumber : Nat
  BulkInEndpoint : Nat
  BulkOutEndpointCount : Nat
  BulkOutEndpoint : List Nat
  deriving DecidableEq, Repr

/-- The device context after `RtlZeroMemory`. -/
def RTLW81_DEVICE.zero (K : RTLW81_CONSTANTS) : RTLW81_DEVICE where
  OsDevice := 0
  NetworkLink := none
  UsbCoreHandle := some 0
  InitializationPhase := 0
  IoBuffer := none
  ControlTransfer := none
  BulkInTransfer := List.replicate K.RTLW81_BULK_IN_TRANSFER_COUNT none
  BulkOutTypeEndpointIndex := List.replicate Rtlw81BulkOutTypeCount 0
  BulkOutListLock := none
  Flags := 0
  InterfaceClaimed := false
  InterfaceNumber := 0
  BulkInEndpoint := 0
  BulkOutEndpointCount := 0
  BulkOutEndpoint := List.replicate RTLW81_MAX_BULK_OUT_ENDPOINT_COUNT 0

/-! ## Effects -/

/-- The calls the driver makes into its collaborators, with the arguments and the
results that matter, and raised assertions. -/
inductive Event where
  | RtlRaiseAssertion
  | MmAllocatePagedPool (Allocated : Bool)
  | MmFreePagedPool
  | KeCreateQueuedLock (Created : Bool)
  | KeDestroyQueuedLock
  | UsbDriverAttach (Status : KSTATUS)
  | UsbDetachDevice
  | UsbDeviceClose
  | UsbGetActiveConfiguration
  | UsbSetConfiguration (Status : KSTATUS)
  | UsbGetDesignatedInterface
  | UsbClaimInterface (InterfaceNumber : Nat) (Status : KSTATUS)
  | UsbReleaseInterface (InterfaceNumber : Nat)
  | MmGetIoBufferAlignment
  | MmAllocateNonPagedIoBuffer (Alignment : Nat) (Size : Nat) (Allocated : Bool)
  | MmFreeIoBuffer
  | UsbAllocateTransfer (Endpoint : Nat) (MaxTransferSize : Nat) (Result : Option Nat)
  | UsbCancelTransfer (Id : Nat) (Wait : Bool)
  | UsbDestroyTransfer (Id : Nat)
  | IoRegisterDeviceInformation (Register : Bool)
  | NetDestroyLink
  | Rtlw81pDestroyBulkOutTransfers
  | RtlStringScan
  | IoAttachDriverToDevice
  | IoCompleteIrp (Status : KSTATUS)
  | Rtlw81pInitialize
  deriving DecidableEq, Repr

/-- Whether an event is a call into the USB core. -/
def Event.isUsbCall : Event → Bool
  | .UsbDriverAttach _ => true
  | .UsbDetachDevice => true
  | .UsbDeviceClose => true
  | .UsbGetActiveConfiguration => true
  | .UsbSetConfiguration _ => true
  | .UsbGetDesignatedInterface => true
  | .UsbClaimInterface _ _ => true
  | .UsbReleaseInterface _ => true
  | .UsbAllocateTransfer _ _ _ => true
  | .UsbCancelTransfer _ _ => true
  | .UsbDestroyTransfer _ => true
  | _ => false

/-- Whether an event is a call of `UsbClaimInterface`. -/
def Event.isClaim : Event → Bool
  | .UsbClaimInterface _ _ => true
  | _ => false

/-- The effect of `ASSERT(Condition)`. -/
def ASSERT (Condition : Bool) : List Event :=
  if Condition then [] else [Event.RtlRaiseAssertion]

/-- The answers of the collaborators. -/
structure Environment where
  /-- Whether `MmAllocatePagedPool` returns a device structure. -/
  MmAllocatePagedPool : Bool
  /-- The lock returned by `KeCreateQueuedLock`. -/
  KeCreateQueuedLock : Option Nat
  /-- The status of `UsbDriverAttach`. -/
  UsbDriverAttach : KSTATUS
  /-- The handle `UsbDriverAttach` stores on success. -/
  UsbCoreHandle : Nat
  /-- Whether the first `UsbGetActiveConfiguration` returns a configuration. -/
  ActiveConfiguration : Bool
  /-- The status of `UsbSetConfiguration`. -/
  UsbSetConfiguration : KSTATUS
  /-- Whether `UsbGetActiveConfiguration` returns a configuration after a
  successful `UsbSetConfiguration`. -/
  ActiveConfigurationAfterSet : Bool
  /-- The interface returned by `UsbGetDesignatedInterface`. -/
  UsbGetDesignatedInterface : Option USB_INTERFACE_DESCRIPTION
  /-- The status of `UsbClaimInterface`. -/
  UsbClaimInterface : KSTATUS
  /-- The value of `MmGetIoBufferAlignment`. -/
  MmGetIoBufferAlignment : Nat
  /-- The buffer returned by `MmAllocateNonPagedIoBuffer`. -/
  MmAllocateNonPagedIoBuffer : Option IO_BUFFER
  /-- Whether the call of `UsbAllocateTransfer` with the given number (counted
  from 0) returns a transfer. -/
  UsbAllocateTransfer : Nat → Bool
  /-- The status of `RtlStringScan` on the device identifier. -/
  RtlStringScan : KSTATUS
  /-- The number of items `RtlStringScan` reports. -/
  ItemsScanned : Nat
  /-- The vendor identifier `RtlStringScan` stores. -/
  UsbVendorId : Nat
  /-- The product identifier `RtlStringScan` stores. -/
  UsbProductId : Nat
  /-- The status of `IoAttachDriverToDevice`. -/
  IoAttachDriverToDevice : KSTATUS

/-- A status, the device context and the effects of a call. -/
structure DeviceResult where
  Status : KSTATUS
  Device : RTLW81_DEVICE
  Trace : List Event

/-! ## `Rtlw81pSetUpUsbDevice` -/

/-- Whether an endpoint descriptor is a bulk endpoint. -/
def USB_ENDPOINT_DESCRIPTION.isBulk (Endpoint : USB_ENDPOINT_DESCRIPTION) : Bool :=
  decide (Endpoint.Attributes &&& USB_ENDPOINT_ATTRIBUTES_TYPE_MASK =
    USB_ENDPOINT_ATTRIBUTES_TYPE_BULK)

/-- The direction of an endpoint descriptor. -/
def USB_ENDPOINT_DESCRIPTION.direction (Endpoint : USB_ENDPOINT_DESCRIPTION) :
    USB_TRANSFER_DIRECTION :=
  if Endpoint.EndpointAddress &&& USB_ENDPOINT_ADDRESS_DIRECTION_IN ≠ 0 then
    USB_TRANSFER_DIRECTION.UsbTransferDirectionIn
  else
    USB_TRANSFER_DIRECTION.UsbTransferDirectionOut

/-- The endpoint scan loop of `Rtlw81pSetUpUsbDevice`: the remaining list
entries, the device and the local `BulkOutEndpointCount`. -/
def Rtlw81pSetUpUsbDevice.scan :
    List USB_ENDPOINT_DESCRIPTION → RTLW81_DEVICE → Nat → RTLW81_DEVICE × Nat
  | [], Device, BulkOutEndpointCount => (Device, BulkOutEndpointCount)
  | Endpoint :: Next, Device, BulkOutEndpointCount =>
    if Device.BulkInEndpoint ≠ 0 ∧
        BulkOutEndpointCount = RTLW81_MAX_BULK_OUT_ENDPOINT_COUNT then
      (Device, BulkOutEndpointCount)
    else if Endpoint.isBulk then
      if Device.BulkInEndpoint = 0 ∧
          Endpoint.direction = USB_TRANSFER_DIRECTION.UsbTransferDirectionIn then
        Rtlw81pSetUpUsbDevice.scan Next
          { Device with BulkInEndpoint := Endpoint.EndpointAddress }
          BulkOutEndpointCount
      else if BulkOutEndpointCount < RTLW81_MAX_BULK_OUT_ENDPOINT_COUNT ∧
          Endpoint.direction = USB_TRANSFER_DIRECTION.UsbTransferDirectionOut then
        Rtlw81pSetUpUsbDevice.scan Next
          { Device with
            BulkOutEndpoint :=
              Device.BulkOutEndpoint.set BulkOutEndpointCount Endpoint.EndpointAddress }
          (BulkOutEndpointCount + 1)
      else
        Rtlw81pSetUpUsbDevice.scan Next Device BulkOutEndpointCount
    else
      Rtlw81pSetUpUsbDevice.scan Next Device BulkOutEndpointCount

/-- The assignment of the traffic classes to the bulk-out endpoints in
`Rtlw81pSetUpUsbDevice`, by the number of endpoints found. -/
def Rtlw81pSetUpUsbDevice.assign (Table : List Nat) (BulkOutEndpointCount : Nat) :
    List Nat :=
  if BulkOutEndpointCount = 1 then
    (List.range Rtlw81BulkOutTypeCount).foldl (fun T Index => T.set Index 0) Table
  else if BulkOutEndpointCount = 2 then
    (((Table.set RTLW81_BULK_OUT_TYPE.Rtlw81BulkOutBe.toNat 1).set
      RTLW81_BULK_OUT_TYPE.Rtlw81BulkOutBk.toNat 1).set
      RTLW81_BULK_OUT_TYPE.Rtlw81BulkOutVi.toNat 0).set
      RTLW81_BULK_OUT_TYPE.Rtlw81BulkOutVo.toNat 0
  else
    (((Table.set RTLW81_BULK_OUT_TYPE.Rtlw81BulkOutBe.toNat 2).set
      RTLW81_BULK_OUT_TYPE.Rtlw81BulkOutBk.toNat 2).set
      RTLW81_BULK_OUT_TYPE.Rtlw81BulkOutVi.toNat 1).set
      RTLW81_BULK_OUT_TYPE.Rtlw81BulkOutVo.toNat 0

/-- The assertion in the last branch of the assignment. -/
def Rtlw81pSetUpUsbDevice.assignAssert (BulkOutEndpointCount : Nat) : List Event :=
  if BulkOutEndpointCount = 1 ∨ BulkOutEndpointCount = 2 then []
  else ASSERT (decide (BulkOutEndpointCount = RTLW81_MAX_BULK_OUT_ENDPOINT_COUNT))

/-- The effects of obtaining the active configuration. -/
def Rtlw81pSetUpUsbDevice.configurationTrace (Env : Environment) : List Event :=
  if Env.ActiveConfiguration then [Event.UsbGetActiveConfiguration]
  else if KSUCCESS Env.UsbSetConfiguration then
    [Event.UsbGetActiveConfiguration, Event.UsbSetConfiguration Env.UsbSetConfiguration,
      Event.UsbGetActiveConfiguration] ++ ASSERT Env.ActiveConfigurationAfterSet
  else [Event.UsbGetActiveConfiguration, Event.UsbSetConfiguration Env.UsbSetConfiguration]

/-- The routine `Rtlw81pSetUpUsbDevice`: claims the interface of the device and
finds its bulk endpoints. -/
def Rtlw81pSetUpUsbDevice (Env : Environment) (Device : RTLW81_DEVICE) :
    DeviceResult :=
  if Device.InterfaceClaimed ≠ false then
    { Status := KSTATUS.STATUS_SUCCESS
      Device := Device
      Trace := ASSERT (decide (Device.BulkInEndpoint ≠ 0) &&
        decide (Device.BulkOutEndpointCount ≠ 0)) }
  else if Env.ActiveConfiguration = false ∧ KSUCCESS Env.UsbSetConfiguration = false then
    { Status := Env.UsbSetConfiguration
      Device := Device
      Trace := Rtlw81pSetUpUsbDevice.configurationTrace Env }
  else
    match Env.UsbGetDesignatedInterface with
    | none =>
      { Status := KSTATUS.STATUS_NO_INTERFACE
        Device := Device
        Trace := Rtlw81pSetUpUsbDevice.configurationTrace Env ++
          [Event.UsbGetDesignatedInterface] }
    | some Interface =>
      if Interface.Class ≠ UsbInterfaceClassVendor then
        { Status := KSTATUS.STATUS_NO_INTERFACE
          Device := Device
          Trace := Rtlw81pSetUpUsbDevice.configurationTrace Env ++
            [Event.UsbGetDesignatedInterface] }
      else
        let Scanned := Rtlw81pSetUpUsbDevice.scan Interface.EndpointListHead Device 0
        if Scanned.1.BulkInEndpoint = 0 ∨ Scanned.2 = 0 then
          { Status := KSTATUS.STATUS_INVALID_CONFIGURATION
            Device := Scanned.1
            Trace := Rtlw81pSetUpUsbDevice.configurationTrace Env ++
              [Event.UsbGetDesignatedInterface] }
        else
          let Assigned : RTLW81_DEVICE :=
            { Scanned.1 with
              BulkOutTypeEndpointIndex :=
                Rtlw81pSetUpUsbDevice.assign Scanned.1.BulkOutTypeEndpointIndex
                  Scanned.2 }
          let Trace := Rtlw81pSetUpUsbDevice.configurationTrace Env ++
            [Event.UsbGetDesignatedInterface] ++
            Rtlw81pSetUpUsbDevice.assignAssert Scanned.2 ++
            [Event.UsbClaimInterface Interface.InterfaceNumber Env.UsbClaimInterface]
          if KSUCCESS Env.UsbClaimInterface = false then
            { Status := Env.UsbClaimInterface
              Device := Assigned
              Trace := Trace }
          else
            { Status := KSTATUS.STATUS_SUCCESS
              Device :=
                { Assigned with
                  InterfaceNumber := Interface.InterfaceNumber
                  InterfaceClaimed := true }
              Trace := Trace }

/-! ## `Rtlw81pStopDevice` -/

/-- The routine `Rtlw81pStopDevice`: resets the initialization phase. -/
def Rtlw81pStopDevice (Device : RTLW81_DEVICE) : KSTATUS × RTLW81_DEVICE :=
  (KSTATUS.STATUS_SUCCESS, { Device with InitializationPhase := 0 })

/-! ## `Rtlw81pDestroyDeviceStructures` -/

/-- The loop of `Rtlw81pDestroyDeviceStructures` over the receive transfer
array: every non-NULL entry is cancelled and destroyed. -/
def Rtlw81pDestroyDeviceStructures.bulkIn : List (Option USB_TRANSFER) → List Event
  | [] => []
  | none :: Next => Rtlw81pDestroyDeviceStructures.bulkIn Next
  | some Transfer :: Next =>
    Event.UsbCancelTransfer Transfer.Id true :: Event.UsbDestroyTransfer Transfer.Id ::
      Rtlw81pDestroyDeviceStructures.bulkIn Next

/-- The routine `Rtlw81pDestroyDeviceStructures`: the calls it makes, in order.
The device structure is freed by the last one. -/
def Rtlw81pDestroyDeviceStructures (Device : RTLW81_DEVICE) : List Event :=
  (if Device.UsbCoreHandle ≠ none then [Event.UsbDetachDevice] else []) ++
  Rtlw81pDestroyDeviceStructures.bulkIn Device.BulkInTransfer ++
  (match Device.ControlTransfer with
    | some Transfer =>
      [Event.UsbCancelTransfer Transfer.Id true, Event.UsbDestroyTransfer Transfer.Id]
    | none => []) ++
  (if Device.InterfaceClaimed ≠ false then
    [Event.UsbReleaseInterface Device.InterfaceNumber] else []) ++
  (if Device.UsbCoreHandle ≠ none then [Event.UsbDeviceClose] else []) ++
  (if Device.IoBuffer ≠ none then [Event.MmFreeIoBuffer] else []) ++
  [Event.IoRegisterDeviceInformation false] ++
  (if Device.NetworkLink ≠ none then [Event.NetDestroyLink] else []) ++
  [Event.Rtlw81pDestroyBulkOutTransfers] ++
  (if Device.BulkOutListLock ≠ none then [Event.KeDestroyQueuedLock] else []) ++
  [Event.MmFreePagedPool]

/-! ## `Rtlw81pInitializeDeviceStructures` -/

/-- Modelled from the spec: the macro `ALIGN_RANGE_UP` of the kernel headers,
which is not part of the sources. It rounds a value up to the alignment. -/
def ALIGN_RANGE_UP (Value Size : Nat) : Nat :=
  (Value + Size - 1) / Size * Size

/-- The local `MaxBulkInTransferSize`, a `ULONG`. -/
def MaxBulkInTransferSize (K : RTLW81_CONSTANTS) (BufferAlignment : Nat) : Nat :=
  ALIGN_RANGE_UP K.RTLW81_BULK_IN_TRANSFER_SIZE BufferAlignment % 2 ^ 32

/-- The local `MaxControlSize`, a `ULONG`. -/
def MaxControlSize (K : RTLW81_CONSTANTS) (BufferAlignment : Nat) : Nat :=
  ALIGN_RANGE_UP K.RTLW81_MAX_CONTROL_TRANSFER_SIZE BufferAlignment % 2 ^ 32

/-- The local `IoBufferSize`: computed in `ULONG` arithmetic. -/
def IoBufferSize (K : RTLW81_CONSTANTS) (BufferAlignment : Nat) : Nat :=
  ((MaxBulkInTransferSize K BufferAlignment * K.RTLW81_BULK_IN_TRANSFER_COUNT) % 2 ^ 32 +
    MaxControlSize K BufferAlignment) % 2 ^ 32

/-- The status, the value stored in `*NewDevice` and the effects of a call. -/
structure NewDeviceResult where
  Status : KSTATUS
  NewDevice : Option RTLW81_DEVICE
  Trace : List Event

/-- The state of the receive transfer loop. -/
structure BulkInLoopState where
  Completed : Bool
  Device : RTLW81_DEVICE
  VirtualAddress : Nat
  PhysicalAddress : Nat
  Trace : List Event

/-- The loop of `Rtlw81pInitializeDeviceStructures` that sets up the receive
transfers: the number of iterations left, the loop index, the device and the two
running addresses. `Completed` is false when an allocation failed. Both running
addresses are 64 bits wide (a pointer and a `PHYSICAL_ADDRESS`) and wrap. -/
def Rtlw81pInitializeDeviceStructures.bulkIn (K : RTLW81_CONSTANTS) (Env : Environment)
    (BufferAlignment : Nat) :
    Nat → Nat → RTLW81_DEVICE → Nat → Nat → BulkInLoopState
  | 0, _, Device, VirtualAddress, PhysicalAddress =>
    { Completed := true
      Device := Device
      VirtualAddress := VirtualAddress
      PhysicalAddress := PhysicalAddress
      Trace := [] }
  | Left + 1, Index, Device, VirtualAddress, PhysicalAddress =>
    if Env.UsbAllocateTransfer Index = false then
      { Completed := false
        Device := Device
        VirtualAddress := VirtualAddress
        PhysicalAddress := PhysicalAddress
        Trace := [Event.UsbAllocateTransfer Device.BulkInEndpoint
          K.RTLW81_BULK_IN_TRANSFER_SIZE none] }
    else
      let UsbTransfer : USB_TRANSFER :=
        { Id := Index
          Buffer := VirtualAddress
          BufferPhysicalAddress := PhysicalAddress
          Direction := some USB_TRANSFER_DIRECTION.UsbTransferDirectionIn
          Length := K.RTLW81_BULK_IN_TRANSFER_SIZE
          BufferActualLength := MaxBulkInTransferSize K BufferAlignment }
      let Rest := Rtlw81pInitializeDeviceStructures.bulkIn K Env BufferAlignment Left
        (Index + 1)
        { Device with BulkInTransfer := Device.BulkInTransfer.set Index (some UsbTransfer) }
        ((VirtualAddress + MaxBulkInTransferSize K BufferAlignment) % 2 ^ 64)
        ((PhysicalAddress + MaxBulkInTransferSize K BufferAlignment) % 2 ^ 64)
      { Rest with
        Trace := Event.UsbAllocateTransfer Device.BulkInEndpoint
          K.RTLW81_BULK_IN_TRANSFER_SIZE (some Index) :: Rest.Trace }

/-- The label `InitializeDeviceStructuresEnd`: on failure a non-NULL device is
destroyed and NULL is returned in its place. -/
def Rtlw81pInitializeDeviceStructures.End (Status : KSTATUS)
    (Device : Option RTLW81_DEVICE) (Trace : List Event) : NewDeviceResult :=
  if KSUCCESS Status = false then
    match Device with
    | some D =>
      { Status := Status
        NewDevice := none
        Trace := Trace ++ Rtlw81pDestroyDeviceStructures D }
    | none => { Status := Status, NewDevice := none, Trace := Trace }
  else { Status := Status, NewDevice := Device, Trace := Trace }

/-- The device of `Rtlw81pInitializeDeviceStructures` after it is zeroed and its
first fields and the lock are stored. -/
def Rtlw81pInitializeDeviceStructures.allocated (K : RTLW81_CONSTANTS) (Env : Environment)
    (OsDevice : Nat) : RTLW81_DEVICE :=
  { RTLW81_DEVICE.zero K with
    OsDevice := OsDevice
    UsbCoreHandle := none
    BulkOutListLock := Env.KeCreateQueuedLock }

/-- The device of `Rtlw81pInitializeDeviceStructures` after `UsbDriverAttach` has
stored the handle. -/
def Rtlw81pInitializeDeviceStructures.attached (K : RTLW81_CONSTANTS) (Env : Environment)
    (OsDevice : Nat) : RTLW81_DEVICE :=
  { Rtlw81pInitializeDeviceStructures.allocated K Env OsDevice with
    UsbCoreHandle := some Env.UsbCoreHandle }

/-- The part of `Rtlw81pInitializeDeviceStructures` after the I/O buffer is
allocated: the two assertions on the buffer, the receive transfer loop and the
control transfer. The result holds the status, the device and the effects of
this part. The advance of the two addresses by `MaxControlSize` after the
control transfer writes locals that are not read again. -/
def Rtlw81pInitializeDeviceStructures.transfers (K : RTLW81_CONSTANTS) (Env : Environment)
    (BufferAlignment : Nat) (Device : RTLW81_DEVICE) (IoBuffer : IO_BUFFER) :
    DeviceResult :=
  let Asserts := ASSERT (decide (IoBuffer.FragmentCount = 1)) ++
    ASSERT (decide (IoBuffer.Fragment0.VirtualAddress ≠ 0))
  let Loop := Rtlw81pInitializeDeviceStructures.bulkIn K Env BufferAlignment
    K.RTLW81_BULK_IN_TRANSFER_COUNT 0 Device
    IoBuffer.Fragment0.VirtualAddress IoBuffer.Fragment0.PhysicalAddress
  if Loop.Completed = false then
    { Status := KSTATUS.STATUS_INSUFFICIENT_RESOURCES
      Device := Loop.Device
      Trace := Asserts ++ Loop.Trace }
  else if Env.UsbAllocateTransfer K.RTLW81_BULK_IN_TRANSFER_COUNT = false then
    { Status := KSTATUS.STATUS_INSUFFICIENT_RESOURCES
      Device := Loop.Device
      Trace := Asserts ++ Loop.Trace ++
        [Event.UsbAllocateTransfer 0 K.RTLW81_MAX_CONTROL_TRANSFER_SIZE none] }
  else
    let ControlTransfer : USB_TRANSFER :=
      { Id := K.RTLW81_BULK_IN_TRANSFER_COUNT
        Buffer := Loop.VirtualAddress
        BufferPhysicalAddress := Loop.PhysicalAddress
        Direction := none
        Length := 0
        BufferActualLength := MaxControlSize K BufferAlignment }
    { Status := KSTATUS.STATUS_SUCCESS
      Device := { Loop.Device with ControlTransfer := some ControlTransfer }
      Trace := Asserts ++ Loop.Trace ++
        [Event.UsbAllocateTransfer 0 K.RTLW81_MAX_CONTROL_TRANSFER_SIZE
          (some K.RTLW81_BULK_IN_TRANSFER_COUNT)] }

/-- The routine `Rtlw81pInitializeDeviceStructures`. A failing `UsbDriverAttach`
leaves the handle invalid. -/
def Rtlw81pInitializeDeviceStructures (K : RTLW81_CONSTANTS) (Env : Environment)
    (OsDevice : Nat) : NewDeviceResult :=
  if Env.MmAllocatePagedPool = false then
    Rtlw81pInitializeDeviceStructures.End KSTATUS.STATUS_INSUFFICIENT_RESOURCES none
      [Event.MmAllocatePagedPool false]
  else
    let Device0 := Rtlw81pInitializeDeviceStructures.allocated K Env OsDevice
    let Trace0 := [Event.MmAllocatePagedPool true,
      Event.KeCreateQueuedLock Env.KeCreateQueuedLock.isSome]
    if Device0.BulkOutListLock = none then
      Rtlw81pInitializeDeviceStructures.End KSTATUS.STATUS_INSUFFICIENT_RESOURCES
        (some Device0) Trace0
    else if KSUCCESS Env.UsbDriverAttach = false then
      Rtlw81pInitializeDeviceStructures.End Env.UsbDriverAttach (some Device0)
        (Trace0 ++ [Event.UsbDriverAttach Env.UsbDriverAttach])
    else
      let Device1 := Rtlw81pInitializeDeviceStructures.attached K Env OsDevice
      let SetUp := Rtlw81pSetUpUsbDevice Env Device1
      let Trace1 := Trace0 ++ [Event.UsbDriverAttach Env.UsbDriverAttach] ++ SetUp.Trace
      if KSUCCESS SetUp.Status = false then
        Rtlw81pInitializeDeviceStructures.End SetUp.Status (some SetUp.Device) Trace1
      else
        let BufferAlignment := Env.MmGetIoBufferAlignment
        let Device2 : RTLW81_DEVICE :=
          { SetUp.Device with IoBuffer := Env.MmAllocateNonPagedIoBuffer }
        let Trace2 := Trace1 ++ [Event.MmGetIoBufferAlignment,
          Event.MmAllocateNonPagedIoBuffer BufferAlignment (IoBufferSize K BufferAlignment)
            Env.MmAllocateNonPagedIoBuffer.isSome]
        match Env.MmAllocateNonPagedIoBuffer with
        | none =>
          Rtlw81pInitializeDeviceStructures.End KSTATUS.STATUS_INSUFFICIENT_RESOURCES
            (some Device2) Trace2
        | some IoBuffer =>
          let Transfers := Rtlw81pInitializeDeviceStructures.transfers K Env BufferAlignment
            Device2 IoBuffer
          Rtlw81pInitializeDeviceStructures.End Transfers.Status (some Transfers.Device)
            (Trace2 ++ Transfers.Trace)

/-! ## `Rtlw81AddDevice` -/

/-- Vendor identifier of D-Link. -/
def RTLW81_VENDOR_DLINK : Nat := 0x2001

/-- Product identifier of the D-Link DWA-125 D1. -/
def RTLW81_DLINK_DWA125D1 : Nat := 0x330F

/-- Product identifier of the D-Link DWA-123 D1. -/
def RTLW81_DLINK_DWA123D1 : Nat := 0x3310

/-- Vendor identifier of Elecom. -/
def RTLW81_VENDOR_ELECOM : Nat := 0x056E

/-- Product identifier of the Elecom WDC-150SU2M. -/
def RTLW81_ELECOM_WDC150SU2M : Nat := 0x4008

/-- Vendor identifier of Realtek. -/
def RTLW81_VENDOR_REALTEK : Nat := 0x0BDA

/-- Product identifier of the Realtek RTL8188ETV. -/
def RTLW81_REALTEK_RTL8188ETV : Nat := 0x0179

/-- Product identifier of the Realtek RTL8188EU. -/
def RTLW81_REALTEK_RTL8188EU : Nat := 0x8179

/-- The `switch` of `Rtlw81AddDevice` on the vendor identifier: the new value of
`Device->Flags`. -/
def Rtlw81AddDevice.variant (K : RTLW81_CONSTANTS) (UsbVendorId UsbProductId : Nat)
    (Flags : Nat) : Nat :=
  if UsbVendorId = RTLW81_VENDOR_DLINK then
    if UsbProductId = RTLW81_DLINK_DWA123D1 ∨ UsbProductId = RTLW81_DLINK_DWA123D1 then
      Flags ||| K.RTLW81_FLAG_8188E
    else Flags
  else if UsbVendorId = RTLW81_VENDOR_ELECOM then
    if UsbProductId = RTLW81_ELECOM_WDC150SU2M then
      Flags ||| K.RTLW81_FLAG_8188E
    else Flags
  else if UsbVendorId = RTLW81_VENDOR_REALTEK then
    if UsbProductId = RTLW81_REALTEK_RTL8188ETV ∨
        UsbProductId = RTLW81_REALTEK_RTL8188EU then
      Flags ||| K.RTLW81_FLAG_8188E
    else Flags
  else Flags

/-- The label `AddDeviceEnd`: on failure a non-NULL device is destroyed. The
result holds the device that is still alive. -/
def Rtlw81AddDevice.End (Status : KSTATUS) (Device : Option RTLW81_DEVICE)
    (Trace : List Event) : NewDeviceResult :=
  if KSUCCESS Status = false then
    match Device with
    | some D =>
      { Status := Status
        NewDevice := none
        Trace := Trace ++ Rtlw81pDestroyDeviceStructures D }
    | none => { Status := Status, NewDevice := none, Trace := Trace }
  else { Status := Status, NewDevice := Device, Trace := Trace }

/-- The routine `Rtlw81AddDevice`. The device identifier string is read by
`RtlStringScan`, whose results are given by the environment. -/
def Rtlw81AddDevice (K : RTLW81_CONSTANTS) (Env : Environment) (DeviceToken : Nat) :
    NewDeviceResult :=
  let Initialized := Rtlw81pInitializeDeviceStructures K Env DeviceToken
  if KSUCCESS Initialized.Status = false then
    Rtlw81AddDevice.End Initialized.Status Initialized.NewDevice Initialized.Trace
  else
    match Initialized.NewDevice with
    | none => Rtlw81AddDevice.End Initialized.Status none Initialized.Trace
    | some Device =>
      let Trace1 := Initialized.Trace ++ [Event.RtlStringScan]
      if KSUCCESS Env.RtlStringScan = false then
        Rtlw81AddDevice.End Env.RtlStringScan (some Device) Trace1
      else if Env.ItemsScanned ≠ 2 then
        Rtlw81AddDevice.End KSTATUS.STATUS_INVALID_CONFIGURATION (some Device) Trace1
      else
        let Device1 : RTLW81_DEVICE :=
          { Device with
            Flags := Rtlw81AddDevice.variant K Env.UsbVendorId Env.UsbProductId
              Device.Flags }
        Rtlw81AddDevice.End Env.IoAttachDriverToDevice (some Device1)
          (Trace1 ++ [Event.IoAttachDriverToDevice])

/-! ## `Rtlw81pCreateNetworkDevice` -/

/-- The routine `Rtlw81pCreateNetworkDevice`, given the status of
`IoRegisterDeviceInformation`. The creation of the link is not implemented in
the source, so `NetworkLink` is not written. -/
def Rtlw81pCreateNetworkDevice (RegisterStatus : KSTATUS) (Device : RTLW81_DEVICE) :
    DeviceResult :=
  if Device.NetworkLink ≠ none then
    { Status := KSTATUS.STATUS_SUCCESS, Device := Device, Trace := [] }
  else
    { Status := RegisterStatus
      Device := Device
      Trace := [Event.IoRegisterDeviceInformation true] }

/-! ## `Rtlw81DispatchStateChange` -/

/-- Major codes of an I/O request packet. -/
inductive IRP_MAJOR_CODE where
  | IrpMajorStateChange
  | IrpMajorOpen
  | IrpMajorClose
  | IrpMajorIo
  | IrpMajorSystemControl
  deriving DecidableEq, Repr

/-- Minor codes of a state change request; `IrpMinorOther` stands for any code
the driver does not handle. -/
inductive IRP_MINOR_CODE where
  | IrpMinorQueryResources
  | IrpMinorStartDevice
  | IrpMinorQueryChildren
  | IrpMinorRemoveDevice
  | IrpMinorOther (Code : Nat)
  deriving DecidableEq, Repr

/-- Direction of an I/O request packet. -/
inductive IRP_DIRECTION where
  | IrpDown
  | IrpUp
  deriving DecidableEq, Repr

/-- The fields of an I/O request packet that the driver reads. -/
structure IRP where
  MajorCode : IRP_MAJOR_CODE
  MinorCode : IRP_MINOR_CODE
  Direction : IRP_DIRECTION
  deriving DecidableEq, Repr

/-- The routine `Rtlw81pStartDevice`, given the status of `Rtlw81pInitialize`
and the device as that routine leaves it. -/
def Rtlw81pStartDevice (InitializeStatus : KSTATUS) (Initialized : RTLW81_DEVICE) :
    DeviceResult :=
  { Status := InitializeStatus, Device := Initialized, Trace := [Event.Rtlw81pInitialize] }

/-- The device left alive by a dispatch routine (`none` when it was freed) and
the effects of the routine. -/
structure DispatchResult where
  Device : Option RTLW81_DEVICE
  Trace : List Event

/-- The routine `Rtlw81DispatchStateChange`, given the answer of
`Rtlw81pInitialize` for a start request. -/
def Rtlw81DispatchStateChange (InitializeStatus : KSTATUS) (Initialized : RTLW81_DEVICE)
    (Irp : IRP) (DeviceContext : RTLW81_DEVICE) : DispatchResult :=
  let Assert := ASSERT (decide (Irp.MajorCode = IRP_MAJOR_CODE.IrpMajorStateChange))
  if Irp.Direction = IRP_DIRECTION.IrpUp then
    match Irp.MinorCode with
    | IRP_MINOR_CODE.IrpMinorQueryResources =>
      { Device := some DeviceContext
        Trace := Assert ++ [Event.IoCompleteIrp KSTATUS.STATUS_SUCCESS] }
    | IRP_MINOR_CODE.IrpMinorQueryChildren =>
      { Device := some DeviceContext
        Trace := Assert ++ [Event.IoCompleteIrp KSTATUS.STATUS_SUCCESS] }
    | IRP_MINOR_CODE.IrpMinorStartDevice =>
      let Start := Rtlw81pStartDevice InitializeStatus Initialized
      if KSUCCESS Start.Status = false then
        { Device := some Start.Device
          Trace := Assert ++ Start.Trace ++ [Event.IoCompleteIrp Start.Status] }
      else
        { Device := some Start.Device, Trace := Assert ++ Start.Trace }
    | IRP_MINOR_CODE.IrpMinorRemoveDevice =>
      let Stop := Rtlw81pStopDevice DeviceContext
      if KSUCCESS Stop.1 = false then
        { Device := some Stop.2, Trace := Assert ++ [Event.IoCompleteIrp Stop.1] }
      else
        { Device := none, Trace := Assert ++ Rtlw81pDestroyDeviceStructures Stop.2 }
    | IRP_MINOR_CODE.IrpMinorOther _ =>
      { Device := some DeviceContext, Trace := Assert }
  else
    { Device := some DeviceContext, Trace := Assert }

/-! ## Reference descriptions of the teardown -/

/-- The transfers a device holds: the non-NULL receive transfers in array
order, then the control transfer. -/
def RTLW81_DEVICE.transfers (Device : RTLW81_DEVICE) : List USB_TRANSFER :=
  Device.BulkInTransfer.filterMap (fun T => T) ++
    (match Device.ControlTransfer with
      | some Transfer => [Transfer]
      | none => [])

/-- Whether an event cancels or destroys a transfer. -/
def Event.isTransferRelease : Event → Bool
  | .UsbCancelTransfer _ _ => true
  | .UsbDestroyTransfer _ => true
  | _ => false

/-- The calls `Rtlw81pDestroyDeviceStructures` makes after the transfers are
destroyed. -/
def destroyTail (Device : RTLW81_DEVICE) : List Event :=
  (if Device.InterfaceClaimed ≠ false then
    [Event.UsbReleaseInterface Device.InterfaceNumber] else []) ++
  (if Device.UsbCoreHandle ≠ none then [Event.UsbDeviceClose] else []) ++
  (if Device.IoBuffer ≠ none then [Event.MmFreeIoBuffer] else []) ++
  [Event.IoRegisterDeviceInformation false] ++
  (if Device.NetworkLink ≠ none then [Event.NetDestroyLink] else []) ++
  [Event.Rtlw81pDestroyBulkOutTransfers] ++
  (if Device.BulkOutListLock ≠ none then [Event.KeDestroyQueuedLock] else []) ++
  [Event.MmFreePagedPool]

/-- A call of the link life cycle on a device: `Rtlw81pCreateNetworkDevice`,
with the status `IoRegisterDeviceInformation` answers, or
`Rtlw81pDestroyDeviceStructures`. -/
inductive LinkCall where
  | Create (RegisterStatus : KSTATUS)
  | Destroy
  deriving DecidableEq, Repr

/-- The effects of a sequence of link life cycle calls on a device. The device
is freed by `Rtlw81pDestroyDeviceStructures`, so no call follows it. -/
def runLinkCalls : List LinkCall → RTLW81_DEVICE → List Event
  | [], _ => []
  | LinkCall.Create RegisterStatus :: Next, Device =>
    (Rtlw81pCreateNetworkDevice RegisterStatus Device).Trace ++
      runLinkCalls Next (Rtlw81pCreateNetworkDevice RegisterStatus Device).Device
  | LinkCall.Destroy :: _, Device => Rtlw81pDestroyDeviceStructures Device

/-- The number of `Rtlw81pCreateNetworkDevice` calls before the first
`Rtlw81pDestroyDeviceStructures` of a sequence. -/
def createCalls : List LinkCall → Nat
  | [] => 0
  | LinkCall.Create _ :: Next => createCalls Next + 1
  | LinkCall.Destroy :: _ => 0

/-- The position of the first occurrence of an event in a trace. -/
def position (Trace : List Event) (e : Event) : Nat :=
  Trace.indexOf e

/-! ## Reference descriptions of the endpoint scan -/

/-- Whether an endpoint is a bulk endpoint with the IN direction bit. -/
def USB_ENDPOINT_DESCRIPTION.isBulkIn (Endpoint : USB_ENDPOINT_DESCRIPTION) : Bool :=
  Endpoint.isBulk &&
    decide (Endpoint.direction = USB_TRANSFER_DIRECTION.UsbTransferDirectionIn)

/-- Whether an endpoint is a bulk endpoint without the IN direction bit. -/
def USB_ENDPOINT_DESCRIPTION.isBulkOut (Endpoint : USB_ENDPOINT_DESCRIPTION) : Bool :=
  Endpoint.isBulk &&
    decide (Endpoint.direction = USB_TRANSFER_DIRECTION.UsbTransferDirectionOut)

/-- The address of the first bulk IN endpoint of a list, 0 when there is none. -/
def firstBulkIn (Endpoints : List USB_ENDPOINT_DESCRIPTION) : Nat :=
  match Endpoints.find? USB_ENDPOINT_DESCRIPTION.isBulkIn with
  | some Endpoint => Endpoint.EndpointAddress
  | none => 0

/-- The addresses of the bulk OUT endpoints of a list, in list order. -/
def bulkOutAddresses (Endpoints : List USB_ENDPOINT_DESCRIPTION) : List Nat :=
  (Endpoints.filter USB_ENDPOINT_DESCRIPTION.isBulkOut).map
    USB_ENDPOINT_DESCRIPTION.EndpointAddress

/-- Storing addresses into the bulk-out endpoint array from a position on, as
long as the position is below the maximum. -/
def storeBulkOut : List Nat → Nat → List Nat → List Nat
  | Table, _, [] => Table
  | Table, Count, Address :: Next =>
    if Count < RTLW81_MAX_BULK_OUT_ENDPOINT_COUNT then
      storeBulkOut (Table.set Count Address) (Count + 1) Next
    else Table

/-- The endpoint scan loop with its early exit removed: every list entry is
visited. -/
def scanWithoutExit :
    List USB_ENDPOINT_DESCRIPTION → RTLW81_DEVICE → Nat → RTLW81_DEVICE × Nat
  | [], Device, BulkOutEndpointCount => (Device, BulkOutEndpointCount)
  | Endpoint :: Next, Device, BulkOutEndpointCount =>
    if Endpoint.isBulk then
      if Device.BulkInEndpoint = 0 ∧
          Endpoint.direction = USB_TRANSFER_DIRECTION.UsbTransferDirectionIn then
        scanWithoutExit Next
          { Device with BulkInEndpoint := Endpoint.EndpointAddress }
          BulkOutEndpointCount
      else if BulkOutEndpointCount < RTLW81_MAX_BULK_OUT_ENDPOINT_COUNT ∧
          Endpoint.direction = USB_TRANSFER_DIRECTION.UsbTransferDirectionOut then
        scanWithoutExit Next
          { Device with
            BulkOutEndpoint :=
              Device.BulkOutEndpoint.set BulkOutEndpointCount Endpoint.EndpointAddress }
          (BulkOutEndpointCount + 1)
      else
        scanWithoutExit Next Device BulkOutEndpointCount
    else
      scanWithoutExit Next Device BulkOutEndpointCount

/-- A fresh device as far as the endpoint table goes: unclaimed, with the
endpoint fields still zero. -/
def RTLW81_DEVICE.Fresh (Device : RTLW81_DEVICE) : Prop :=
  Device.InterfaceClaimed = false ∧ Device.BulkInEndpoint = 0 ∧
    Device.BulkOutEndpointCount = 0 ∧
    Device.BulkOutEndpoint = List.replicate RTLW81_MAX_BULK_OUT_ENDPOINT_COUNT 0 ∧
    Device.BulkOutTypeEndpointIndex = List.replicate Rtlw81BulkOutTypeCount 0

/-- The entry of the class-to-endpoint table of a traffic class. -/
def RTLW81_DEVICE.typeIndex (Device : RTLW81_DEVICE) (Class : RTLW81_BULK_OUT_TYPE) :
    Nat :=
  Device.BulkOutTypeEndpointIndex.getD Class.toNat 0

/-- The environment has an active configuration by the time the interface is
looked up. -/
def Environment.ConfigurationAvailable (Env : Environment) : Prop :=
  Env.ActiveConfiguration = true ∨ KSUCCESS Env.UsbSetConfiguration = true

/-! ## Reference descriptions of the transfer set-up and of the unwind -/

/-- The receive transfers the set-up loop creates from a loop state when every
allocation succeeds: number of iterations, index and the two running
addresses. -/
def expectedTransfers (K : RTLW81_CONSTANTS) (BufferAlignment : Nat) :
    Nat → Nat → Nat → Nat → List USB_TRANSFER
  | 0, _, _, _ => []
  | Left + 1, Index, VirtualAddress, PhysicalAddress =>
    { Id := Index
      Buffer := VirtualAddress
      BufferPhysicalAddress := PhysicalAddress
      Direction := some USB_TRANSFER_DIRECTION.UsbTransferDirectionIn
      Length := K.RTLW81_BULK_IN_TRANSFER_SIZE
      BufferActualLength := MaxBulkInTransferSize K BufferAlignment } ::
    expectedTransfers K BufferAlignment Left (Index + 1)
      ((VirtualAddress + MaxBulkInTransferSize K BufferAlignment) % 2 ^ 64)
      ((PhysicalAddress + MaxBulkInTransferSize K BufferAlignment) % 2 ^ 64)

/-- The number of `UsbAllocateTransfer` calls that succeed before the first one
that fails, among the calls numbered `Index`, ..., `Index + Left - 1`. -/
def allocatedCount (Env : Environment) : Nat → Nat → Nat
  | 0, _ => 0
  | Left + 1, Index =>
    if Env.UsbAllocateTransfer Index = false then 0
    else allocatedCount Env Left (Index + 1) + 1

/-- Cancelling and destroying each transfer of a list, in order. -/
def cancelAndDestroy : List USB_TRANSFER → List Event
  | [] => []
  | Transfer :: Next =>
    Event.UsbCancelTransfer Transfer.Id true :: Event.UsbDestroyTransfer Transfer.Id ::
      cancelAndDestroy Next

/-- The identity of the transfer an event creates. -/
def Event.creates : Event → Option Nat
  | .UsbAllocateTransfer _ _ Result => Result
  | _ => none

/-- The identity of the transfer an event cancels synchronously. -/
def Event.cancels : Event → Option Nat
  | .UsbCancelTransfer Id true => some Id
  | _ => none

/-- The identity of the transfer an event destroys. -/
def Event.destroys : Event → Option Nat
  | .UsbDestroyTransfer Id => some Id
  | _ => none

/-- The identities of the transfers created in a trace, in order. -/
def createdTransfers (Trace : List Event) : List Nat :=
  Trace.filterMap Event.creates

/-- The identities of the transfers cancelled synchronously in a trace, in
order. -/
def cancelledTransfers (Trace : List Event) : List Nat :=
  Trace.filterMap Event.cancels

/-- The identities of the transfers destroyed in a trace, in order. -/
def destroyedTransfers (Trace : List Event) : List Nat :=
  Trace.filterMap Event.destroys

/-- The identities of the transfers a device holds: the receive transfers in
array order, then the control transfer. -/
def RTLW81_DEVICE.transferIds (Device : RTLW81_DEVICE) : List Nat :=
  (Device.BulkInTransfer.filterMap (fun T => T.map USB_TRANSFER.Id)) ++
    (match Device.ControlTransfer with
      | some Transfer => [Transfer.Id]
      | none => [])

/-- The resources of a device other than its transfers. -/
inductive Resource where
  | DeviceStructure
  | QueuedLock
  | UsbHandle
  | ClaimedInterface
  | IoBuffer
  deriving DecidableEq, Repr

/-- The resource a successful call acquires. -/
def Event.acquires : Event → Option Resource
  | .MmAllocatePagedPool true => some Resource.DeviceStructure
  | .KeCreateQueuedLock true => some Resource.QueuedLock
  | .UsbDriverAttach KSTATUS.STATUS_SUCCESS => some Resource.UsbHandle
  | .UsbClaimInterface _ KSTATUS.STATUS_SUCCESS => some Resource.ClaimedInterface
  | .MmAllocateNonPagedIoBuffer _ _ true => some Resource.IoBuffer
  | _ => none

/-- The resource a call releases. -/
def Event.releases : Event → Option Resource
  | .MmFreePagedPool => some Resource.DeviceStructure
  | .KeDestroyQueuedLock => some Resource.QueuedLock
  | .UsbDeviceClose => some Resource.UsbHandle
  | .UsbReleaseInterface _ => some Resource.ClaimedInterface
  | .MmFreeIoBuffer => some Resource.IoBuffer
  | _ => none

/-- How many of each resource a device holds. -/
def RTLW81_DEVICE.held (Device : RTLW81_DEVICE) : Resource → Nat
  | Resource.DeviceStructure => 1
  | Resource.QueuedLock => if Device.BulkOutListLock ≠ none then 1 else 0
  | Resource.UsbHandle => if Device.UsbCoreHandle ≠ none then 1 else 0
  | Resource.ClaimedInterface => if Device.InterfaceClaimed ≠ false then 1 else 0
  | Resource.IoBuffer => if Device.IoBuffer ≠ none then 1 else 0

/-- How many times a trace acquires a resource. -/
def acquired (Trace : List Event) (R : Resource) : Nat :=
  Trace.countP (fun e => decide (e.acquires = some R))

/-- How many times a trace releases a resource. -/
def released (Trace : List Event) (R : Resource) : Nat :=
  Trace.countP (fun e => decide (e.releases = some R))

/-- A trace that creates, cancels, destroys, acquires and releases nothing. -/
def Quiet (Trace : List Event) : Prop :=
  createdTransfers Trace = [] ∧ cancelledTransfers Trace = [] ∧
    destroyedTransfers Trace = [] ∧ (∀ R, acquired Trace R = 0) ∧
    (∀ R, released Trace R = 0)

/-- A trace and a device agree: the transfers the trace has created are the ones
the device holds, the resources it has acquired are the ones the device holds,
and nothing has been cancelled, destroyed or released. -/
def Balanced (Trace : List Event) (Device : RTLW81_DEVICE) : Prop :=
  createdTransfers Trace = Device.transferIds ∧ cancelledTransfers Trace = [] ∧
    destroyedTransfers Trace = [] ∧ (∀ R, acquired Trace R = Device.held R) ∧
    (∀ R, released Trace R = 0)

/-- A trace is unwound: every transfer it created was cancelled synchronously
and destroyed, each once and in the order of creation, and every resource was
released as often as it was acquired. -/
def Unwound (Trace : List Event) : Prop :=
  destroyedTransfers Trace = createdTransfers Trace ∧
    cancelledTransfers Trace = createdTransfers Trace ∧
    (∀ R, released Trace R = acquired Trace R)

/-- The status of the first failing step of device initialization, in the order
device allocation, lock creation, USB attach, interface set-up, arena
allocation, receive transfer allocations, control transfer allocation; `none`
when no step fails. -/
def firstFailureStatus (K : RTLW81_CONSTANTS) (Env : Environment) (OsDevice : Nat) :
    Option KSTATUS :=
  if Env.MmAllocatePagedPool = false then
    some KSTATUS.STATUS_INSUFFICIENT_RESOURCES
  else if Env.KeCreateQueuedLock = none then
    some KSTATUS.STATUS_INSUFFICIENT_RESOURCES
  else if Env.UsbDriverAttach ≠ KSTATUS.STATUS_SUCCESS then
    some Env.UsbDriverAttach
  else if (Rtlw81pSetUpUsbDevice Env
      (Rtlw81pInitializeDeviceStructures.attached K Env OsDevice)).Status ≠
      KSTATUS.STATUS_SUCCESS then
    some (Rtlw81pSetUpUsbDevice Env
      (Rtlw81pInitializeDeviceStructures.attached K Env OsDevice)).Status
  else if Env.MmAllocateNonPagedIoBuffer = none then
    some KSTATUS.STATUS_INSUFFICIENT_RESOURCES
  else if (List.range (K.RTLW81_BULK_IN_TRANSFER_COUNT + 1)).any
      (fun Call => Env.UsbAllocateTransfer Call = false) then
    some KSTATUS.STATUS_INSUFFICIENT_RESOURCES
  else none

/-- The virtual buffer regions of the transfers of a device, as start and
length: the receive transfers in array order, then the control transfer. -/
def RTLW81_DEVICE.regions (Device : RTLW81_DEVICE) : List (Nat × Nat) :=
  (Device.BulkInTransfer.filterMap
      (fun T => T.map (fun Transfer => (Transfer.Buffer, Transfer.BufferActualLength)))) ++
    (match Device.ControlTransfer with
      | some Transfer => [(Transfer.Buffer, Transfer.BufferActualLength)]
      | none => [])

/-- The physical buffer regions of the transfers of a device, as start and
length: the receive transfers in array order, then the control transfer. -/
def RTLW81_DEVICE.physicalRegions (Device : RTLW81_DEVICE) : List (Nat × Nat) :=
  (Device.BulkInTransfer.filterMap
      (fun T => T.map (fun Transfer =>
        (Transfer.BufferPhysicalAddress, Transfer.BufferActualLength)))) ++
    (match Device.ControlTransfer with
      | some Transfer => [(Transfer.BufferPhysicalAddress, Transfer.BufferActualLength)]
      | none => [])

/-- The vendor and product pairs for which the reference table sets the 8188E
flag. -/
def knownVariants : List (Nat × Nat) :=
  [(0x2001, 0x3310), (0x056E, 0x4008), (0x0BDA, 0x0179), (0x0BDA, 0x8179)]

/-! ## Concrete inputs -/

/-- A bulk IN endpoint at address 0x81. -/
def exampleBulkIn : USB_ENDPOINT_DESCRIPTION := { Attributes := 0x02, EndpointAddress := 0x81 }

/-- A bulk OUT endpoint at address 0x02. -/
def exampleBulkOut2 : USB_ENDPOINT_DESCRIPTION :=
  { Attributes := 0x02, EndpointAddress := 0x02 }

/-- A bulk OUT endpoint at address 0x03. -/
def exampleBulkOut3 : USB_ENDPOINT_DESCRIPTION :=
  { Attributes := 0x02, EndpointAddress := 0x03 }

/-- An interrupt IN endpoint at address 0x84. -/
def exampleInterruptIn : USB_ENDPOINT_DESCRIPTION :=
  { Attributes := 0x03, EndpointAddress := 0x84 }

/-- A vendor-class interface with a bulk IN endpoint, an interrupt endpoint and
bulk OUT endpoints at 0x02 and 0x03, in that order. -/
def exampleInterface : USB_INTERFACE_DESCRIPTION :=
  { Class := 0xFF
    InterfaceNumber := 0
    EndpointListHead := [exampleBulkIn, exampleInterruptIn, exampleBulkOut2, exampleBulkOut3] }

/-- Header constants used in the concrete inputs. -/
def exampleConstants : RTLW81_CONSTANTS :=
  { RTLW81_BULK_IN_TRANSFER_SIZE := 4096
    RTLW81_BULK_IN_TRANSFER_COUNT := 2
    RTLW81_MAX_CONTROL_TRANSFER_SIZE := 64
    RTLW81_FLAG_8188E := 1 }

/-- A single-fragment I/O buffer of 8256 bytes. -/
def exampleIoBuffer : IO_BUFFER :=
  { Fragment0 := { VirtualAddress := 0x100000, PhysicalAddress := 0x200000, Size := 8256 }
    MoreFragments := [] }

/-- An environment in which every call succeeds, for `exampleInterface` and the
identifier `VID_0bda&PID_8179`. -/
def exampleEnvironment : Environment :=
  { MmAllocatePagedPool := true
    KeCreateQueuedLock := some 1
    UsbDriverAttach := KSTATUS.STATUS_SUCCESS
    UsbCoreHandle := 1
    ActiveConfiguration := true
    UsbSetConfiguration := KSTATUS.STATUS_SUCCESS
    ActiveConfigurationAfterSet := true
    UsbGetDesignatedInterface := some exampleInterface
    UsbClaimInterface := KSTATUS.STATUS_SUCCESS
    MmGetIoBufferAlignment := 64
    MmAllocateNonPagedIoBuffer := some exampleIoBuffer
    UsbAllocateTransfer := fun _ => true
    RtlStringScan := KSTATUS.STATUS_SUCCESS
    ItemsScanned := 2
    UsbVendorId := 0x0BDA
    UsbProductId := 0x8179
    IoAttachDriverToDevice := KSTATUS.STATUS_SUCCESS }

/-- The device as `Rtlw81pInitializeDeviceStructures` passes it to
`Rtlw81pSetUpUsbDevice`. -/
def exampleDevice : RTLW81_DEVICE :=
  { RTLW81_DEVICE.zero exampleConstants with
    UsbCoreHandle := some 1
    BulkOutListLock := some 1 }

/-- The environment `exampleEnvironment` without a designated interface. -/
def exampleEnvironmentNoInterface : Environment :=
  { exampleEnvironment with UsbGetDesignatedInterface := none }

/-- The environment `exampleEnvironment` with a failing `UsbClaimInterface`. -/
def exampleEnvironmentClaimFails : Environment :=
  { exampleEnvironment with UsbClaimInterface := KSTATUS.STATUS_OTHER 1 }

/-- The environment `exampleEnvironment` with an I/O buffer of two fragments. -/
def exampleEnvironmentTwoFragments : Environment :=
  { exampleEnvironment with
    MmAllocateNonPagedIoBuffer := some
      { Fragment0 := { VirtualAddress := 0x100000, PhysicalAddress := 0x200000, Size := 4096 }
        MoreFragments :=
          [{ VirtualAddress := 0x101000, PhysicalAddress := 0x300000, Size := 4224 }] } }

/-- The environment `exampleEnvironment` without an I/O buffer. -/
def exampleEnvironmentNoBuffer : Environment :=
  { exampleEnvironment with MmAllocateNonPagedIoBuffer := none }

/-- The environment `exampleEnvironment` in which the second
`UsbAllocateTransfer` call fails. -/
def exampleEnvironmentTransferFails : Environment :=
  { exampleEnvironment with UsbAllocateTransfer := fun Call => decide (Call ≠ 1) }

/-- The device `Rtlw81pInitializeDeviceStructures` returns in the example
environment. -/
def exampleInitialized : RTLW81_DEVICE :=
  (Rtlw81pInitializeDeviceStructures exampleConstants exampleEnvironment 0).NewDevice.getD
    (RTLW81_DEVICE.zero exampleConstants)

/-- The device `exampleInitialized` with a network link. -/
def exampleLinked : RTLW81_DEVICE :=
  { exampleInitialized with NetworkLink := some 1 }

/-- A remove request travelling up the stack. -/
def exampleRemoveIrp : IRP :=
  { MajorCode := IRP_MAJOR_CODE.IrpMajorStateChange
    MinorCode := IRP_MINOR_CODE.IrpMinorRemoveDevice
    Direction := IRP_DIRECTION.IrpUp }

/-- The environment `exampleEnvironment` in which `UsbClaimInterface` fails with
`STATUS_INVALID_CONFIGURATION`. -/
def exampleEnvironmentClaimInvalid : Environment :=
  { exampleEnvironment with UsbClaimInterface := KSTATUS.STATUS_INVALID_CONFIGURATION }

/-- A vendor-class interface with a bulk IN endpoint and an interrupt endpoint
but no bulk OUT endpoint. -/
def exampleInterfaceNoBulkOut : USB_INTERFACE_DESCRIPTION :=
  { Class := 0xFF
    InterfaceNumber := 0
    EndpointListHead := [exampleBulkIn, exampleInterruptIn] }

/-- The environment `exampleEnvironment` with the interface
`exampleInterfaceNoBulkOut`. -/
def exampleEnvironmentNoBulkOut : Environment :=
  { exampleEnvironment with UsbGetDesignatedInterface := some exampleInterfaceNoBulkOut }

/-- The two-fragment I/O buffer of `exampleEnvironmentTwoFragments`. -/
def exampleTwoFragments : IO_BUFFER :=
  { Fragment0 := { VirtualAddress := 0x100000, PhysicalAddress := 0x200000, Size := 4096 }
    MoreFragments :=
      [{ VirtualAddress := 0x101000, PhysicalAddress := 0x300000, Size := 4224 }] }

/-- The device `Rtlw81pInitializeDeviceStructures` returns in the environment
`exampleEnvironmentTwoFragments`. -/
def exampleTwoFragmentsInitialized : RTLW81_DEVICE :=
  (Rtlw81pInitializeDeviceStructures exampleConstants
    exampleEnvironmentTwoFragments 0).NewDevice.getD (RTLW81_DEVICE.zero exampleConstants)

/-- A single-fragment I/O buffer of `2 ^ 31` bytes. -/
def exampleWideIoBuffer : IO_BUFFER :=
  { Fragment0 :=
      { VirtualAddress := 0x100000000, PhysicalAddress := 0x80000000, Size := 0x80000000 }
    MoreFragments := [] }

/-- The environment `exampleEnvironment` with the buffer alignment `2 ^ 31` and
the buffer `exampleWideIoBuffer`. -/
def exampleEnvironmentWideAlignment : Environment :=
  { exampleEnvironment with
    MmGetIoBufferAlignment := 0x80000000
    MmAllocateNonPagedIoBuffer := some exampleWideIoBuffer }

/-- The device `Rtlw81pInitializeDeviceStructures` returns in the environment
`exampleEnvironmentWideAlignment`. -/
def exampleWideInitialized : RTLW81_DEVICE :=
  (Rtlw81pInitializeDeviceStructures exampleConstants
    exampleEnvironmentWideAlignment 0).NewDevice.getD (RTLW81_DEVICE.zero exampleConstants)

instance (Device : RTLW81_DEVICE) : Decidable Device.Fresh := by
  unfold RTLW81_DEVICE.Fresh
  infer_instance

instance (Env : Environment) : Decidable Env.ConfigurationAvailable := by
  unfold Environment.ConfigurationAvailable
  infer_instance

/-! ## The endpoint scan -/

theorem isBulkIn_address_ne_zero (Endpoint : USB_ENDPOINT_DESCRIPTION)
    (h : Endpoint.direction = USB_TRANSFER_DIRECTION.UsbTransferDirectionIn) :
    Endpoint.EndpointAddress ≠ 0 := by
  intro h0
  unfold USB_ENDPOINT_DESCRIPTION.direction at h
  rw [h0] at h
  simp at h

theorem direction_cases (Endpoint : USB_ENDPOINT_DESCRIPTION) :
    Endpoint.direction = USB_TRANSFER_DIRECTION.UsbTransferDirectionIn ∨
    Endpoint.direction = USB_TRANSFER_DIRECTION.UsbTransferDirectionOut := by
  unfold USB_ENDPOINT_DESCRIPTION.direction
  split <;> simp

theorem storeBulkOut_full (Table : List Nat) (Addresses : List Nat) :
    storeBulkOut Table RTLW81_MAX_BULK_OUT_ENDPOINT_COUNT Addresses = Table := by
  cases Addresses <;> simp [storeBulkOut]

theorem firstBulkIn_cons (Endpoint : USB_ENDPOINT_DESCRIPTION)
    (Next : List USB_ENDPOINT_DESCRIPTION) :
    firstBulkIn (Endpoint :: Next) =
      if Endpoint.isBulkIn then Endpoint.EndpointAddress else firstBulkIn Next := by
  unfold firstBulkIn
  by_cases h : Endpoint.isBulkIn = true <;> simp [List.find?, h]

theorem bulkOutAddresses_cons (Endpoint : USB_ENDPOINT_DESCRIPTION)
    (Next : List USB_ENDPOINT_DESCRIPTION) :
    bulkOutAddresses (Endpoint :: Next) =
      if Endpoint.isBulkOut then Endpoint.EndpointAddress :: bulkOutAddresses Next
      else bulkOutAddresses Next := by
  unfold bulkOutAddresses
  by_cases h : Endpoint.isBulkOut = true <;> simp [List.filter, h]

/-- What the scan loop computes from any state with a count of at most 3. -/
theorem scan_eq (Endpoints : List USB_ENDPOINT_DESCRIPTION) :
    ∀ (Device : RTLW81_DEVICE) (Count : Nat),
      Count ≤ RTLW81_MAX_BULK_OUT_ENDPOINT_COUNT →
      Rtlw81pSetUpUsbDevice.scan Endpoints Device Count =
        ({ Device with
            BulkInEndpoint :=
              if Device.BulkInEndpoint ≠ 0 then Device.BulkInEndpoint
              else firstBulkIn Endpoints
            BulkOutEndpoint :=
              storeBulkOut Device.BulkOutEndpoint Count (bulkOutAddresses Endpoints) },
          min RTLW81_MAX_BULK_OUT_ENDPOINT_COUNT
            (Count + (bulkOutAddresses Endpoints).length)) := by
  induction Endpoints with
  | nil =>
    intro Device Count hc
    have h : (if Device.BulkInEndpoint ≠ 0 then Device.BulkInEndpoint else 0) =
        Device.BulkInEndpoint := by
      split <;> simp_all
    simp only [Rtlw81pSetUpUsbDevice.scan, firstBulkIn, bulkOutAddresses, storeBulkOut,
      List.find?, List.filter, List.map, List.length, h]
    simp [hc]
  | cons Endpoint Next ih =>
    intro Device Count hc
    rw [Rtlw81pSetUpUsbDevice.scan, firstBulkIn_cons, bulkOutAddresses_cons]
    by_cases hexit : Device.BulkInEndpoint ≠ 0 ∧
        Count = RTLW81_MAX_BULK_OUT_ENDPOINT_COUNT
    · rw [if_pos hexit]
      obtain ⟨hin, hcount⟩ := hexit
      subst hcount
      simp [storeBulkOut_full, hin]
    · rw [if_neg hexit]
      by_cases hbulk : Endpoint.isBulk = true
      · rw [if_pos hbulk]
        rcases direction_cases Endpoint with hdir | hdir
        · have haddr := isBulkIn_address_ne_zero Endpoint hdir
          by_cases hzero : Device.BulkInEndpoint = 0
          · rw [if_pos ⟨hzero, hdir⟩, ih _ _ hc]
            simp [USB_ENDPOINT_DESCRIPTION.isBulkIn, USB_ENDPOINT_DESCRIPTION.isBulkOut,
              hbulk, hdir, hzero, haddr]
          · rw [if_neg (fun h => hzero h.1), if_neg (by simp [hdir]), ih _ _ hc]
            simp [USB_ENDPOINT_DESCRIPTION.isBulkOut, hbulk, hdir, hzero]
        · rw [if_neg (by simp [hdir])]
          by_cases hlt : Count < RTLW81_MAX_BULK_OUT_ENDPOINT_COUNT
          · rw [if_pos ⟨hlt, hdir⟩, ih _ _ hlt]
            simp [USB_ENDPOINT_DESCRIPTION.isBulkIn, USB_ENDPOINT_DESCRIPTION.isBulkOut,
              hbulk, hdir, storeBulkOut, hlt]
            omega
          · rw [if_neg (fun h => hlt h.1), ih _ _ hc]
            have hcount : Count = RTLW81_MAX_BULK_OUT_ENDPOINT_COUNT :=
              Nat.le_antisymm hc (Nat.le_of_not_lt hlt)
            subst hcount
            simp [USB_ENDPOINT_DESCRIPTION.isBulkIn, USB_ENDPOINT_DESCRIPTION.isBulkOut,
              hbulk, hdir, storeBulkOut_full]
      · rw [if_neg hbulk, ih _ _ hc]
        simp [USB_ENDPOINT_DESCRIPTION.isBulkIn, USB_ENDPOINT_DESCRIPTION.isBulkOut, hbulk]

/-- The loop without the early exit computes the same function of the list. -/
theorem scanWithoutExit_eq (Endpoints : List USB_ENDPOINT_DESCRIPTION) :
    ∀ (Device : RTLW81_DEVICE) (Count : Nat),
      Count ≤ RTLW81_MAX_BULK_OUT_ENDPOINT_COUNT →
      scanWithoutExit Endpoints Device Count =
        ({ Device with
            BulkInEndpoint :=
              if Device.BulkInEndpoint ≠ 0 then Device.BulkInEndpoint
              else firstBulkIn Endpoints
            BulkOutEndpoint :=
              storeBulkOut Device.BulkOutEndpoint Count (bulkOutAddresses Endpoints) },
          min RTLW81_MAX_BULK_OUT_ENDPOINT_COUNT
            (Count + (bulkOutAddresses Endpoints).length)) := by
  induction Endpoints with
  | nil =>
    intro Device Count hc
    have h : (if Device.BulkInEndpoint ≠ 0 then Device.BulkInEndpoint else 0) =
        Device.BulkInEndpoint := by
      split <;> simp_all
    simp only [scanWithoutExit, firstBulkIn, bulkOutAddresses, storeBulkOut,
      List.find?, List.filter, List.map, List.length, h]
    simp [hc]
  | cons Endpoint Next ih =>
    intro Device Count hc
    rw [scanWithoutExit, firstBulkIn_cons, bulkOutAddresses_cons]
    by_cases hbulk : Endpoint.isBulk = true
    · rw [if_pos hbulk]
      rcases direction_cases Endpoint with hdir | hdir
      · have haddr := isBulkIn_address_ne_zero Endpoint hdir
        by_cases hzero : Device.BulkInEndpoint = 0
        · rw [if_pos ⟨hzero, hdir⟩, ih _ _ hc]
          simp [USB_ENDPOINT_DESCRIPTION.isBulkIn, USB_ENDPOINT_DESCRIPTION.isBulkOut,
            hbulk, hdir, hzero, haddr]
        · rw [if_neg (fun h => hzero h.1), if_neg (by simp [hdir]), ih _ _ hc]
          simp [USB_ENDPOINT_DESCRIPTION.isBulkOut, hbulk, hdir, hzero]
      · rw [if_neg (by simp [hdir])]
        by_cases hlt : Count < RTLW81_MAX_BULK_OUT_ENDPOINT_COUNT
        · rw [if_pos ⟨hlt, hdir⟩, ih _ _ hlt]
          simp [USB_ENDPOINT_DESCRIPTION.isBulkIn, USB_ENDPOINT_DESCRIPTION.isBulkOut,
            hbulk, hdir, storeBulkOut, hlt]
          omega
        · rw [if_neg (fun h => hlt h.1), ih _ _ hc]
          have hcount : Count = RTLW81_MAX_BULK_OUT_ENDPOINT_COUNT :=
            Nat.le_antisymm hc (Nat.le_of_not_lt hlt)
          subst hcount
          simp [USB_ENDPOINT_DESCRIPTION.isBulkIn, USB_ENDPOINT_DESCRIPTION.isBulkOut,
            hbulk, hdir, storeBulkOut_full]
    · rw [if_neg hbulk, ih _ _ hc]
      simp [USB_ENDPOINT_DESCRIPTION.isBulkIn, USB_ENDPOINT_DESCRIPTION.isBulkOut, hbulk]

/-- Storing into the zeroed array from position 0 keeps the first three
addresses and leaves the rest zero. -/
theorem storeBulkOut_zero (Addresses : List Nat) :
    storeBulkOut (List.replicate RTLW81_MAX_BULK_OUT_ENDPOINT_COUNT 0) 0 Addresses =
      Addresses.take RTLW81_MAX_BULK_OUT_ENDPOINT_COUNT ++
        List.replicate (RTLW81_MAX_BULK_OUT_ENDPOINT_COUNT -
          min RTLW81_MAX_BULK_OUT_ENDPOINT_COUNT Addresses.length) 0 := by
  rcases Addresses with _ | ⟨a, _ | ⟨b, _ | ⟨c, r⟩⟩⟩
  · simp [storeBulkOut, RTLW81_MAX_BULK_OUT_ENDPOINT_COUNT, List.replicate]
  · simp [storeBulkOut, RTLW81_MAX_BULK_OUT_ENDPOINT_COUNT, List.replicate]
  · simp [storeBulkOut, RTLW81_MAX_BULK_OUT_ENDPOINT_COUNT, List.replicate]
  · have h := storeBulkOut_full [a, b, c] r
    simp [storeBulkOut, RTLW81_MAX_BULK_OUT_ENDPOINT_COUNT, List.replicate] at h ⊢
    exact h

theorem firstBulkIn_ne_zero_iff (Endpoints : List USB_ENDPOINT_DESCRIPTION) :
    firstBulkIn Endpoints ≠ 0 ↔ ∃ Endpoint ∈ Endpoints, Endpoint.isBulkIn = true := by
  induction Endpoints with
  | nil => simp [firstBulkIn]
  | cons Endpoint Next ih =>
    rw [firstBulkIn_cons]
    by_cases h : Endpoint.isBulkIn = true
    · have haddr : Endpoint.EndpointAddress ≠ 0 := by
        apply isBulkIn_address_ne_zero
        simp [USB_ENDPOINT_DESCRIPTION.isBulkIn] at h
        exact h.2
      simp [h, haddr]
    · simp [h, ih]

theorem bulkOutAddresses_eq_nil_iff (Endpoints : List USB_ENDPOINT_DESCRIPTION) :
    bulkOutAddresses Endpoints = [] ↔ ∀ Endpoint ∈ Endpoints, Endpoint.isBulkOut = false := by
  simp [bulkOutAddresses, List.filter_eq_nil_iff]

/-- The body of `Rtlw81pSetUpUsbDevice` from the scan on, reached by an unclaimed
device with a configuration and a vendor-class interface. -/
theorem setUp_vendor (Env : Environment) (Device : RTLW81_DEVICE)
    (Interface : USB_INTERFACE_DESCRIPTION)
    (hclaimed : Device.InterfaceClaimed = false)
    (hconf : Env.ConfigurationAvailable)
    (hif : Env.UsbGetDesignatedInterface = some Interface)
    (hclass : Interface.Class = UsbInterfaceClassVendor) :
    Rtlw81pSetUpUsbDevice Env Device =
      if (Rtlw81pSetUpUsbDevice.scan Interface.EndpointListHead Device 0).1.BulkInEndpoint = 0
          ∨ (Rtlw81pSetUpUsbDevice.scan Interface.EndpointListHead Device 0).2 = 0 then
        { Status := KSTATUS.STATUS_INVALID_CONFIGURATION
          Device := (Rtlw81pSetUpUsbDevice.scan Interface.EndpointListHead Device 0).1
          Trace := Rtlw81pSetUpUsbDevice.configurationTrace Env ++
            [Event.UsbGetDesignatedInterface] }
      else if KSUCCESS Env.UsbClaimInterface = false then
        { Status := Env.UsbClaimInterface
          Device :=
            { (Rtlw81pSetUpUsbDevice.scan Interface.EndpointListHead Device 0).1 with
              BulkOutTypeEndpointIndex :=
                Rtlw81pSetUpUsbDevice.assign
                  (Rtlw81pSetUpUsbDevice.scan Interface.EndpointListHead Device
                    0).1.BulkOutTypeEndpointIndex
                  (Rtlw81pSetUpUsbDevice.scan Interface.EndpointListHead Device 0).2 }
          Trace := Rtlw81pSetUpUsbDevice.configurationTrace Env ++
            [Event.UsbGetDesignatedInterface] ++
            Rtlw81pSetUpUsbDevice.assignAssert
              (Rtlw81pSetUpUsbDevice.scan Interface.EndpointListHead Device 0).2 ++
            [Event.UsbClaimInterface Interface.InterfaceNumber Env.UsbClaimInterface] }
      else
        { Status := KSTATUS.STATUS_SUCCESS
          Device :=
            { (Rtlw81pSetUpUsbDevice.scan Interface.EndpointListHead Device 0).1 with
              BulkOutTypeEndpointIndex :=
                Rtlw81pSetUpUsbDevice.assign
                  (Rtlw81pSetUpUsbDevice.scan Interface.EndpointListHead Device
                    0).1.BulkOutTypeEndpointIndex
                  (Rtlw81pSetUpUsbDevice.scan Interface.EndpointListHead Device 0).2
              InterfaceNumber := Interface.InterfaceNumber
              InterfaceClaimed := true }
          Trace := Rtlw81pSetUpUsbDevice.configurationTrace Env ++
            [Event.UsbGetDesignatedInterface] ++
            Rtlw81pSetUpUsbDevice.assignAssert
              (Rtlw81pSetUpUsbDevice.scan Interface.EndpointListHead Device 0).2 ++
            [Event.UsbClaimInterface Interface.InterfaceNumber Env.UsbClaimInterface] } := by
  have hconf2 : ¬ (Env.ActiveConfiguration = false ∧
      KSUCCESS Env.UsbSetConfiguration = false) := by
    rcases hconf with h | h <;> simp [h]
  unfold Rtlw81pSetUpUsbDevice
  rw [if_neg (by simp [hclaimed]), if_neg hconf2]
  simp only [hif]
  rw [if_neg (by simp [hclass])]

/-- No event of the configuration step is a call of `UsbClaimInterface`. -/
theorem configurationTrace_no_claim (Env : Environment) :
    ∀ e ∈ Rtlw81pSetUpUsbDevice.configurationTrace Env, e.isClaim = false := by
  intro e he
  unfold Rtlw81pSetUpUsbDevice.configurationTrace ASSERT at he
  split at he
  · simp at he; subst he; rfl
  · split at he
    · split at he
      · simp at he; rcases he with h | h | h <;> subst h <;> rfl
      · simp at he; rcases he with h | h | h | h <;> subst h <;> rfl
    · simp at he; rcases he with h | h <;> subst h <;> rfl

/-! ## Claims about `Rtlw81pSetUpUsbDevice` -/

/-- C1: on a fresh device and a vendor-class interface with a bulk-in endpoint,
`Rtlw81pSetUpUsbDevice` writes the class table by the number `n` of bulk-out
endpoints found (capped at 3): for 1 every class has index 0; for 2 background
and best-effort have 1, video and voice 0; for 3 background and best-effort have
2, video 1, voice 0; the only other count is 0 and gives
`STATUS_INVALID_CONFIGURATION`. -/
theorem setUp_class_table (Env : Environment) (Device : RTLW81_DEVICE)
    (Interface : USB_INTERFACE_DESCRIPTION)
    (hfresh : Device.Fresh)
    (hconf : Env.ConfigurationAvailable)
    (hif : Env.UsbGetDesignatedInterface = some Interface)
    (hclass : Interface.Class = UsbInterfaceClassVendor)
    (hin : ∃ Endpoint ∈ Interface.EndpointListHead, Endpoint.isBulkIn = true) :
    (Rtlw81pSetUpUsbDevice.scan Interface.EndpointListHead Device 0).2 =
      min RTLW81_MAX_BULK_OUT_ENDPOINT_COUNT
        (bulkOutAddresses Interface.EndpointListHead).length ∧
    ((Rtlw81pSetUpUsbDevice.scan Interface.EndpointListHead Device 0).2 = 1 →
      ∀ Class, (Rtlw81pSetUpUsbDevice Env Device).Device.typeIndex Class = 0) ∧
    ((Rtlw81pSetUpUsbDevice.scan Interface.EndpointListHead Device 0).2 = 2 →
      (Rtlw81pSetUpUsbDevice Env Device).Device.typeIndex
        RTLW81_BULK_OUT_TYPE.Rtlw81BulkOutBk = 1 ∧
      (Rtlw81pSetUpUsbDevice Env Device).Device.typeIndex
        RTLW81_BULK_OUT_TYPE.Rtlw81BulkOutBe = 1 ∧
      (Rtlw81pSetUpUsbDevice Env Device).Device.typeIndex
        RTLW81_BULK_OUT_TYPE.Rtlw81BulkOutVi = 0 ∧
      (Rtlw81pSetUpUsbDevice Env Device).Device.typeIndex
        RTLW81_BULK_OUT_TYPE.Rtlw81BulkOutVo = 0) ∧
    ((Rtlw81pSetUpUsbDevice.scan Interface.EndpointListHead Device 0).2 = 3 →
      (Rtlw81pSetUpUsbDevice Env Device).Device.typeIndex
        RTLW81_BULK_OUT_TYPE.Rtlw81BulkOutBk = 2 ∧
      (Rtlw81pSetUpUsbDevice Env Device).Device.typeIndex
        RTLW81_BULK_OUT_TYPE.Rtlw81BulkOutBe = 2 ∧
      (Rtlw81pSetUpUsbDevice Env Device).Device.typeIndex
        RTLW81_BULK_OUT_TYPE.Rtlw81BulkOutVi = 1 ∧
      (Rtlw81pSetUpUsbDevice Env Device).Device.typeIndex
        RTLW81_BULK_OUT_TYPE.Rtlw81BulkOutVo = 0) ∧
    ((Rtlw81pSetUpUsbDevice.scan Interface.EndpointListHead Device 0).2 ≠ 1 →
      (Rtlw81pSetUpUsbDevice.scan Interface.EndpointListHead Device 0).2 ≠ 2 →
      (Rtlw81pSetUpUsbDevice.scan Interface.EndpointListHead Device 0).2 ≠ 3 →
      (Rtlw81pSetUpUsbDevice.scan Interface.EndpointListHead Device 0).2 = 0 ∧
      (Rtlw81pSetUpUsbDevice Env Device).Status = KSTATUS.STATUS_INVALID_CONFIGURATION) := by
  obtain ⟨hcl, hbin, _, _, htab⟩ := hfresh
  have hfirst := (firstBulkIn_ne_zero_iff _).2 hin
  have hscan := scan_eq Interface.EndpointListHead Device 0 (Nat.zero_le _)
  have hR := setUp_vendor Env Device Interface hcl hconf hif hclass
  rw [hscan] at hR ⊢
  simp only [hbin, htab, Nat.zero_add, ne_eq, not_true_eq_false, if_false, hfirst,
    false_or] at hR ⊢
  rw [hR]
  refine ⟨trivial, ?_, ?_, ?_, ?_⟩
  · intro h Class
    rw [if_neg (by omega)]
    cases Class <;> split <;>
      simp [h, RTLW81_DEVICE.typeIndex, Rtlw81pSetUpUsbDevice.assign,
        Rtlw81BulkOutTypeCount, RTLW81_BULK_OUT_TYPE.toNat, List.range, List.range.loop]
  · intro h
    rw [if_neg (by omega)]
    split <;>
      simp [h, RTLW81_DEVICE.typeIndex, Rtlw81pSetUpUsbDevice.assign,
        Rtlw81BulkOutTypeCount, RTLW81_BULK_OUT_TYPE.toNat]
  · intro h
    rw [if_neg (by omega)]
    split <;>
      simp [h, RTLW81_DEVICE.typeIndex, Rtlw81pSetUpUsbDevice.assign,
        Rtlw81BulkOutTypeCount, RTLW81_BULK_OUT_TYPE.toNat]
  · intro h1 h2 h3
    have h0 : min RTLW81_MAX_BULK_OUT_ENDPOINT_COUNT
        (bulkOutAddresses Interface.EndpointListHead).length = 0 := by
      have := Nat.min_le_left RTLW81_MAX_BULK_OUT_ENDPOINT_COUNT
        (bulkOutAddresses Interface.EndpointListHead).length
      unfold RTLW81_MAX_BULK_OUT_ENDPOINT_COUNT at *
      omega
    exact ⟨h0, by rw [if_pos h0]⟩

/-- Witness of C1: the example interface has two bulk-out endpoints, and the
table written for it is background, best-effort to 1 and video, voice to 0. -/
theorem setUp_class_table_witness :
    exampleDevice.Fresh ∧ exampleEnvironment.ConfigurationAvailable ∧
    (∃ Endpoint ∈ exampleInterface.EndpointListHead, Endpoint.isBulkIn = true) ∧
    (Rtlw81pSetUpUsbDevice.scan exampleInterface.EndpointListHead exampleDevice 0).2 = 2 ∧
    (Rtlw81pSetUpUsbDevice exampleEnvironment exampleDevice).Device.typeIndex
      RTLW81_BULK_OUT_TYPE.Rtlw81BulkOutBk = 1 ∧
    (Rtlw81pSetUpUsbDevice exampleEnvironment exampleDevice).Device.typeIndex
      RTLW81_BULK_OUT_TYPE.Rtlw81BulkOutBe = 1 ∧
    (Rtlw81pSetUpUsbDevice exampleEnvironment exampleDevice).Device.typeIndex
      RTLW81_BULK_OUT_TYPE.Rtlw81BulkOutVi = 0 ∧
    (Rtlw81pSetUpUsbDevice exampleEnvironment exampleDevice).Device.typeIndex
      RTLW81_BULK_OUT_TYPE.Rtlw81BulkOutVo = 0 :=
  ⟨by decide, by decide, ⟨exampleBulkIn, by decide, by decide⟩, by decide,
    (setUp_class_table exampleEnvironment exampleDevice exampleInterface (by decide)
      (by decide) rfl rfl ⟨exampleBulkIn, by decide, by decide⟩).2.2.1 (by decide)⟩

/-- C2: on a fresh device and a vendor-class interface, the endpoint scan of
`Rtlw81pSetUpUsbDevice` records in `BulkInEndpoint` the address of the first
bulk endpoint with the IN direction bit (0 when there is none), and in
`BulkOutEndpoint` the addresses of the first `min 3 (number of bulk OUT
endpoints)` bulk OUT endpoints in list order, the remaining entries staying 0;
the count is that minimum; endpoints that are not bulk are ignored; and the loop
with the early exit removed gives the same result. -/
theorem setUp_scan_records (Env : Environment) (Device : RTLW81_DEVICE)
    (Interface : USB_INTERFACE_DESCRIPTION)
    (hfresh : Device.Fresh)
    (hconf : Env.ConfigurationAvailable)
    (hif : Env.UsbGetDesignatedInterface = some Interface)
    (hclass : Interface.Class = UsbInterfaceClassVendor) :
    (Rtlw81pSetUpUsbDevice Env Device).Device.BulkInEndpoint =
      firstBulkIn Interface.EndpointListHead ∧
    (Rtlw81pSetUpUsbDevice Env Device).Device.BulkOutEndpoint =
      (bulkOutAddresses Interface.EndpointListHead).take
          RTLW81_MAX_BULK_OUT_ENDPOINT_COUNT ++
        List.replicate (RTLW81_MAX_BULK_OUT_ENDPOINT_COUNT -
          min RTLW81_MAX_BULK_OUT_ENDPOINT_COUNT
            (bulkOutAddresses Interface.EndpointListHead).length) 0 ∧
    (Rtlw81pSetUpUsbDevice.scan Interface.EndpointListHead Device 0).2 =
      min RTLW81_MAX_BULK_OUT_ENDPOINT_COUNT
        (bulkOutAddresses Interface.EndpointListHead).length ∧
    Rtlw81pSetUpUsbDevice.scan Interface.EndpointListHead Device 0 =
      scanWithoutExit Interface.EndpointListHead Device 0 := by
  obtain ⟨hcl, hbin, _, hout, _⟩ := hfresh
  have hscan := scan_eq Interface.EndpointListHead Device 0 (Nat.zero_le _)
  have hall := scanWithoutExit_eq Interface.EndpointListHead Device 0 (Nat.zero_le _)
  have hR := setUp_vendor Env Device Interface hcl hconf hif hclass
  rw [hscan] at hR
  rw [hscan, hall, hR]
  simp only [hbin, hout, storeBulkOut_zero, Nat.zero_add, ne_eq, not_true_eq_false,
    if_false]
  refine ⟨?_, ?_, trivial, trivial⟩
  · split
    · rfl
    · split <;> rfl
  · split
    · rfl
    · split <;> rfl

/-- Witness of C2: bulk-out endpoints found as 0x02 then 0x03 are stored as
entries 0 and 1, so background and best-effort traffic (index 1) uses address
0x03 and video and voice traffic (index 0) uses address 0x02. -/
theorem setUp_scan_records_witness :
    exampleDevice.Fresh ∧ exampleEnvironment.ConfigurationAvailable ∧
    bulkOutAddresses exampleInterface.EndpointListHead = [0x02, 0x03] ∧
    firstBulkIn exampleInterface.EndpointListHead = 0x81 ∧
    (Rtlw81pSetUpUsbDevice exampleEnvironment exampleDevice).Device.BulkInEndpoint = 0x81 ∧
    (Rtlw81pSetUpUsbDevice exampleEnvironment exampleDevice).Device.BulkOutEndpoint =
      [0x02, 0x03, 0] ∧
    (Rtlw81pSetUpUsbDevice exampleEnvironment exampleDevice).Device.BulkOutEndpoint.getD
      ((Rtlw81pSetUpUsbDevice exampleEnvironment exampleDevice).Device.typeIndex
        RTLW81_BULK_OUT_TYPE.Rtlw81BulkOutBk) 0 = 0x03 ∧
    (Rtlw81pSetUpUsbDevice exampleEnvironment exampleDevice).Device.BulkOutEndpoint.getD
      ((Rtlw81pSetUpUsbDevice exampleEnvironment exampleDevice).Device.typeIndex
        RTLW81_BULK_OUT_TYPE.Rtlw81BulkOutBe) 0 = 0x03 ∧
    (Rtlw81pSetUpUsbDevice exampleEnvironment exampleDevice).Device.BulkOutEndpoint.getD
      ((Rtlw81pSetUpUsbDevice exampleEnvironment exampleDevice).Device.typeIndex
        RTLW81_BULK_OUT_TYPE.Rtlw81BulkOutVi) 0 = 0x02 ∧
    (Rtlw81pSetUpUsbDevice exampleEnvironment exampleDevice).Device.BulkOutEndpoint.getD
      ((Rtlw81pSetUpUsbDevice exampleEnvironment exampleDevice).Device.typeIndex
        RTLW81_BULK_OUT_TYPE.Rtlw81BulkOutVo) 0 = 0x02 :=
  have h := setUp_scan_records exampleEnvironment exampleDevice exampleInterface
    (by decide) (by decide) rfl rfl
  have hout : bulkOutAddresses exampleInterface.EndpointListHead = [0x02, 0x03] := by
    decide
  have hin : firstBulkIn exampleInterface.EndpointListHead = 0x81 := by decide
  ⟨by decide, by decide, hout, hin, h.1.trans hin,
    h.2.1.trans (by rw [hout]; decide), by decide, by decide, by decide, by decide⟩

/-- On a fresh device the scan fails its check exactly when the list has no bulk
IN endpoint or no bulk OUT endpoint. -/
theorem scan_zero_iff (Device : RTLW81_DEVICE) (Endpoints : List USB_ENDPOINT_DESCRIPTION)
    (hbin : Device.BulkInEndpoint = 0) :
    ((Rtlw81pSetUpUsbDevice.scan Endpoints Device 0).1.BulkInEndpoint = 0 ∨
      (Rtlw81pSetUpUsbDevice.scan Endpoints Device 0).2 = 0) ↔
    ((∀ Endpoint ∈ Endpoints, Endpoint.isBulkIn = false) ∨
      (∀ Endpoint ∈ Endpoints, Endpoint.isBulkOut = false)) := by
  rw [scan_eq Endpoints Device 0 (Nat.zero_le _)]
  simp only [hbin, ne_eq, not_true_eq_false, if_false, Nat.zero_add]
  have h1 : firstBulkIn Endpoints = 0 ↔ ∀ Endpoint ∈ Endpoints, Endpoint.isBulkIn = false := by
    have := firstBulkIn_ne_zero_iff Endpoints
    constructor
    · intro h0 e he
      by_contra hc
      exact (this.2 ⟨e, he, by simpa using hc⟩) h0
    · intro hall
      by_contra hc
      obtain ⟨e, he, hb⟩ := this.1 hc
      rw [hall e he] at hb
      exact Bool.false_ne_true hb
  have h2 : min RTLW81_MAX_BULK_OUT_ENDPOINT_COUNT (bulkOutAddresses Endpoints).length = 0 ↔
      ∀ Endpoint ∈ Endpoints, Endpoint.isBulkOut = false := by
    rw [← bulkOutAddresses_eq_nil_iff, ← List.length_eq_zero]
    unfold RTLW81_MAX_BULK_OUT_ENDPOINT_COUNT
    omega
  rw [h1, h2]

/-- Counterexample to C3 as stated: the fresh example device, a vendor-class
interface on which the scan finds the bulk IN endpoint 0x81 and the bulk OUT
endpoints 0x02 and 0x03, and a `UsbClaimInterface` that fails with
`STATUS_INVALID_CONFIGURATION`. The routine returns
`STATUS_INVALID_CONFIGURATION` although neither kind of endpoint is missing, and
`UsbClaimInterface` was called. -/
theorem setUp_failure_status_counterexample :
    exampleDevice.Fresh ∧ exampleEnvironmentClaimInvalid.ConfigurationAvailable ∧
    exampleEnvironmentClaimInvalid.UsbGetDesignatedInterface = some exampleInterface ∧
    exampleInterface.Class = UsbInterfaceClassVendor ∧
    (Rtlw81pSetUpUsbDevice exampleEnvironmentClaimInvalid exampleDevice).Status =
      KSTATUS.STATUS_INVALID_CONFIGURATION ∧
    ¬ ((∀ Endpoint ∈ exampleInterface.EndpointListHead, Endpoint.isBulkIn = false) ∨
      (∀ Endpoint ∈ exampleInterface.EndpointListHead, Endpoint.isBulkOut = false)) ∧
    (Rtlw81pSetUpUsbDevice exampleEnvironmentClaimInvalid exampleDevice).Device.BulkInEndpoint
      = 0x81 ∧
    (Rtlw81pSetUpUsbDevice exampleEnvironmentClaimInvalid exampleDevice).Device.BulkOutEndpoint
      = [0x02, 0x03, 0] ∧
    Event.UsbClaimInterface 0 KSTATUS.STATUS_INVALID_CONFIGURATION ∈
      (Rtlw81pSetUpUsbDevice exampleEnvironmentClaimInvalid exampleDevice).Trace ∧
    (Rtlw81pSetUpUsbDevice exampleEnvironmentClaimInvalid exampleDevice).Device.InterfaceClaimed
      = false := by
  decide

/-- C3, amended: for a fresh unclaimed device with a configuration available,
`Rtlw81pSetUpUsbDevice` returns `STATUS_NO_INTERFACE` when the designated
interface is absent or not of the vendor class, with `InterfaceClaimed` false
and `UsbClaimInterface` not called. For a vendor-class interface: when the list
has no bulk IN or no bulk OUT endpoint the routine returns
`STATUS_INVALID_CONFIGURATION`, `InterfaceClaimed` stays false and
`UsbClaimInterface` is not called; when it has both, `UsbClaimInterface` is
called and its status is returned. So the routine returns
`STATUS_INVALID_CONFIGURATION` without calling `UsbClaimInterface` exactly when
a kind of endpoint is missing, and it returns `STATUS_INVALID_CONFIGURATION`
exactly when a kind of endpoint is missing or `UsbClaimInterface` itself returns
that status. -/
theorem setUp_failure_status (Env : Environment) (Device : RTLW81_DEVICE)
    (hfresh : Device.Fresh)
    (hconf : Env.ConfigurationAvailable) :
    ((Env.UsbGetDesignatedInterface = none ∨
        ∃ Interface, Env.UsbGetDesignatedInterface = some Interface ∧
          Interface.Class ≠ UsbInterfaceClassVendor) →
      (Rtlw81pSetUpUsbDevice Env Device).Status = KSTATUS.STATUS_NO_INTERFACE ∧
      (Rtlw81pSetUpUsbDevice Env Device).Device.InterfaceClaimed = false ∧
      ∀ e ∈ (Rtlw81pSetUpUsbDevice Env Device).Trace, e.isClaim = false) ∧
    (∀ Interface, Env.UsbGetDesignatedInterface = some Interface →
      Interface.Class = UsbInterfaceClassVendor →
      (((∀ Endpoint ∈ Interface.EndpointListHead, Endpoint.isBulkIn = false) ∨
          (∀ Endpoint ∈ Interface.EndpointListHead, Endpoint.isBulkOut = false)) →
        (Rtlw81pSetUpUsbDevice Env Device).Status = KSTATUS.STATUS_INVALID_CONFIGURATION ∧
        (Rtlw81pSetUpUsbDevice Env Device).Device.InterfaceClaimed = false ∧
        ∀ e ∈ (Rtlw81pSetUpUsbDevice Env Device).Trace, e.isClaim = false) ∧
      (¬ ((∀ Endpoint ∈ Interface.EndpointListHead, Endpoint.isBulkIn = false) ∨
          (∀ Endpoint ∈ Interface.EndpointListHead, Endpoint.isBulkOut = false)) →
        (Rtlw81pSetUpUsbDevice Env Device).Status = Env.UsbClaimInterface ∧
        Event.UsbClaimInterface Interface.InterfaceNumber Env.UsbClaimInterface ∈
          (Rtlw81pSetUpUsbDevice Env Device).Trace) ∧
      (((Rtlw81pSetUpUsbDevice Env Device).Status = KSTATUS.STATUS_INVALID_CONFIGURATION ∧
          ∀ e ∈ (Rtlw81pSetUpUsbDevice Env Device).Trace, e.isClaim = false) ↔
        ((∀ Endpoint ∈ Interface.EndpointListHead, Endpoint.isBulkIn = false) ∨
          (∀ Endpoint ∈ Interface.EndpointListHead, Endpoint.isBulkOut = false))) ∧
      ((Rtlw81pSetUpUsbDevice Env Device).Status = KSTATUS.STATUS_INVALID_CONFIGURATION ↔
        (((∀ Endpoint ∈ Interface.EndpointListHead, Endpoint.isBulkIn = false) ∨
            (∀ Endpoint ∈ Interface.EndpointListHead, Endpoint.isBulkOut = false)) ∨
          Env.UsbClaimInterface = KSTATUS.STATUS_INVALID_CONFIGURATION))) := by
  obtain ⟨hcl, hbin, _, _, _⟩ := hfresh
  have hconf2 : ¬ (Env.ActiveConfiguration = false ∧
      KSUCCESS Env.UsbSetConfiguration = false) := by
    rcases hconf with h | h <;> simp [h]
  have hnoclaim : ∀ e ∈ Rtlw81pSetUpUsbDevice.configurationTrace Env ++
      [Event.UsbGetDesignatedInterface], e.isClaim = false := by
    intro e he
    rcases List.mem_append.1 he with h | h
    · exact configurationTrace_no_claim Env e h
    · simp at h; subst h; rfl
  constructor
  · intro habsent
    unfold Rtlw81pSetUpUsbDevice
    rw [if_neg (by simp [hcl]), if_neg hconf2]
    rcases habsent with hnone | ⟨Interface, hsome, hclass⟩
    · simp only [hnone]
      exact ⟨trivial, hcl, hnoclaim⟩
    · simp only [hsome]
      rw [if_pos hclass]
      exact ⟨rfl, hcl, hnoclaim⟩
  · intro Interface hif hclass
    have hR := setUp_vendor Env Device Interface hcl hconf hif hclass
    have hz := scan_zero_iff Device Interface.EndpointListHead hbin
    have hclaimed : (Rtlw81pSetUpUsbDevice.scan Interface.EndpointListHead Device
        0).1.InterfaceClaimed = false := by
      rw [scan_eq _ _ _ (Nat.zero_le _)]
      exact hcl
    have hmissing : ((∀ Endpoint ∈ Interface.EndpointListHead, Endpoint.isBulkIn = false) ∨
        (∀ Endpoint ∈ Interface.EndpointListHead, Endpoint.isBulkOut = false)) →
        (Rtlw81pSetUpUsbDevice Env Device).Status = KSTATUS.STATUS_INVALID_CONFIGURATION ∧
        (Rtlw81pSetUpUsbDevice Env Device).Device.InterfaceClaimed = false ∧
        ∀ e ∈ (Rtlw81pSetUpUsbDevice Env Device).Trace, e.isClaim = false := by
      intro hzero
      rw [hR, if_pos (hz.2 hzero)]
      exact ⟨rfl, hclaimed, hnoclaim⟩
    have hboth : ¬ ((∀ Endpoint ∈ Interface.EndpointListHead, Endpoint.isBulkIn = false) ∨
        (∀ Endpoint ∈ Interface.EndpointListHead, Endpoint.isBulkOut = false)) →
        (Rtlw81pSetUpUsbDevice Env Device).Status = Env.UsbClaimInterface ∧
        Event.UsbClaimInterface Interface.InterfaceNumber Env.UsbClaimInterface ∈
          (Rtlw81pSetUpUsbDevice Env Device).Trace := by
      intro hzero
      rw [hR, if_neg (fun h => hzero (hz.1 h))]
      by_cases hs : KSUCCESS Env.UsbClaimInterface = false
      · rw [if_pos hs]
        exact ⟨rfl, by simp⟩
      · rw [if_neg hs]
        simp [KSUCCESS] at hs
        exact ⟨hs.symm, by simp⟩
    refine ⟨hmissing, hboth, ?_, ?_⟩
    · constructor
      · rintro ⟨_, hquiet⟩
        by_contra hzero
        have := hquiet _ (hboth hzero).2
        simp [Event.isClaim] at this
      · intro hzero
        exact ⟨(hmissing hzero).1, (hmissing hzero).2.2⟩
    · constructor
      · intro hstatus
        by_cases hzero : ((∀ Endpoint ∈ Interface.EndpointListHead, Endpoint.isBulkIn = false) ∨
            (∀ Endpoint ∈ Interface.EndpointListHead, Endpoint.isBulkOut = false))
        · exact Or.inl hzero
        · right
          rw [← (hboth hzero).1]
          exact hstatus
      · rintro (hzero | hclaim)
        · exact (hmissing hzero).1
        · by_cases hzero : ((∀ Endpoint ∈ Interface.EndpointListHead,
              Endpoint.isBulkIn = false) ∨
              (∀ Endpoint ∈ Interface.EndpointListHead, Endpoint.isBulkOut = false))
          · exact (hmissing hzero).1
          · rw [(hboth hzero).1]
            exact hclaim

/-- Witness of C3: without a designated interface the example device gets
`STATUS_NO_INTERFACE` and stays unclaimed; with a vendor-class interface that
has no bulk OUT endpoint it gets `STATUS_INVALID_CONFIGURATION`, stays
unclaimed and `UsbClaimInterface` is not called; with both kinds of endpoint
and a `UsbClaimInterface` that fails with `STATUS_INVALID_CONFIGURATION` the
call is made and its status is returned. -/
theorem setUp_failure_status_witness :
    exampleDevice.Fresh ∧ exampleEnvironmentNoInterface.ConfigurationAvailable ∧
    exampleEnvironmentNoBulkOut.ConfigurationAvailable ∧
    exampleEnvironmentClaimInvalid.ConfigurationAvailable ∧
    ((Rtlw81pSetUpUsbDevice exampleEnvironmentNoInterface exampleDevice).Status =
        KSTATUS.STATUS_NO_INTERFACE ∧
      (Rtlw81pSetUpUsbDevice exampleEnvironmentNoInterface
        exampleDevice).Device.InterfaceClaimed = false ∧
      ∀ e ∈ (Rtlw81pSetUpUsbDevice exampleEnvironmentNoInterface exampleDevice).Trace,
        e.isClaim = false) ∧
    ((Rtlw81pSetUpUsbDevice exampleEnvironmentNoBulkOut exampleDevice).Status =
        KSTATUS.STATUS_INVALID_CONFIGURATION ∧
      (Rtlw81pSetUpUsbDevice exampleEnvironmentNoBulkOut
        exampleDevice).Device.InterfaceClaimed = false ∧
      ∀ e ∈ (Rtlw81pSetUpUsbDevice exampleEnvironmentNoBulkOut exampleDevice).Trace,
        e.isClaim = false) ∧
    ((Rtlw81pSetUpUsbDevice exampleEnvironmentClaimInvalid exampleDevice).Status =
        exampleEnvironmentClaimInvalid.UsbClaimInterface ∧
      Event.UsbClaimInterface exampleInterface.InterfaceNumber
        exampleEnvironmentClaimInvalid.UsbClaimInterface ∈
        (Rtlw81pSetUpUsbDevice exampleEnvironmentClaimInvalid exampleDevice).Trace) :=
  ⟨by decide, by decide, by decide, by decide,
    (setUp_failure_status exampleEnvironmentNoInterface exampleDevice (by decide)
      (by decide)).1 (Or.inl rfl),
    ((setUp_failure_status exampleEnvironmentNoBulkOut exampleDevice (by decide)
      (by decide)).2 exampleInterfaceNoBulkOut rfl rfl).1 (Or.inr (by decide)),
    ((setUp_failure_status exampleEnvironmentClaimInvalid exampleDevice (by decide)
      (by decide)).2 exampleInterface rfl rfl).2.1 (by decide)⟩

/-- Counterexample to C4 as stated: on the fresh example device the scan
succeeds and `UsbClaimInterface` fails with `STATUS_OTHER 1`; that status is
returned and the device stays unclaimed, but the endpoint table is not equal to
its value before the call: the bulk-in address, the bulk-out addresses and
the class table written before the claim are still there. -/
theorem setUp_claim_failure_counterexample :
    exampleDevice.InterfaceClaimed = false ∧
    KSUCCESS exampleEnvironmentClaimFails.UsbClaimInterface = false ∧
    Event.UsbClaimInterface 0 (KSTATUS.STATUS_OTHER 1) ∈
      (Rtlw81pSetUpUsbDevice exampleEnvironmentClaimFails exampleDevice).Trace ∧
    (Rtlw81pSetUpUsbDevice exampleEnvironmentClaimFails exampleDevice).Status =
      KSTATUS.STATUS_OTHER 1 ∧
    (Rtlw81pSetUpUsbDevice exampleEnvironmentClaimFails exampleDevice).Device.InterfaceClaimed
      = false ∧
    exampleDevice.BulkInEndpoint = 0 ∧
    (Rtlw81pSetUpUsbDevice exampleEnvironmentClaimFails exampleDevice).Device.BulkInEndpoint
      = 0x81 ∧
    exampleDevice.BulkOutEndpoint = [0, 0, 0] ∧
    (Rtlw81pSetUpUsbDevice exampleEnvironmentClaimFails exampleDevice).Device.BulkOutEndpoint
      = [0x02, 0x03, 0] ∧
    exampleDevice.BulkOutTypeEndpointIndex = [0, 0, 0, 0] ∧
    (Rtlw81pSetUpUsbDevice exampleEnvironmentClaimFails
      exampleDevice).Device.BulkOutTypeEndpointIndex = [1, 1, 0, 0] := by
  decide

/-- C4, amended: when the scan of an unclaimed device succeeds and
`UsbClaimInterface` fails, `Rtlw81pSetUpUsbDevice` returns the status of
`UsbClaimInterface`, and `InterfaceClaimed`, `InterfaceNumber` and every field
outside the endpoint table are unchanged; the endpoint table is not restored: it
holds what the scan and the class assignment wrote (a nonzero `BulkInEndpoint`,
the bulk-out addresses stored from entry 0, and the class table for the count
found). -/
theorem setUp_claim_failure (Env : Environment) (Device : RTLW81_DEVICE)
    (Interface : USB_INTERFACE_DESCRIPTION)
    (hclaimed : Device.InterfaceClaimed = false)
    (hconf : Env.ConfigurationAvailable)
    (hif : Env.UsbGetDesignatedInterface = some Interface)
    (hclass : Interface.Class = UsbInterfaceClassVendor)
    (hin : Device.BulkInEndpoint ≠ 0 ∨
      ∃ Endpoint ∈ Interface.EndpointListHead, Endpoint.isBulkIn = true)
    (hout : ∃ Endpoint ∈ Interface.EndpointListHead, Endpoint.isBulkOut = true)
    (hfail : KSUCCESS Env.UsbClaimInterface = false) :
    (Rtlw81pSetUpUsbDevice Env Device).Status = Env.UsbClaimInterface ∧
    (Rtlw81pSetUpUsbDevice Env Device).Device.InterfaceClaimed = Device.InterfaceClaimed ∧
    (Rtlw81pSetUpUsbDevice Env Device).Device.InterfaceNumber = Device.InterfaceNumber ∧
    (Rtlw81pSetUpUsbDevice Env Device).Device.BulkInEndpoint ≠ 0 ∧
    (Rtlw81pSetUpUsbDevice Env Device).Device =
      { Device with
        BulkInEndpoint :=
          if Device.BulkInEndpoint ≠ 0 then Device.BulkInEndpoint
          else firstBulkIn Interface.EndpointListHead
        BulkOutEndpoint :=
          storeBulkOut Device.BulkOutEndpoint 0 (bulkOutAddresses Interface.EndpointListHead)
        BulkOutTypeEndpointIndex :=
          Rtlw81pSetUpUsbDevice.assign Device.BulkOutTypeEndpointIndex
            (min RTLW81_MAX_BULK_OUT_ENDPOINT_COUNT
              (bulkOutAddresses Interface.EndpointListHead).length) } := by
  have hR := setUp_vendor Env Device Interface hclaimed hconf hif hclass
  have hscan := scan_eq Interface.EndpointListHead Device 0 (Nat.zero_le _)
  have hbin : (if Device.BulkInEndpoint ≠ 0 then Device.BulkInEndpoint
      else firstBulkIn Interface.EndpointListHead) ≠ 0 := by
    by_cases h0 : Device.BulkInEndpoint = 0
    · rw [if_neg (by simpa using h0)]
      rcases hin with h | h
      · exact absurd h0 h
      · exact (firstBulkIn_ne_zero_iff _).2 h
    · rw [if_pos h0]
      exact h0
  have hcount : min RTLW81_MAX_BULK_OUT_ENDPOINT_COUNT
      (bulkOutAddresses Interface.EndpointListHead).length ≠ 0 := by
    have hne : bulkOutAddresses Interface.EndpointListHead ≠ [] := by
      intro hnil
      obtain ⟨e, he, hb⟩ := hout
      rw [(bulkOutAddresses_eq_nil_iff _).1 hnil e he] at hb
      exact Bool.false_ne_true hb
    have := List.length_pos.2 hne
    unfold RTLW81_MAX_BULK_OUT_ENDPOINT_COUNT
    omega
  rw [hscan] at hR
  simp only [Nat.zero_add] at hR
  rw [if_neg (by simp only [not_or]; exact ⟨hbin, hcount⟩), if_pos hfail] at hR
  rw [hR]
  exact ⟨rfl, rfl, rfl, hbin, rfl⟩

/-- Witness of the amended C4 on the example device with a failing claim. -/
theorem setUp_claim_failure_witness :
    exampleDevice.InterfaceClaimed = false ∧
    exampleEnvironmentClaimFails.ConfigurationAvailable ∧
    KSUCCESS exampleEnvironmentClaimFails.UsbClaimInterface = false ∧
    (Rtlw81pSetUpUsbDevice exampleEnvironmentClaimFails exampleDevice).Status =
      exampleEnvironmentClaimFails.UsbClaimInterface ∧
    (Rtlw81pSetUpUsbDevice exampleEnvironmentClaimFails exampleDevice).Device.BulkInEndpoint
      ≠ 0 :=
  have h := setUp_claim_failure exampleEnvironmentClaimFails exampleDevice exampleInterface
    rfl (by decide) rfl rfl (Or.inr ⟨exampleBulkIn, by decide, by decide⟩)
    ⟨exampleBulkOut2, by decide, by decide⟩ rfl
  ⟨rfl, by decide, rfl, h.1, h.2.2.2.1⟩

/-- `Rtlw81pSetUpUsbDevice` never writes `Device->BulkOutEndpointCount`. -/
theorem setUp_BulkOutEndpointCount (Env : Environment) (Device : RTLW81_DEVICE) :
    (Rtlw81pSetUpUsbDevice Env Device).Device.BulkOutEndpointCount =
      Device.BulkOutEndpointCount := by
  have hs : ∀ Endpoints : List USB_ENDPOINT_DESCRIPTION,
      (Rtlw81pSetUpUsbDevice.scan Endpoints Device 0).1.BulkOutEndpointCount =
        Device.BulkOutEndpointCount := by
    intro Endpoints
    rw [scan_eq _ _ _ (Nat.zero_le _)]
  unfold Rtlw81pSetUpUsbDevice
  repeat' split
  all_goals first | rfl | (simp [hs]; done) | (simp [hs]; split <;> simp [hs])

/-- A successful `Rtlw81pSetUpUsbDevice` leaves the interface claimed. -/
theorem setUp_success_claimed (Env : Environment) (Device : RTLW81_DEVICE)
    (hsuccess : (Rtlw81pSetUpUsbDevice Env Device).Status = KSTATUS.STATUS_SUCCESS) :
    (Rtlw81pSetUpUsbDevice Env Device).Device.InterfaceClaimed = true := by
  unfold Rtlw81pSetUpUsbDevice at hsuccess ⊢
  split
  · rename_i h
    simpa using h
  · rw [if_neg (by assumption)] at hsuccess
    split
    · rename_i h
      rw [if_pos h] at hsuccess
      simp [KSUCCESS] at h
      exact absurd hsuccess h.2
    · rename_i h
      rw [if_neg h] at hsuccess
      split
      · rename_i hnone
        simp only [hnone] at hsuccess
        exact KSTATUS.noConfusion hsuccess
      · rename_i Interface hsome
        simp only [hsome] at hsuccess
        split
        · rename_i hc
          rw [if_pos hc] at hsuccess
          exact KSTATUS.noConfusion hsuccess
        · rename_i hc
          rw [if_neg hc] at hsuccess
          simp only [] at hsuccess ⊢
          split
          · rename_i hz
            rw [if_pos hz] at hsuccess
            exact KSTATUS.noConfusion hsuccess
          · rename_i hz
            rw [if_neg hz] at hsuccess
            split
            · rename_i hs
              rw [if_pos hs] at hsuccess
              simp [KSUCCESS] at hs
              exact absurd hsuccess hs
            · rfl

/-- C5, the code at the failing input: no path of `Rtlw81pSetUpUsbDevice` writes
`Device->BulkOutEndpointCount` (the scan counts in a local variable). After a
successful set-up of the example device, directly or through
`Rtlw81pInitializeDeviceStructures`, the interface is claimed and the bulk-in
endpoint is set while `BulkOutEndpointCount` is still 0, and calling
`Rtlw81pSetUpUsbDevice` again raises the assertion of the already-claimed
path. -/
theorem setUp_claimed_count_zero :
    (∀ (Env : Environment) (Device : RTLW81_DEVICE),
      (Rtlw81pSetUpUsbDevice Env Device).Device.BulkOutEndpointCount =
        Device.BulkOutEndpointCount) ∧
    exampleDevice.Fresh ∧
    (Rtlw81pSetUpUsbDevice exampleEnvironment exampleDevice).Status =
      KSTATUS.STATUS_SUCCESS ∧
    (Rtlw81pSetUpUsbDevice exampleEnvironment exampleDevice).Device.InterfaceClaimed = true ∧
    (Rtlw81pSetUpUsbDevice exampleEnvironment exampleDevice).Device.BulkInEndpoint = 0x81 ∧
    (Rtlw81pSetUpUsbDevice exampleEnvironment exampleDevice).Device.BulkOutEndpointCount = 0 ∧
    (Rtlw81pSetUpUsbDevice exampleEnvironment
      (Rtlw81pSetUpUsbDevice exampleEnvironment exampleDevice).Device).Trace =
      [Event.RtlRaiseAssertion] ∧
    ((Rtlw81pInitializeDeviceStructures exampleConstants exampleEnvironment 0).NewDevice.map
      (fun D => (D.InterfaceClaimed, D.BulkInEndpoint, D.BulkOutEndpointCount))) =
      some (true, 0x81, 0) :=
  ⟨setUp_BulkOutEndpointCount, by decide, by decide, by decide, by decide, by decide,
    by decide, by decide⟩

/-- C6: on a device whose interface is already claimed, `Rtlw81pSetUpUsbDevice`
returns `STATUS_SUCCESS`, makes no call into the USB core and returns the device
unchanged; and after any successful set-up a second set-up, in any environment,
succeeds without a USB call and changes nothing. -/
theorem setUp_claimed_noop (Env : Environment) (Device : RTLW81_DEVICE)
    (hclaimed : Device.InterfaceClaimed = true) :
    (Rtlw81pSetUpUsbDevice Env Device).Status = KSTATUS.STATUS_SUCCESS ∧
    (Rtlw81pSetUpUsbDevice Env Device).Device = Device ∧
    (∀ e ∈ (Rtlw81pSetUpUsbDevice Env Device).Trace, e.isUsbCall = false) ∧
    (∀ (Env0 : Environment) (Device0 : RTLW81_DEVICE),
      (Rtlw81pSetUpUsbDevice Env0 Device0).Status = KSTATUS.STATUS_SUCCESS →
      (Rtlw81pSetUpUsbDevice Env (Rtlw81pSetUpUsbDevice Env0 Device0).Device).Status =
        KSTATUS.STATUS_SUCCESS ∧
      (Rtlw81pSetUpUsbDevice Env (Rtlw81pSetUpUsbDevice Env0 Device0).Device).Device =
        (Rtlw81pSetUpUsbDevice Env0 Device0).Device ∧
      (∀ e ∈ (Rtlw81pSetUpUsbDevice Env (Rtlw81pSetUpUsbDevice Env0 Device0).Device).Trace,
        e.isUsbCall = false)) := by
  have key : ∀ D : RTLW81_DEVICE, D.InterfaceClaimed = true →
      (Rtlw81pSetUpUsbDevice Env D).Status = KSTATUS.STATUS_SUCCESS ∧
      (Rtlw81pSetUpUsbDevice Env D).Device = D ∧
      (∀ e ∈ (Rtlw81pSetUpUsbDevice Env D).Trace, e.isUsbCall = false) := by
    intro D hD
    unfold Rtlw81pSetUpUsbDevice
    rw [if_pos (by simp [hD])]
    refine ⟨rfl, rfl, ?_⟩
    intro e he
    unfold ASSERT at he
    split at he
    · simp at he
    · simp at he
      subst he
      rfl
  obtain ⟨h1, h2, h3⟩ := key Device hclaimed
  exact ⟨h1, h2, h3, fun Env0 Device0 hs => key _ (setUp_success_claimed Env0 Device0 hs)⟩

/-- Witness of C6: the example device after its first set-up is claimed, and a
second set-up returns it unchanged. -/
theorem setUp_claimed_noop_witness :
    (Rtlw81pSetUpUsbDevice exampleEnvironment exampleDevice).Device.InterfaceClaimed = true ∧
    (Rtlw81pSetUpUsbDevice exampleEnvironmentNoInterface
      (Rtlw81pSetUpUsbDevice exampleEnvironment exampleDevice).Device).Status =
      KSTATUS.STATUS_SUCCESS ∧
    (Rtlw81pSetUpUsbDevice exampleEnvironmentNoInterface
      (Rtlw81pSetUpUsbDevice exampleEnvironment exampleDevice).Device).Device =
      (Rtlw81pSetUpUsbDevice exampleEnvironment exampleDevice).Device :=
  have h := setUp_claimed_noop exampleEnvironmentNoInterface
    (Rtlw81pSetUpUsbDevice exampleEnvironment exampleDevice).Device (by decide)
  ⟨by decide, h.1, h.2.1⟩

/-! ## The receive transfer loop -/

theorem set_append_length {α : Type} (Pre : List α) (a x : α) (Rest : List α) :
    (Pre ++ a :: Rest).set Pre.length x = Pre ++ x :: Rest := by
  induction Pre with
  | nil => rfl
  | cons b Pre ih => simp [List.set, ih]

theorem expectedTransfers_length (K : RTLW81_CONSTANTS) (A : Nat) :
    ∀ (Left Index VA PA : Nat), (expectedTransfers K A Left Index VA PA).length = Left := by
  intro Left
  induction Left with
  | zero => intros; rfl
  | succ Left ih =>
    intro Index VA PA
    simp [expectedTransfers, ih]

theorem allocatedCount_le (Env : Environment) :
    ∀ (Left Index : Nat), allocatedCount Env Left Index ≤ Left := by
  intro Left
  induction Left with
  | zero => intro Index; simp [allocatedCount]
  | succ Left ih =>
    intro Index
    unfold allocatedCount
    split
    · omega
    · have := ih (Index + 1)
      omega

/-- What the receive transfer loop computes: the transfers created before the
first failing allocation are stored in the array, in order, and the calls are
logged. -/
theorem bulkIn_loop_eq (K : RTLW81_CONSTANTS) (Env : Environment) (A : Nat) :
    ∀ (Left Index : Nat) (D : RTLW81_DEVICE) (VA PA : Nat)
      (Pre : List (Option USB_TRANSFER)),
      D.BulkInTransfer = Pre ++ List.replicate Left none → Pre.length = Index →
      (Rtlw81pInitializeDeviceStructures.bulkIn K Env A Left Index D VA PA).Device =
        { D with
          BulkInTransfer :=
            Pre ++ (((expectedTransfers K A Left Index VA PA).take
              (allocatedCount Env Left Index)).map some ++
              List.replicate (Left - allocatedCount Env Left Index) none) } ∧
      (Rtlw81pInitializeDeviceStructures.bulkIn K Env A Left Index D VA PA).Completed =
        decide (allocatedCount Env Left Index = Left) ∧
      (Rtlw81pInitializeDeviceStructures.bulkIn K Env A Left Index D VA PA).Trace =
        ((expectedTransfers K A Left Index VA PA).take (allocatedCount Env Left Index)).map
          (fun T => Event.UsbAllocateTransfer D.BulkInEndpoint
            K.RTLW81_BULK_IN_TRANSFER_SIZE (some T.Id)) ++
        (if allocatedCount Env Left Index = Left then []
          else [Event.UsbAllocateTransfer D.BulkInEndpoint
            K.RTLW81_BULK_IN_TRANSFER_SIZE none]) := by
  intro Left
  induction Left with
  | zero =>
    intro Index D VA PA Pre hD hPre
    simp only [List.replicate, List.append_nil] at hD
    simp [Rtlw81pInitializeDeviceStructures.bulkIn, allocatedCount, expectedTransfers, ← hD]
  | succ Left ih =>
    intro Index D VA PA Pre hD hPre
    unfold Rtlw81pInitializeDeviceStructures.bulkIn allocatedCount
    by_cases halloc : Env.UsbAllocateTransfer Index = false
    · simp only [halloc, if_true]
      simp [← hD]
    · simp only [halloc, if_false]
      have hset : D.BulkInTransfer.set Index (some
          { Id := Index
            Buffer := VA
            BufferPhysicalAddress := PA
            Direction := some USB_TRANSFER_DIRECTION.UsbTransferDirectionIn
            Length := K.RTLW81_BULK_IN_TRANSFER_SIZE
            BufferActualLength := MaxBulkInTransferSize K A }) =
          (Pre ++ [some
            { Id := Index
              Buffer := VA
              BufferPhysicalAddress := PA
              Direction := some USB_TRANSFER_DIRECTION.UsbTransferDirectionIn
              Length := K.RTLW81_BULK_IN_TRANSFER_SIZE
              BufferActualLength := MaxBulkInTransferSize K A }]) ++
            List.replicate Left none := by
        rw [hD, ← hPre, List.replicate_succ, set_append_length]
        simp
      obtain ⟨h1, h2, h3⟩ := ih (Index + 1)
        { D with BulkInTransfer := D.BulkInTransfer.set Index (some
          { Id := Index
            Buffer := VA
            BufferPhysicalAddress := PA
            Direction := some USB_TRANSFER_DIRECTION.UsbTransferDirectionIn
            Length := K.RTLW81_BULK_IN_TRANSFER_SIZE
            BufferActualLength := MaxBulkInTransferSize K A }) }
        ((VA + MaxBulkInTransferSize K A) % 2 ^ 64)
        ((PA + MaxBulkInTransferSize K A) % 2 ^ 64)
        _ hset (by simp [hPre])
      refine ⟨?_, ?_, ?_⟩
      · simp only [h1]
        simp [expectedTransfers]
      · simp only [h2]
        simp
      · simp only [h3]
        simp [expectedTransfers]

/-- When the loop completes without wrapping the physical address, both running
addresses have advanced by the size of all receive regions. -/
theorem bulkIn_loop_addresses (K : RTLW81_CONSTANTS) (Env : Environment) (A : Nat) :
    ∀ (Left Index : Nat) (D : RTLW81_DEVICE) (VA PA : Nat),
      (Rtlw81pInitializeDeviceStructures.bulkIn K Env A Left Index D VA PA).Completed = true →
      VA + Left * MaxBulkInTransferSize K A < 2 ^ 64 →
      PA + Left * MaxBulkInTransferSize K A < 2 ^ 64 →
      (Rtlw81pInitializeDeviceStructures.bulkIn K Env A Left Index D VA PA).VirtualAddress =
        VA + Left * MaxBulkInTransferSize K A ∧
      (Rtlw81pInitializeDeviceStructures.bulkIn K Env A Left Index D VA PA).PhysicalAddress =
        PA + Left * MaxBulkInTransferSize K A := by
  intro Left
  induction Left with
  | zero =>
    intro Index D VA PA _ _ _
    simp [Rtlw81pInitializeDeviceStructures.bulkIn]
  | succ Left ih =>
    intro Index D VA PA hc hvfit hfit
    unfold Rtlw81pInitializeDeviceStructures.bulkIn at hc ⊢
    by_cases halloc : Env.UsbAllocateTransfer Index = false
    · simp [halloc] at hc
    · rw [if_neg halloc] at hc ⊢
      have hmul : (Left + 1) * MaxBulkInTransferSize K A =
          MaxBulkInTransferSize K A + Left * MaxBulkInTransferSize K A := by ring
      have hmod : (PA + MaxBulkInTransferSize K A) % 2 ^ 64 =
          PA + MaxBulkInTransferSize K A := by
        apply Nat.mod_eq_of_lt
        omega
      have hvmod : (VA + MaxBulkInTransferSize K A) % 2 ^ 64 =
          VA + MaxBulkInTransferSize K A := by
        apply Nat.mod_eq_of_lt
        omega
      rw [hmod, hvmod] at hc ⊢
      obtain ⟨h1, h2⟩ := ih (Index + 1) _ _ _ hc (by omega) (by omega)
      simp only [h1, h2]
      constructor <;> omega

/-- Without wrapping, the virtual regions of the expected transfers are
consecutive. -/
theorem expectedTransfers_regions (K : RTLW81_CONSTANTS) (A : Nat) :
    ∀ (Left Index VA PA : Nat), VA + Left * MaxBulkInTransferSize K A < 2 ^ 64 →
      (expectedTransfers K A Left Index VA PA).map
          (fun T => (T.Buffer, T.BufferActualLength)) =
        (List.range Left).map
          (fun i => (VA + i * MaxBulkInTransferSize K A, MaxBulkInTransferSize K A)) := by
  intro Left
  induction Left with
  | zero => intros; rfl
  | succ Left ih =>
    intro Index VA PA hvfit
    have hmul : (Left + 1) * MaxBulkInTransferSize K A =
        MaxBulkInTransferSize K A + Left * MaxBulkInTransferSize K A := by ring
    have hvmod : (VA + MaxBulkInTransferSize K A) % 2 ^ 64 =
        VA + MaxBulkInTransferSize K A := by
      apply Nat.mod_eq_of_lt
      omega
    rw [List.range_succ_eq_map]
    simp only [expectedTransfers, List.map_cons, hvmod, List.map_map]
    rw [ih _ _ _ (by omega)]
    simp only [Nat.zero_mul, Nat.add_zero, List.cons.injEq, true_and]
    apply List.map_congr_left
    intro i _
    simp only [Function.comp, Prod.mk.injEq, and_true]
    rw [Nat.succ_eq_add_one, Nat.add_mul, Nat.one_mul]
    omega

/-- Without wrapping, the physical regions of the expected transfers are
consecutive. -/
theorem expectedTransfers_physicalRegions (K : RTLW81_CONSTANTS) (A : Nat) :
    ∀ (Left Index VA PA : Nat), PA + Left * MaxBulkInTransferSize K A < 2 ^ 64 →
      (expectedTransfers K A Left Index VA PA).map
          (fun T => (T.BufferPhysicalAddress, T.BufferActualLength)) =
        (List.range Left).map
          (fun i => (PA + i * MaxBulkInTransferSize K A, MaxBulkInTransferSize K A)) := by
  intro Left
  induction Left with
  | zero => intros; rfl
  | succ Left ih =>
    intro Index VA PA hfit
    have hmul : (Left + 1) * MaxBulkInTransferSize K A =
        MaxBulkInTransferSize K A + Left * MaxBulkInTransferSize K A := by ring
    have hmod : (PA + MaxBulkInTransferSize K A) % 2 ^ 64 =
        PA + MaxBulkInTransferSize K A := by
      apply Nat.mod_eq_of_lt
      omega
    rw [List.range_succ_eq_map]
    simp only [expectedTransfers, List.map_cons, hmod, List.map_map]
    rw [ih _ _ _ (by omega)]
    simp only [Nat.zero_mul, Nat.add_zero, List.cons.injEq, true_and]
    apply List.map_congr_left
    intro i _
    simp only [Function.comp, Prod.mk.injEq, and_true]
    rw [Nat.succ_eq_add_one, Nat.add_mul, Nat.one_mul]
    omega

/-- Without wrapping, entry `i` of the expected transfers has identity
`Index + i` and its region at offset `i` times the receive size in both
addresses. -/
theorem expectedTransfers_getElem (K : RTLW81_CONSTANTS) (A : Nat) :
    ∀ (Left Index VA PA i : Nat), i < Left →
      VA + Left * MaxBulkInTransferSize K A < 2 ^ 64 →
      PA + Left * MaxBulkInTransferSize K A < 2 ^ 64 →
      (expectedTransfers K A Left Index VA PA)[i]? = some
        { Id := Index + i
          Buffer := VA + i * MaxBulkInTransferSize K A
          BufferPhysicalAddress := PA + i * MaxBulkInTransferSize K A
          Direction := some USB_TRANSFER_DIRECTION.UsbTransferDirectionIn
          Length := K.RTLW81_BULK_IN_TRANSFER_SIZE
          BufferActualLength := MaxBulkInTransferSize K A } := by
  intro Left
  induction Left with
  | zero => intro _ _ _ i hi; omega
  | succ Left ih =>
    intro Index VA PA i hi hvfit hfit
    have hmul : (Left + 1) * MaxBulkInTransferSize K A =
        MaxBulkInTransferSize K A + Left * MaxBulkInTransferSize K A := by ring
    have hmod : (PA + MaxBulkInTransferSize K A) % 2 ^ 64 =
        PA + MaxBulkInTransferSize K A := by
      apply Nat.mod_eq_of_lt
      omega
    have hvmod : (VA + MaxBulkInTransferSize K A) % 2 ^ 64 =
        VA + MaxBulkInTransferSize K A := by
      apply Nat.mod_eq_of_lt
      omega
    cases i with
    | zero => simp [expectedTransfers]
    | succ i =>
      simp only [expectedTransfers, List.getElem?_cons_succ, hmod, hvmod]
      rw [ih _ _ _ i (by omega) (by omega) (by omega)]
      simp only [Option.some.injEq, USB_TRANSFER.mk.injEq, and_true]
      refine ⟨by omega, by ring, by ring⟩

/-! ## The ledger of a trace -/

theorem createdTransfers_append (A B : List Event) :
    createdTransfers (A ++ B) = createdTransfers A ++ createdTransfers B := by
  simp [createdTransfers]

theorem cancelledTransfers_append (A B : List Event) :
    cancelledTransfers (A ++ B) = cancelledTransfers A ++ cancelledTransfers B := by
  simp [cancelledTransfers]

theorem destroyedTransfers_append (A B : List Event) :
    destroyedTransfers (A ++ B) = destroyedTransfers A ++ destroyedTransfers B := by
  simp [destroyedTransfers]

theorem acquired_append (A B : List Event) (R : Resource) :
    acquired (A ++ B) R = acquired A R + acquired B R := by
  simp [acquired]

theorem released_append (A B : List Event) (R : Resource) :
    released (A ++ B) R = released A R + released B R := by
  simp [released]

theorem Quiet.append {A B : List Event} (hA : Quiet A) (hB : Quiet B) : Quiet (A ++ B) := by
  obtain ⟨a1, a2, a3, a4, a5⟩ := hA
  obtain ⟨b1, b2, b3, b4, b5⟩ := hB
  refine ⟨?_, ?_, ?_, ?_, ?_⟩
  · rw [createdTransfers_append, a1, b1]; rfl
  · rw [cancelledTransfers_append, a2, b2]; rfl
  · rw [destroyedTransfers_append, a3, b3]; rfl
  · intro R; rw [acquired_append, a4, b4]
  · intro R; rw [released_append, a5, b5]

theorem Quiet.nil : Quiet [] := by
  refine ⟨rfl, rfl, rfl, ?_, ?_⟩ <;> intro R <;> rfl

theorem Quiet.single (e : Event) (h1 : e.creates = none) (h2 : e.cancels = none)
    (h3 : e.destroys = none) (h4 : e.acquires = none) (h5 : e.releases = none) :
    Quiet [e] := by
  refine ⟨?_, ?_, ?_, ?_, ?_⟩
  · simp [createdTransfers, h1]
  · simp [cancelledTransfers, h2]
  · simp [destroyedTransfers, h3]
  · intro R; simp [acquired, h4]
  · intro R; simp [released, h5]

theorem Quiet.assert (c : Bool) : Quiet (ASSERT c) := by
  unfold ASSERT
  split
  · exact Quiet.nil
  · exact Quiet.single _ rfl rfl rfl rfl rfl

theorem acquires_failure (s : KSTATUS) (h : s ≠ KSTATUS.STATUS_SUCCESS) :
    (Event.UsbDriverAttach s).acquires = none ∧
    ∀ n, (Event.UsbClaimInterface n s).acquires = none := by
  cases s <;> first | exact absurd rfl h | exact ⟨rfl, fun _ => rfl⟩

theorem configurationTrace_quiet (Env : Environment) :
    Quiet (Rtlw81pSetUpUsbDevice.configurationTrace Env) := by
  unfold Rtlw81pSetUpUsbDevice.configurationTrace
  have g : Quiet [Event.UsbGetActiveConfiguration] := Quiet.single _ rfl rfl rfl rfl rfl
  have c : Quiet [Event.UsbSetConfiguration Env.UsbSetConfiguration] :=
    Quiet.single _ rfl rfl rfl rfl rfl
  split
  · exact g
  · split
    · exact (g.append (c.append g)).append (Quiet.assert _)
    · exact g.append c

theorem assignAssert_quiet (Count : Nat) :
    Quiet (Rtlw81pSetUpUsbDevice.assignAssert Count) := by
  unfold Rtlw81pSetUpUsbDevice.assignAssert
  split
  · exact Quiet.nil
  · exact Quiet.assert _

/-! ## The ledger of `Rtlw81pDestroyDeviceStructures` -/

theorem destroy_bulkIn_ledger (L : List (Option USB_TRANSFER)) :
    destroyedTransfers (Rtlw81pDestroyDeviceStructures.bulkIn L) =
      L.filterMap (fun T => T.map USB_TRANSFER.Id) ∧
    cancelledTransfers (Rtlw81pDestroyDeviceStructures.bulkIn L) =
      L.filterMap (fun T => T.map USB_TRANSFER.Id) ∧
    createdTransfers (Rtlw81pDestroyDeviceStructures.bulkIn L) = [] ∧
    (∀ R, acquired (Rtlw81pDestroyDeviceStructures.bulkIn L) R = 0) ∧
    (∀ R, released (Rtlw81pDestroyDeviceStructures.bulkIn L) R = 0) := by
  induction L with
  | nil =>
    refine ⟨rfl, rfl, rfl, ?_, ?_⟩ <;> intro R <;> rfl
  | cons T L ih =>
    obtain ⟨h1, h2, h3, h4, h5⟩ := ih
    cases T with
    | none =>
      simp only [Rtlw81pDestroyDeviceStructures.bulkIn]
      refine ⟨?_, ?_, h3, h4, h5⟩
      · rw [h1]; simp
      · rw [h2]; simp
    | some T =>
      simp only [Rtlw81pDestroyDeviceStructures.bulkIn]
      refine ⟨?_, ?_, ?_, ?_, ?_⟩
      · simp only [destroyedTransfers] at h1 ⊢
        simp [Event.destroys, h1]
      · simp only [cancelledTransfers] at h2 ⊢
        simp [Event.cancels, h2]
      · simp only [createdTransfers] at h3 ⊢
        simp [Event.creates, h3]
      · intro R
        show acquired ([Event.UsbCancelTransfer T.Id true, Event.UsbDestroyTransfer T.Id] ++
          Rtlw81pDestroyDeviceStructures.bulkIn L) R = 0
        rw [acquired_append, h4 R]
        simp [acquired, Event.acquires]
      · intro R
        show released ([Event.UsbCancelTransfer T.Id true, Event.UsbDestroyTransfer T.Id] ++
          Rtlw81pDestroyDeviceStructures.bulkIn L) R = 0
        rw [released_append, h5 R]
        simp [released, Event.releases]

theorem acquired_cond (c : Prop) [Decidable c] (e : Event) (R : Resource) :
    acquired (if c then [e] else []) R =
      if c then (if e.acquires = some R then 1 else 0) else 0 := by
  split
  · by_cases h : e.acquires = some R <;> simp [acquired, List.countP_cons, h]
  · simp [acquired]

theorem createdTransfers_cond (c : Prop) [Decidable c] (e : Event) :
    createdTransfers (if c then [e] else []) = if c then e.creates.toList else [] := by
  split
  · cases h : e.creates <;> simp [createdTransfers, h]
  · simp [createdTransfers]

theorem cancelledTransfers_cond (c : Prop) [Decidable c] (e : Event) :
    cancelledTransfers (if c then [e] else []) = if c then e.cancels.toList else [] := by
  split
  · cases h : e.cancels <;> simp [cancelledTransfers, h]
  · simp [cancelledTransfers]

theorem destroyedTransfers_cond (c : Prop) [Decidable c] (e : Event) :
    destroyedTransfers (if c then [e] else []) = if c then e.destroys.toList else [] := by
  split
  · cases h : e.destroys <;> simp [destroyedTransfers, h]
  · simp [destroyedTransfers]

theorem released_cond (c : Prop) [Decidable c] (e : Event) (R : Resource) :
    released (if c then [e] else []) R =
      if c then (if e.releases = some R then 1 else 0) else 0 := by
  split
  · by_cases h : e.releases = some R <;> simp [released, List.countP_cons, h]
  · simp [released]

/-- The ledger of `Rtlw81pDestroyDeviceStructures`: it cancels and destroys the
transfers the device holds, each once and in array order, releases what the
device holds and acquires nothing. -/
theorem destroy_ledger (D : RTLW81_DEVICE) :
    destroyedTransfers (Rtlw81pDestroyDeviceStructures D) = D.transferIds ∧
    cancelledTransfers (Rtlw81pDestroyDeviceStructures D) = D.transferIds ∧
    createdTransfers (Rtlw81pDestroyDeviceStructures D) = [] ∧
    (∀ R, acquired (Rtlw81pDestroyDeviceStructures D) R = 0) ∧
    (∀ R, released (Rtlw81pDestroyDeviceStructures D) R = D.held R) := by
  obtain ⟨h1, h2, h3, h4, h5⟩ := destroy_bulkIn_ledger D.BulkInTransfer
  unfold Rtlw81pDestroyDeviceStructures RTLW81_DEVICE.transferIds
  refine ⟨?_, ?_, ?_, ?_, ?_⟩
  · simp only [destroyedTransfers_append, h1, destroyedTransfers_cond]
    cases D.ControlTransfer <;> simp [destroyedTransfers, Event.destroys]
  · simp only [cancelledTransfers_append, h2, cancelledTransfers_cond]
    cases D.ControlTransfer <;> simp [cancelledTransfers, Event.cancels]
  · simp only [createdTransfers_append, h3, createdTransfers_cond]
    cases D.ControlTransfer <;> simp [createdTransfers, Event.creates]
  · intro R
    simp only [acquired_append, h4, acquired_cond]
    cases D.ControlTransfer <;> simp [acquired, Event.acquires]
  · intro R
    simp only [released_append, h5, released_cond]
    cases D.ControlTransfer <;> cases R <;>
      simp [released, Event.releases, RTLW81_DEVICE.held]

/-! ## The ledger of device initialization -/

theorem Balanced.extend {T Q : List Event} {D E : RTLW81_DEVICE} (h : Balanced T D)
    (hcreated : E.transferIds = D.transferIds ++ createdTransfers Q)
    (hcancelled : cancelledTransfers Q = []) (hdestroyed : destroyedTransfers Q = [])
    (hacquired : ∀ R, E.held R = D.held R + acquired Q R)
    (hreleased : ∀ R, released Q R = 0) : Balanced (T ++ Q) E := by
  obtain ⟨h1, h2, h3, h4, h5⟩ := h
  refine ⟨?_, ?_, ?_, ?_, ?_⟩
  · rw [createdTransfers_append, h1, hcreated]
  · rw [cancelledTransfers_append, h2, hcancelled]; rfl
  · rw [destroyedTransfers_append, h3, hdestroyed]; rfl
  · intro R; rw [acquired_append, h4, hacquired]
  · intro R; rw [released_append, h5, hreleased]

theorem Balanced.quiet {T Q : List Event} {D : RTLW81_DEVICE} (h : Balanced T D)
    (hq : Quiet Q) : Balanced (T ++ Q) D := by
  obtain ⟨q1, q2, q3, q4, q5⟩ := hq
  exact h.extend (by rw [q1]; simp) q2 q3 (by intro R; rw [q4]; rfl) q5

/-- Destroying the device of a balanced trace unwinds the trace. -/
theorem Balanced.unwound {T : List Event} {D : RTLW81_DEVICE} (h : Balanced T D) :
    Unwound (T ++ Rtlw81pDestroyDeviceStructures D) := by
  obtain ⟨h1, h2, h3, h4, h5⟩ := h
  obtain ⟨d1, d2, d3, d4, d5⟩ := destroy_ledger D
  refine ⟨?_, ?_, ?_⟩
  · rw [destroyedTransfers_append, createdTransfers_append, h3, d1, h1, d3]; simp
  · rw [cancelledTransfers_append, createdTransfers_append, h2, d2, h1, d3]; simp
  · intro R
    rw [released_append, acquired_append, h5, d5, h4, d4]; simp

theorem filterMap_replicate_none {α β : Type} (f : α → β) (n : Nat) :
    (List.replicate n (none : Option α)).filterMap (fun T => T.map f) = [] := by
  induction n with
  | zero => rfl
  | succ n ih => simp [List.replicate_succ, ih]

theorem balanced_allocated (K : RTLW81_CONSTANTS) (Env : Environment) (OsDevice : Nat) :
    Balanced [Event.MmAllocatePagedPool true,
        Event.KeCreateQueuedLock Env.KeCreateQueuedLock.isSome]
      (Rtlw81pInitializeDeviceStructures.allocated K Env OsDevice) := by
  refine ⟨?_, rfl, rfl, ?_, ?_⟩
  · simp [createdTransfers, Event.creates, RTLW81_DEVICE.transferIds,
      Rtlw81pInitializeDeviceStructures.allocated, RTLW81_DEVICE.zero,
      filterMap_replicate_none]
  · intro R
    cases hl : Env.KeCreateQueuedLock <;> cases R <;>
      simp [acquired, Event.acquires, RTLW81_DEVICE.held,
        Rtlw81pInitializeDeviceStructures.allocated, RTLW81_DEVICE.zero, hl]
  · intro R
    simp [released, Event.releases]

theorem balanced_attached (K : RTLW81_CONSTANTS) (Env : Environment) (OsDevice : Nat) :
    Balanced ([Event.MmAllocatePagedPool true,
        Event.KeCreateQueuedLock Env.KeCreateQueuedLock.isSome] ++
        [Event.UsbDriverAttach KSTATUS.STATUS_SUCCESS])
      (Rtlw81pInitializeDeviceStructures.attached K Env OsDevice) := by
  apply (balanced_allocated K Env OsDevice).extend
  · simp [createdTransfers, Event.creates, RTLW81_DEVICE.transferIds,
      Rtlw81pInitializeDeviceStructures.attached]
  · rfl
  · rfl
  · intro R
    cases R <;>
      simp [acquired, Event.acquires, RTLW81_DEVICE.held,
        Rtlw81pInitializeDeviceStructures.attached,
        Rtlw81pInitializeDeviceStructures.allocated]
  · intro R
    simp [released, Event.releases]

/-- The fields `Rtlw81pSetUpUsbDevice` does not touch. -/
theorem setUp_frame (Env : Environment) (D : RTLW81_DEVICE) :
    (Rtlw81pSetUpUsbDevice Env D).Device.UsbCoreHandle = D.UsbCoreHandle ∧
    (Rtlw81pSetUpUsbDevice Env D).Device.IoBuffer = D.IoBuffer ∧
    (Rtlw81pSetUpUsbDevice Env D).Device.ControlTransfer = D.ControlTransfer ∧
    (Rtlw81pSetUpUsbDevice Env D).Device.BulkInTransfer = D.BulkInTransfer ∧
    (Rtlw81pSetUpUsbDevice Env D).Device.BulkOutListLock = D.BulkOutListLock ∧
    (Rtlw81pSetUpUsbDevice Env D).Device.NetworkLink = D.NetworkLink ∧
    (Rtlw81pSetUpUsbDevice Env D).Device.Flags = D.Flags ∧
    (Rtlw81pSetUpUsbDevice Env D).Device.InitializationPhase = D.InitializationPhase := by
  have hs : ∀ Endpoints : List USB_ENDPOINT_DESCRIPTION,
      (Rtlw81pSetUpUsbDevice.scan Endpoints D 0).1 =
        { D with
          BulkInEndpoint := (Rtlw81pSetUpUsbDevice.scan Endpoints D 0).1.BulkInEndpoint
          BulkOutEndpoint := (Rtlw81pSetUpUsbDevice.scan Endpoints D 0).1.BulkOutEndpoint } := by
    intro Endpoints
    rw [scan_eq _ _ _ (Nat.zero_le _)]
  unfold Rtlw81pSetUpUsbDevice
  split
  · simp
  · split
    · simp
    · split
      · simp
      · rename_i Interface _
        have h := hs Interface.EndpointListHead
        split
        · simp
        · simp only []
          split
          · rw [h]; simp
          · split <;> (rw [h]; simp)

theorem KSUCCESS_eq_false_iff (s : KSTATUS) :
    KSUCCESS s = false ↔ s ≠ KSTATUS.STATUS_SUCCESS := by
  simp [KSUCCESS]

theorem scan_InterfaceClaimed (Endpoints : List USB_ENDPOINT_DESCRIPTION)
    (D : RTLW81_DEVICE) :
    (Rtlw81pSetUpUsbDevice.scan Endpoints D 0).1.InterfaceClaimed = D.InterfaceClaimed := by
  rw [scan_eq _ _ _ (Nat.zero_le _)]

/-- The ledger of `Rtlw81pSetUpUsbDevice` on an unclaimed device: its trace
acquires the interface exactly when the device ends up claimed, and does nothing
else to the ledger. -/
theorem setUp_ledger (Env : Environment) (D : RTLW81_DEVICE)
    (hcl : D.InterfaceClaimed = false) :
    createdTransfers (Rtlw81pSetUpUsbDevice Env D).Trace = [] ∧
    cancelledTransfers (Rtlw81pSetUpUsbDevice Env D).Trace = [] ∧
    destroyedTransfers (Rtlw81pSetUpUsbDevice Env D).Trace = [] ∧
    (∀ R, released (Rtlw81pSetUpUsbDevice Env D).Trace R = 0) ∧
    (∀ R, acquired (Rtlw81pSetUpUsbDevice Env D).Trace R =
      if R = Resource.ClaimedInterface ∧
        (Rtlw81pSetUpUsbDevice Env D).Device.InterfaceClaimed = true then 1 else 0) := by
  have quiet : ∀ (r : DeviceResult), Quiet r.Trace → r.Device.InterfaceClaimed = false →
      createdTransfers r.Trace = [] ∧ cancelledTransfers r.Trace = [] ∧
      destroyedTransfers r.Trace = [] ∧ (∀ R, released r.Trace R = 0) ∧
      (∀ R, acquired r.Trace R =
        if R = Resource.ClaimedInterface ∧ r.Device.InterfaceClaimed = true then 1 else 0) := by
    intro r hq hc
    obtain ⟨q1, q2, q3, q4, q5⟩ := hq
    refine ⟨q1, q2, q3, q5, ?_⟩
    intro R
    rw [q4, hc]
    simp
  have hget : Quiet (Rtlw81pSetUpUsbDevice.configurationTrace Env ++
      [Event.UsbGetDesignatedInterface]) :=
    (configurationTrace_quiet Env).append (Quiet.single _ rfl rfl rfl rfl rfl)
  by_cases hconf : Env.ConfigurationAvailable
  · have hconf2 : ¬ (Env.ActiveConfiguration = false ∧
        KSUCCESS Env.UsbSetConfiguration = false) := by
      rcases hconf with h | h <;> simp [h]
    cases hif : Env.UsbGetDesignatedInterface with
    | none =>
      apply quiet
      · unfold Rtlw81pSetUpUsbDevice
        rw [if_neg (by simp [hcl]), if_neg hconf2]
        simp only [hif]
        exact hget
      · unfold Rtlw81pSetUpUsbDevice
        rw [if_neg (by simp [hcl]), if_neg hconf2]
        simp only [hif]
        exact hcl
    | some Interface =>
      by_cases hclass : Interface.Class = UsbInterfaceClassVendor
      · rw [setUp_vendor Env D Interface hcl hconf hif hclass]
        split
        · exact quiet _ hget (by rw [scan_InterfaceClaimed]; exact hcl)
        · split
          · rename_i hfail
            apply quiet
            · have hne := (KSUCCESS_eq_false_iff _).1 hfail
              exact (hget.append (assignAssert_quiet _)).append
                (Quiet.single _ rfl rfl rfl ((acquires_failure _ hne).2 _) rfl)
            · show (Rtlw81pSetUpUsbDevice.scan Interface.EndpointListHead D
                0).1.InterfaceClaimed = false
              rw [scan_InterfaceClaimed]; exact hcl
          · rename_i hok
            have hs : Env.UsbClaimInterface = KSTATUS.STATUS_SUCCESS := by
              by_contra hne
              exact hok ((KSUCCESS_eq_false_iff _).2 hne)
            obtain ⟨q1, q2, q3, q4, q5⟩ := hget.append
              (assignAssert_quiet (Rtlw81pSetUpUsbDevice.scan Interface.EndpointListHead D 0).2)
            simp only [hs]
            refine ⟨?_, ?_, ?_, ?_, ?_⟩
            · rw [createdTransfers_append, q1]; rfl
            · rw [cancelledTransfers_append, q2]; rfl
            · rw [destroyedTransfers_append, q3]; rfl
            · intro R; rw [released_append, q5]; rfl
            · intro R
              rw [acquired_append, q4]
              cases R <;> simp [acquired, Event.acquires]
      · apply quiet
        · unfold Rtlw81pSetUpUsbDevice
          rw [if_neg (by simp [hcl]), if_neg hconf2]
          simp only [hif]
          rw [if_pos hclass]
          exact hget
        · unfold Rtlw81pSetUpUsbDevice
          rw [if_neg (by simp [hcl]), if_neg hconf2]
          simp only [hif]
          rw [if_pos hclass]
          exact hcl
  · have hconf2 : Env.ActiveConfiguration = false ∧
        KSUCCESS Env.UsbSetConfiguration = false := by
      unfold Environment.ConfigurationAvailable at hconf
      simp only [not_or] at hconf
      exact ⟨by simpa using hconf.1, by simpa using hconf.2⟩
    apply quiet
    · unfold Rtlw81pSetUpUsbDevice
      rw [if_neg (by simp [hcl]), if_pos hconf2]
      exact configurationTrace_quiet Env
    · unfold Rtlw81pSetUpUsbDevice
      rw [if_neg (by simp [hcl]), if_pos hconf2]
      exact hcl

/-- The set-up of an unclaimed device keeps a trace balanced. -/
theorem setUp_balanced (Env : Environment) {T : List Event} {D : RTLW81_DEVICE}
    (h : Balanced T D) (hcl : D.InterfaceClaimed = false) :
    Balanced (T ++ (Rtlw81pSetUpUsbDevice Env D).Trace) (Rtlw81pSetUpUsbDevice Env D).Device := by
  obtain ⟨l1, l2, l3, l4, l5⟩ := setUp_ledger Env D hcl
  obtain ⟨f1, f2, f3, f4, f5, _, _, _⟩ := setUp_frame Env D
  apply h.extend
  · rw [l1]
    simp [RTLW81_DEVICE.transferIds, f3, f4]
  · exact l2
  · exact l3
  · intro R
    rw [l5]
    cases R <;> simp [RTLW81_DEVICE.held, f1, f2, f5, hcl]
  · exact l4

/-! ## The ledger of the transfer set-up -/

theorem filterMap_map_some {α β : Type} (f : α → β) (L : List α) (n : Nat) :
    (L.map some ++ List.replicate n none).filterMap (fun (T : Option α) => T.map f) =
      L.map f := by
  rw [List.filterMap_append, filterMap_replicate_none, List.append_nil]
  induction L with
  | nil => rfl
  | cons a L ih => simp [ih]

theorem allocations_ledger (Endpoint Size : Nat) (L : List USB_TRANSFER) :
    createdTransfers (L.map (fun T => Event.UsbAllocateTransfer Endpoint Size (some T.Id))) =
      L.map USB_TRANSFER.Id ∧
    cancelledTransfers (L.map (fun T => Event.UsbAllocateTransfer Endpoint Size (some T.Id))) =
      [] ∧
    destroyedTransfers (L.map (fun T => Event.UsbAllocateTransfer Endpoint Size (some T.Id))) =
      [] ∧
    (∀ R, acquired (L.map (fun T => Event.UsbAllocateTransfer Endpoint Size (some T.Id))) R
      = 0) ∧
    (∀ R, released (L.map (fun T => Event.UsbAllocateTransfer Endpoint Size (some T.Id))) R
      = 0) := by
  induction L with
  | nil => exact ⟨rfl, rfl, rfl, fun _ => rfl, fun _ => rfl⟩
  | cons a L ih =>
    obtain ⟨h1, h2, h3, h4, h5⟩ := ih
    refine ⟨?_, ?_, ?_, ?_, ?_⟩
    · simp only [createdTransfers] at h1 ⊢
      simp [Event.creates, h1]
    · simp only [cancelledTransfers] at h2 ⊢
      simp [Event.cancels, h2]
    · simp only [destroyedTransfers] at h3 ⊢
      simp [Event.destroys, h3]
    · intro R
      rw [List.map_cons, ← List.singleton_append, acquired_append, h4 R]
      simp [acquired, Event.acquires]
    · intro R
      rw [List.map_cons, ← List.singleton_append, released_append, h5 R]
      simp [released, Event.releases]

theorem allocatedCount_eq_iff (Env : Environment) :
    ∀ (Left Index : Nat), allocatedCount Env Left Index = Left ↔
      ∀ i, i < Left → Env.UsbAllocateTransfer (Index + i) = true := by
  intro Left
  induction Left with
  | zero => intro Index; simp [allocatedCount]
  | succ Left ih =>
    intro Index
    unfold allocatedCount
    by_cases h : Env.UsbAllocateTransfer Index = false
    · rw [if_pos h]
      constructor
      · intro h0; omega
      · intro hall
        have := hall 0 (by omega)
        simp [h] at this
    · rw [if_neg h]
      simp only [Nat.add_right_cancel_iff, ih]
      constructor
      · intro hall i hi
        cases i with
        | zero => simpa using h
        | succ i =>
          have := hall i (by omega)
          rw [show Index + (i + 1) = Index + 1 + i by omega]
          exact this
      · intro hall i hi
        have := hall (i + 1) (by omega)
        rw [show Index + 1 + i = Index + (i + 1) by omega]
        exact this

/-- The transfer set-up, by the outcome of the allocations. -/
theorem transfers_eq (K : RTLW81_CONSTANTS) (Env : Environment) (A : Nat)
    (D : RTLW81_DEVICE) (B : IO_BUFFER)
    (hD : D.BulkInTransfer = List.replicate K.RTLW81_BULK_IN_TRANSFER_COUNT none) :
    (Rtlw81pInitializeDeviceStructures.transfers K Env A D B).Device =
      { D with
        BulkInTransfer :=
          ((expectedTransfers K A K.RTLW81_BULK_IN_TRANSFER_COUNT 0
            B.Fragment0.VirtualAddress B.Fragment0.PhysicalAddress).take
            (allocatedCount Env K.RTLW81_BULK_IN_TRANSFER_COUNT 0)).map some ++
          List.replicate (K.RTLW81_BULK_IN_TRANSFER_COUNT -
            allocatedCount Env K.RTLW81_BULK_IN_TRANSFER_COUNT 0) none
        ControlTransfer :=
          if allocatedCount Env K.RTLW81_BULK_IN_TRANSFER_COUNT 0 =
              K.RTLW81_BULK_IN_TRANSFER_COUNT ∧
              Env.UsbAllocateTransfer K.RTLW81_BULK_IN_TRANSFER_COUNT = true then
            some
              { Id := K.RTLW81_BULK_IN_TRANSFER_COUNT
                Buffer := (Rtlw81pInitializeDeviceStructures.bulkIn K Env A
                  K.RTLW81_BULK_IN_TRANSFER_COUNT 0 D B.Fragment0.VirtualAddress
                  B.Fragment0.PhysicalAddress).VirtualAddress
                BufferPhysicalAddress := (Rtlw81pInitializeDeviceStructures.bulkIn K Env A
                  K.RTLW81_BULK_IN_TRANSFER_COUNT 0 D B.Fragment0.VirtualAddress
                  B.Fragment0.PhysicalAddress).PhysicalAddress
                Direction := none
                Length := 0
                BufferActualLength := MaxControlSize K A }
          else D.ControlTransfer } ∧
    (Rtlw81pInitializeDeviceStructures.transfers K Env A D B).Status =
      (if allocatedCount Env K.RTLW81_BULK_IN_TRANSFER_COUNT 0 =
          K.RTLW81_BULK_IN_TRANSFER_COUNT ∧
          Env.UsbAllocateTransfer K.RTLW81_BULK_IN_TRANSFER_COUNT = true then
        KSTATUS.STATUS_SUCCESS
      else KSTATUS.STATUS_INSUFFICIENT_RESOURCES) ∧
    (Rtlw81pInitializeDeviceStructures.transfers K Env A D B).Trace =
      ASSERT (decide (B.FragmentCount = 1)) ++
      ASSERT (decide (B.Fragment0.VirtualAddress ≠ 0)) ++
      ((expectedTransfers K A K.RTLW81_BULK_IN_TRANSFER_COUNT 0
          B.Fragment0.VirtualAddress B.Fragment0.PhysicalAddress).take
          (allocatedCount Env K.RTLW81_BULK_IN_TRANSFER_COUNT 0)).map
        (fun T => Event.UsbAllocateTransfer D.BulkInEndpoint
          K.RTLW81_BULK_IN_TRANSFER_SIZE (some T.Id)) ++
      (if allocatedCount Env K.RTLW81_BULK_IN_TRANSFER_COUNT 0 =
          K.RTLW81_BULK_IN_TRANSFER_COUNT then
        [Event.UsbAllocateTransfer 0 K.RTLW81_MAX_CONTROL_TRANSFER_SIZE
          (if Env.UsbAllocateTransfer K.RTLW81_BULK_IN_TRANSFER_COUNT = true then
            some K.RTLW81_BULK_IN_TRANSFER_COUNT else none)]
      else [Event.UsbAllocateTransfer D.BulkInEndpoint
        K.RTLW81_BULK_IN_TRANSFER_SIZE none]) := by
  obtain ⟨h1, h2, h3⟩ := bulkIn_loop_eq K Env A K.RTLW81_BULK_IN_TRANSFER_COUNT 0 D
    B.Fragment0.VirtualAddress B.Fragment0.PhysicalAddress [] (by simpa using hD) rfl
  unfold Rtlw81pInitializeDeviceStructures.transfers
  simp only [h2, h3, h1, List.nil_append]
  by_cases hk : allocatedCount Env K.RTLW81_BULK_IN_TRANSFER_COUNT 0 =
      K.RTLW81_BULK_IN_TRANSFER_COUNT
  · by_cases hc : Env.UsbAllocateTransfer K.RTLW81_BULK_IN_TRANSFER_COUNT = true
    · simp [hk, hc]
    · simp [hk, hc]
  · simp [hk]

/-- The transfer set-up on a device without transfers keeps a trace balanced. -/
theorem transfers_balanced (K : RTLW81_CONSTANTS) (Env : Environment) (A : Nat)
    (B : IO_BUFFER) {T : List Event} {D : RTLW81_DEVICE} (h : Balanced T D)
    (hD : D.BulkInTransfer = List.replicate K.RTLW81_BULK_IN_TRANSFER_COUNT none)
    (hC : D.ControlTransfer = none) :
    Balanced (T ++ (Rtlw81pInitializeDeviceStructures.transfers K Env A D B).Trace)
      (Rtlw81pInitializeDeviceStructures.transfers K Env A D B).Device := by
  obtain ⟨e1, _, e3⟩ := transfers_eq K Env A D B hD
  obtain ⟨a1, a2, a3, a4, a5⟩ := allocations_ledger D.BulkInEndpoint
    K.RTLW81_BULK_IN_TRANSFER_SIZE
    ((expectedTransfers K A K.RTLW81_BULK_IN_TRANSFER_COUNT 0
      B.Fragment0.VirtualAddress B.Fragment0.PhysicalAddress).take
      (allocatedCount Env K.RTLW81_BULK_IN_TRANSFER_COUNT 0))
  obtain ⟨q1, q2, q3, q4, q5⟩ := (Quiet.assert (decide (B.FragmentCount = 1))).append
    (Quiet.assert (decide (B.Fragment0.VirtualAddress ≠ 0)))
  have hids : D.transferIds = [] := by
    simp [RTLW81_DEVICE.transferIds, hD, hC, filterMap_replicate_none]
  apply h.extend
  · rw [e1, e3, hids]
    simp only [createdTransfers_append, q1, a1, RTLW81_DEVICE.transferIds,
      filterMap_map_some, hC, List.nil_append]
    by_cases hk : allocatedCount Env K.RTLW81_BULK_IN_TRANSFER_COUNT 0 =
        K.RTLW81_BULK_IN_TRANSFER_COUNT
    · by_cases hc : Env.UsbAllocateTransfer K.RTLW81_BULK_IN_TRANSFER_COUNT = true
      · simp [hk, hc, createdTransfers, Event.creates]
      · simp [hk, hc, createdTransfers, Event.creates]
    · simp [hk, createdTransfers, Event.creates]
  · rw [e3]
    simp only [cancelledTransfers_append, q2, a2, List.nil_append]
    split <;> simp [cancelledTransfers, Event.cancels]
  · rw [e3]
    simp only [destroyedTransfers_append, q3, a3, List.nil_append]
    split <;> simp [destroyedTransfers, Event.destroys]
  · intro R
    rw [e1, e3]
    simp only [acquired_append, q4, a4]
    have hz : acquired (if allocatedCount Env K.RTLW81_BULK_IN_TRANSFER_COUNT 0 =
          K.RTLW81_BULK_IN_TRANSFER_COUNT then
        [Event.UsbAllocateTransfer 0 K.RTLW81_MAX_CONTROL_TRANSFER_SIZE
          (if Env.UsbAllocateTransfer K.RTLW81_BULK_IN_TRANSFER_COUNT = true then
            some K.RTLW81_BULK_IN_TRANSFER_COUNT else none)]
        else [Event.UsbAllocateTransfer D.BulkInEndpoint
          K.RTLW81_BULK_IN_TRANSFER_SIZE none]) R = 0 := by
      split <;> simp [acquired, Event.acquires]
    rw [hz]
    cases R <;> simp [RTLW81_DEVICE.held]
  · intro R
    rw [e3]
    simp only [released_append, q5, a5]
    split <;> simp [released, Event.releases]

/-- Storing the result of the I/O buffer allocation keeps a trace balanced. -/
theorem ioBuffer_balanced (A S : Nat) (Buffer : Option IO_BUFFER) {T : List Event}
    {D : RTLW81_DEVICE} (h : Balanced T D) (hD : D.IoBuffer = none) :
    Balanced (T ++ [Event.MmGetIoBufferAlignment,
        Event.MmAllocateNonPagedIoBuffer A S Buffer.isSome])
      { D with IoBuffer := Buffer } := by
  apply h.extend
  · simp [RTLW81_DEVICE.transferIds, createdTransfers, Event.creates]
  · rfl
  · rfl
  · intro R
    cases Buffer <;> cases R <;> simp [RTLW81_DEVICE.held, acquired, Event.acquires, hD]
  · intro R
    simp [released, Event.releases]

theorem End_failure (s : KSTATUS) (D : RTLW81_DEVICE) (T : List Event)
    (hs : s ≠ KSTATUS.STATUS_SUCCESS) :
    Rtlw81pInitializeDeviceStructures.End s (some D) T =
      { Status := s, NewDevice := none, Trace := T ++ Rtlw81pDestroyDeviceStructures D } := by
  unfold Rtlw81pInitializeDeviceStructures.End
  rw [if_pos ((KSUCCESS_eq_false_iff s).2 hs)]

theorem End_success (D : Option RTLW81_DEVICE) (T : List Event) :
    Rtlw81pInitializeDeviceStructures.End KSTATUS.STATUS_SUCCESS D T =
      { Status := KSTATUS.STATUS_SUCCESS, NewDevice := D, Trace := T } := by
  unfold Rtlw81pInitializeDeviceStructures.End
  rw [if_neg (by simp [KSUCCESS])]

/-- The outcome of `Rtlw81pInitializeDeviceStructures` when a device exists at
the end label: a failure status destroys the device of a balanced trace, which
unwinds it. -/
theorem End_balanced (s : KSTATUS) {T : List Event} {D : RTLW81_DEVICE}
    (h : Balanced T D) :
    (Rtlw81pInitializeDeviceStructures.End s (some D) T).Status = s ∧
    (s ≠ KSTATUS.STATUS_SUCCESS →
      (Rtlw81pInitializeDeviceStructures.End s (some D) T).NewDevice = none ∧
      Unwound (Rtlw81pInitializeDeviceStructures.End s (some D) T).Trace) ∧
    (s = KSTATUS.STATUS_SUCCESS →
      (Rtlw81pInitializeDeviceStructures.End s (some D) T).NewDevice = some D ∧
      (Rtlw81pInitializeDeviceStructures.End s (some D) T).Trace = T) := by
  by_cases hs : s = KSTATUS.STATUS_SUCCESS
  · subst hs
    rw [End_success]
    exact ⟨rfl, fun h => absurd rfl h, fun _ => ⟨rfl, rfl⟩⟩
  · rw [End_failure s D T hs]
    exact ⟨rfl, fun _ => ⟨rfl, h.unwound⟩, fun h => absurd h hs⟩


/-! ## The steps of `Rtlw81pInitializeDeviceStructures` -/

theorem initialize_no_pool (K : RTLW81_CONSTANTS) (Env : Environment) (OsDevice : Nat)
    (hpool : Env.MmAllocatePagedPool = false) :
    Rtlw81pInitializeDeviceStructures K Env OsDevice =
      Rtlw81pInitializeDeviceStructures.End KSTATUS.STATUS_INSUFFICIENT_RESOURCES none
        [Event.MmAllocatePagedPool false] := by
  unfold Rtlw81pInitializeDeviceStructures
  rw [if_pos hpool]

theorem initialize_no_lock (K : RTLW81_CONSTANTS) (Env : Environment) (OsDevice : Nat)
    (hpool : Env.MmAllocatePagedPool = true) (hlock : Env.KeCreateQueuedLock = none) :
    Rtlw81pInitializeDeviceStructures K Env OsDevice =
      Rtlw81pInitializeDeviceStructures.End KSTATUS.STATUS_INSUFFICIENT_RESOURCES
        (some (Rtlw81pInitializeDeviceStructures.allocated K Env OsDevice))
        [Event.MmAllocatePagedPool true,
          Event.KeCreateQueuedLock Env.KeCreateQueuedLock.isSome] := by
  unfold Rtlw81pInitializeDeviceStructures
  rw [if_neg (by simp [hpool])]
  have hl : (Rtlw81pInitializeDeviceStructures.allocated K Env OsDevice).BulkOutListLock
      = none := hlock
  simp only []
  rw [if_pos hl]

theorem initialize_no_attach (K : RTLW81_CONSTANTS) (Env : Environment) (OsDevice : Nat)
    (hpool : Env.MmAllocatePagedPool = true) (hlock : Env.KeCreateQueuedLock ≠ none)
    (hattach : Env.UsbDriverAttach ≠ KSTATUS.STATUS_SUCCESS) :
    Rtlw81pInitializeDeviceStructures K Env OsDevice =
      Rtlw81pInitializeDeviceStructures.End Env.UsbDriverAttach
        (some (Rtlw81pInitializeDeviceStructures.allocated K Env OsDevice))
        ([Event.MmAllocatePagedPool true,
          Event.KeCreateQueuedLock Env.KeCreateQueuedLock.isSome] ++
          [Event.UsbDriverAttach Env.UsbDriverAttach]) := by
  unfold Rtlw81pInitializeDeviceStructures
  rw [if_neg (by simp [hpool])]
  have hl : ¬ (Rtlw81pInitializeDeviceStructures.allocated K Env OsDevice).BulkOutListLock
      = none := hlock
  simp only []
  rw [if_neg hl, if_pos ((KSUCCESS_eq_false_iff _).2 hattach)]

theorem initialize_no_setUp (K : RTLW81_CONSTANTS) (Env : Environment) (OsDevice : Nat)
    (hpool : Env.MmAllocatePagedPool = true) (hlock : Env.KeCreateQueuedLock ≠ none)
    (hattach : Env.UsbDriverAttach = KSTATUS.STATUS_SUCCESS)
    (hsetup : (Rtlw81pSetUpUsbDevice Env
      (Rtlw81pInitializeDeviceStructures.attached K Env OsDevice)).Status ≠
      KSTATUS.STATUS_SUCCESS) :
    Rtlw81pInitializeDeviceStructures K Env OsDevice =
      Rtlw81pInitializeDeviceStructures.End
        (Rtlw81pSetUpUsbDevice Env
          (Rtlw81pInitializeDeviceStructures.attached K Env OsDevice)).Status
        (some (Rtlw81pSetUpUsbDevice Env
          (Rtlw81pInitializeDeviceStructures.attached K Env OsDevice)).Device)
        ([Event.MmAllocatePagedPool true,
          Event.KeCreateQueuedLock Env.KeCreateQueuedLock.isSome] ++
          [Event.UsbDriverAttach KSTATUS.STATUS_SUCCESS] ++
          (Rtlw81pSetUpUsbDevice Env
            (Rtlw81pInitializeDeviceStructures.attached K Env OsDevice)).Trace) := by
  unfold Rtlw81pInitializeDeviceStructures
  rw [if_neg (by simp [hpool])]
  have hl : ¬ (Rtlw81pInitializeDeviceStructures.allocated K Env OsDevice).BulkOutListLock
      = none := hlock
  simp only []
  rw [if_neg hl, if_neg (by simp [KSUCCESS, hattach]),
    if_pos ((KSUCCESS_eq_false_iff _).2 hsetup), hattach]

theorem initialize_no_buffer (K : RTLW81_CONSTANTS) (Env : Environment) (OsDevice : Nat)
    (hpool : Env.MmAllocatePagedPool = true) (hlock : Env.KeCreateQueuedLock ≠ none)
    (hattach : Env.UsbDriverAttach = KSTATUS.STATUS_SUCCESS)
    (hsetup : (Rtlw81pSetUpUsbDevice Env
      (Rtlw81pInitializeDeviceStructures.attached K Env OsDevice)).Status =
      KSTATUS.STATUS_SUCCESS)
    (hbuf : Env.MmAllocateNonPagedIoBuffer = none) :
    Rtlw81pInitializeDeviceStructures K Env OsDevice =
      Rtlw81pInitializeDeviceStructures.End KSTATUS.STATUS_INSUFFICIENT_RESOURCES
        (some { (Rtlw81pSetUpUsbDevice Env
          (Rtlw81pInitializeDeviceStructures.attached K Env OsDevice)).Device with
          IoBuffer := none })
        ([Event.MmAllocatePagedPool true,
          Event.KeCreateQueuedLock Env.KeCreateQueuedLock.isSome] ++
          [Event.UsbDriverAttach KSTATUS.STATUS_SUCCESS] ++
          (Rtlw81pSetUpUsbDevice Env
            (Rtlw81pInitializeDeviceStructures.attached K Env OsDevice)).Trace ++
          [Event.MmGetIoBufferAlignment,
            Event.MmAllocateNonPagedIoBuffer Env.MmGetIoBufferAlignment
              (IoBufferSize K Env.MmGetIoBufferAlignment) (none : Option IO_BUFFER).isSome]) := by
  unfold Rtlw81pInitializeDeviceStructures
  rw [if_neg (by simp [hpool])]
  have hl : ¬ (Rtlw81pInitializeDeviceStructures.allocated K Env OsDevice).BulkOutListLock
      = none := hlock
  simp only []
  rw [if_neg hl, if_neg (by simp [KSUCCESS, hattach]),
    if_neg (by simp [KSUCCESS, hsetup]), hattach]
  simp only [hbuf]

theorem initialize_transfers (K : RTLW81_CONSTANTS) (Env : Environment) (OsDevice : Nat)
    (B : IO_BUFFER)
    (hpool : Env.MmAllocatePagedPool = true) (hlock : Env.KeCreateQueuedLock ≠ none)
    (hattach : Env.UsbDriverAttach = KSTATUS.STATUS_SUCCESS)
    (hsetup : (Rtlw81pSetUpUsbDevice Env
      (Rtlw81pInitializeDeviceStructures.attached K Env OsDevice)).Status =
      KSTATUS.STATUS_SUCCESS)
    (hbuf : Env.MmAllocateNonPagedIoBuffer = some B) :
    Rtlw81pInitializeDeviceStructures K Env OsDevice =
      Rtlw81pInitializeDeviceStructures.End
        (Rtlw81pInitializeDeviceStructures.transfers K Env Env.MmGetIoBufferAlignment
          { (Rtlw81pSetUpUsbDevice Env
            (Rtlw81pInitializeDeviceStructures.attached K Env OsDevice)).Device with
            IoBuffer := some B } B).Status
        (some (Rtlw81pInitializeDeviceStructures.transfers K Env Env.MmGetIoBufferAlignment
          { (Rtlw81pSetUpUsbDevice Env
            (Rtlw81pInitializeDeviceStructures.attached K Env OsDevice)).Device with
            IoBuffer := some B } B).Device)
        ([Event.MmAllocatePagedPool true,
          Event.KeCreateQueuedLock Env.KeCreateQueuedLock.isSome] ++
          [Event.UsbDriverAttach KSTATUS.STATUS_SUCCESS] ++
          (Rtlw81pSetUpUsbDevice Env
            (Rtlw81pInitializeDeviceStructures.attached K Env OsDevice)).Trace ++
          [Event.MmGetIoBufferAlignment,
            Event.MmAllocateNonPagedIoBuffer Env.MmGetIoBufferAlignment
              (IoBufferSize K Env.MmGetIoBufferAlignment) (some B).isSome] ++
          (Rtlw81pInitializeDeviceStructures.transfers K Env Env.MmGetIoBufferAlignment
            { (Rtlw81pSetUpUsbDevice Env
              (Rtlw81pInitializeDeviceStructures.attached K Env OsDevice)).Device with
              IoBuffer := some B } B).Trace) := by
  unfold Rtlw81pInitializeDeviceStructures
  rw [if_neg (by simp [hpool])]
  have hl : ¬ (Rtlw81pInitializeDeviceStructures.allocated K Env OsDevice).BulkOutListLock
      = none := hlock
  simp only []
  rw [if_neg hl, if_neg (by simp [KSUCCESS, hattach]),
    if_neg (by simp [KSUCCESS, hsetup]), hattach]
  simp only [hbuf]


theorem allocations_any (Env : Environment) (N : Nat) :
    ((List.range (N + 1)).any (fun Call => decide (Env.UsbAllocateTransfer Call = false)) = true)
      ↔ ¬ (allocatedCount Env N 0 = N ∧ Env.UsbAllocateTransfer N = true) := by
  rw [allocatedCount_eq_iff]
  simp only [List.any_eq_true, List.mem_range, decide_eq_true_eq, Nat.zero_add]
  constructor
  · rintro ⟨c, hc, hf⟩ ⟨hall, hN⟩
    by_cases hlt : c < N
    · have := hall c hlt
      rw [hf] at this
      exact Bool.false_ne_true this
    · have hcN : c = N := by omega
      subst hcN
      rw [hf] at hN
      exact Bool.false_ne_true hN
  · intro hno
    by_contra hnone
    apply hno
    constructor
    · intro i hi
      by_contra hi2
      exact hnone ⟨i, by omega, by simpa using hi2⟩
    · by_contra hN
      exact hnone ⟨N, by omega, by simpa using hN⟩

/-- The end label of `Rtlw81pInitializeDeviceStructures` once the
device structure is allocated: a status, the device and a balanced trace; the
status is the one of the first failing step, and on success the device has all
its transfers. -/
theorem initialize_end (K : RTLW81_CONSTANTS) (Env : Environment) (OsDevice : Nat)
    (hpool : Env.MmAllocatePagedPool = true) :
    ∃ (s : KSTATUS) (D : RTLW81_DEVICE) (T : List Event),
      Rtlw81pInitializeDeviceStructures K Env OsDevice =
        Rtlw81pInitializeDeviceStructures.End s (some D) T ∧
      Balanced T D ∧
      firstFailureStatus K Env OsDevice =
        (if s = KSTATUS.STATUS_SUCCESS then none else some s) ∧
      (s = KSTATUS.STATUS_SUCCESS →
        D.BulkInTransfer.length = K.RTLW81_BULK_IN_TRANSFER_COUNT ∧
        (∀ Transfer ∈ D.BulkInTransfer, Transfer ≠ none) ∧ D.ControlTransfer ≠ none) := by
  have hp : ¬ Env.MmAllocatePagedPool = false := by simp [hpool]
  by_cases hlock : Env.KeCreateQueuedLock = none
  · refine ⟨_, _, _, initialize_no_lock K Env OsDevice hpool hlock,
      balanced_allocated K Env OsDevice, ?_, fun h => KSTATUS.noConfusion h⟩
    unfold firstFailureStatus
    rw [if_neg hp, if_pos hlock]
    rfl
  · by_cases hattach : Env.UsbDriverAttach = KSTATUS.STATUS_SUCCESS
    · have hb1 := setUp_balanced Env (balanced_attached K Env OsDevice) rfl
      obtain ⟨_, f2, f3, f4, _⟩ := setUp_frame Env
        (Rtlw81pInitializeDeviceStructures.attached K Env OsDevice)
      by_cases hsetup : (Rtlw81pSetUpUsbDevice Env
          (Rtlw81pInitializeDeviceStructures.attached K Env OsDevice)).Status =
          KSTATUS.STATUS_SUCCESS
      · have hb2 := ioBuffer_balanced Env.MmGetIoBufferAlignment
          (IoBufferSize K Env.MmGetIoBufferAlignment) Env.MmAllocateNonPagedIoBuffer hb1
          (by rw [f2]; rfl)
        cases hbuf : Env.MmAllocateNonPagedIoBuffer with
        | none =>
          rw [hbuf] at hb2
          refine ⟨_, _, _, initialize_no_buffer K Env OsDevice hpool hlock hattach hsetup hbuf,
            hb2, ?_, fun h => KSTATUS.noConfusion h⟩
          unfold firstFailureStatus
          rw [if_neg hp, if_neg hlock, if_neg (by simp [hattach]),
            if_neg (by simp [hsetup]), if_pos hbuf]
          rfl
        | some B =>
          rw [hbuf] at hb2
          have hD : ({ (Rtlw81pSetUpUsbDevice Env
              (Rtlw81pInitializeDeviceStructures.attached K Env OsDevice)).Device with
              IoBuffer := some B } : RTLW81_DEVICE).BulkInTransfer =
              List.replicate K.RTLW81_BULK_IN_TRANSFER_COUNT none := by
            show (Rtlw81pSetUpUsbDevice Env _).Device.BulkInTransfer = _
            rw [f4]; rfl
          have hC : ({ (Rtlw81pSetUpUsbDevice Env
              (Rtlw81pInitializeDeviceStructures.attached K Env OsDevice)).Device with
              IoBuffer := some B } : RTLW81_DEVICE).ControlTransfer = none := by
            show (Rtlw81pSetUpUsbDevice Env _).Device.ControlTransfer = _
            rw [f3]; rfl
          have hb3 := transfers_balanced K Env Env.MmGetIoBufferAlignment B hb2 hD hC
          obtain ⟨e1, e2, _⟩ := transfers_eq K Env Env.MmGetIoBufferAlignment _ B hD
          refine ⟨_, _, _, initialize_transfers K Env OsDevice B hpool hlock hattach hsetup hbuf,
            ?_, ?_, ?_⟩
          · simpa [List.append_assoc] using hb3
          · unfold firstFailureStatus
            rw [if_neg hp, if_neg hlock, if_neg (by simp [hattach]),
              if_neg (by simp [hsetup]), if_neg (by simp [hbuf]), e2]
            by_cases hkc : allocatedCount Env K.RTLW81_BULK_IN_TRANSFER_COUNT 0 =
                K.RTLW81_BULK_IN_TRANSFER_COUNT ∧
                Env.UsbAllocateTransfer K.RTLW81_BULK_IN_TRANSFER_COUNT = true
            · rw [if_neg (fun h => (allocations_any Env _).1 h hkc), if_pos hkc]
              simp
            · rw [if_pos ((allocations_any Env _).2 hkc), if_neg hkc]
              simp
          · intro hs
            rw [e2] at hs
            by_cases hkc : allocatedCount Env K.RTLW81_BULK_IN_TRANSFER_COUNT 0 =
                K.RTLW81_BULK_IN_TRANSFER_COUNT ∧
                Env.UsbAllocateTransfer K.RTLW81_BULK_IN_TRANSFER_COUNT = true
            · rw [e1]
              simp only [hkc.1, hkc.2, and_self, if_true, Nat.sub_self, List.replicate_zero,
                List.append_nil]
              refine ⟨?_, ?_, ?_⟩
              · rw [List.length_map, List.length_take, expectedTransfers_length]
                simp
              · intro Transfer hT
                rw [List.mem_map] at hT
                obtain ⟨t, _, ht⟩ := hT
                rw [← ht]
                simp
              · simp
            · rw [if_neg hkc] at hs
              exact KSTATUS.noConfusion hs
      · refine ⟨_, _, _, initialize_no_setUp K Env OsDevice hpool hlock hattach hsetup,
          hb1, ?_, fun h => absurd h hsetup⟩
        unfold firstFailureStatus
        rw [if_neg hp, if_neg hlock, if_neg (by simp [hattach]), if_pos hsetup,
          if_neg hsetup]
    · refine ⟨_, _, _, initialize_no_attach K Env OsDevice hpool hlock hattach,
        ?_, ?_, fun h => absurd h hattach⟩
      · exact (balanced_allocated K Env OsDevice).quiet
          (Quiet.single _ rfl rfl rfl ((acquires_failure _ hattach).1) rfl)
      · unfold firstFailureStatus
        rw [if_neg hp, if_neg hlock, if_pos hattach, if_neg hattach]


theorem firstFailureStatus_ne_success (K : RTLW81_CONSTANTS) (Env : Environment)
    (OsDevice : Nat) (s : KSTATUS) (h : firstFailureStatus K Env OsDevice = some s) :
    s ≠ KSTATUS.STATUS_SUCCESS := by
  unfold firstFailureStatus at h
  split at h
  · rw [← Option.some.inj h]; exact fun h => KSTATUS.noConfusion h
  · split at h
    · rw [← Option.some.inj h]; exact fun h => KSTATUS.noConfusion h
    · split at h
      · rw [← Option.some.inj h]; assumption
      · split at h
        · rw [← Option.some.inj h]; assumption
        · split at h
          · rw [← Option.some.inj h]; exact fun h => KSTATUS.noConfusion h
          · split at h
            · rw [← Option.some.inj h]; exact fun h => KSTATUS.noConfusion h
            · exact Option.noConfusion h

theorem initialize_status (K : RTLW81_CONSTANTS) (Env : Environment) (OsDevice : Nat) :
    (Rtlw81pInitializeDeviceStructures K Env OsDevice).Status =
      (firstFailureStatus K Env OsDevice).getD KSTATUS.STATUS_SUCCESS := by
  by_cases hpool : Env.MmAllocatePagedPool = true
  · obtain ⟨s, D, T, heq, hbal, hfirst, _⟩ := initialize_end K Env OsDevice hpool
    rw [heq, hfirst, (End_balanced s hbal).1]
    by_cases hs : s = KSTATUS.STATUS_SUCCESS
    · rw [if_pos hs, hs]; rfl
    · rw [if_neg hs]; rfl
  · have hp : Env.MmAllocatePagedPool = false := by simpa using hpool
    rw [initialize_no_pool K Env OsDevice hp]
    unfold firstFailureStatus
    rw [if_pos hp]
    rfl

theorem firstFailureStatus_none (K : RTLW81_CONSTANTS) (Env : Environment)
    (OsDevice : Nat) (h : firstFailureStatus K Env OsDevice = none) :
    Env.MmAllocatePagedPool = true ∧ Env.KeCreateQueuedLock ≠ none ∧
    Env.UsbDriverAttach = KSTATUS.STATUS_SUCCESS ∧
    (Rtlw81pSetUpUsbDevice Env
      (Rtlw81pInitializeDeviceStructures.attached K Env OsDevice)).Status =
      KSTATUS.STATUS_SUCCESS ∧
    Env.MmAllocateNonPagedIoBuffer ≠ none ∧
    allocatedCount Env K.RTLW81_BULK_IN_TRANSFER_COUNT 0 = K.RTLW81_BULK_IN_TRANSFER_COUNT ∧
    Env.UsbAllocateTransfer K.RTLW81_BULK_IN_TRANSFER_COUNT = true := by
  unfold firstFailureStatus at h
  split at h
  · exact Option.noConfusion h
  · rename_i h1
    split at h
    · exact Option.noConfusion h
    · rename_i h2
      split at h
      · exact Option.noConfusion h
      · rename_i h3
        split at h
        · exact Option.noConfusion h
        · rename_i h4
          split at h
          · exact Option.noConfusion h
          · rename_i h5
            split at h
            · exact Option.noConfusion h
            · rename_i h6
              have h7 := not_not.1 (fun hn => h6 ((allocations_any Env _).2 hn))
              exact ⟨by simpa using h1, h2, not_not.1 h3, not_not.1 h4, h5, h7.1, h7.2⟩

theorem initialize_success (K : RTLW81_CONSTANTS) (Env : Environment) (OsDevice : Nat)
    (B : IO_BUFFER)
    (hstatus : (Rtlw81pInitializeDeviceStructures K Env OsDevice).Status =
      KSTATUS.STATUS_SUCCESS)
    (hbuf : Env.MmAllocateNonPagedIoBuffer = some B) :
    (Rtlw81pInitializeDeviceStructures K Env OsDevice).NewDevice = some
      { (Rtlw81pSetUpUsbDevice Env
          (Rtlw81pInitializeDeviceStructures.attached K Env OsDevice)).Device with
        IoBuffer := some B
        BulkInTransfer :=
          (expectedTransfers K Env.MmGetIoBufferAlignment K.RTLW81_BULK_IN_TRANSFER_COUNT 0
            B.Fragment0.VirtualAddress B.Fragment0.PhysicalAddress).map some
        ControlTransfer := some
          { Id := K.RTLW81_BULK_IN_TRANSFER_COUNT
            Buffer := (Rtlw81pInitializeDeviceStructures.bulkIn K Env
              Env.MmGetIoBufferAlignment K.RTLW81_BULK_IN_TRANSFER_COUNT 0
              { (Rtlw81pSetUpUsbDevice Env
                  (Rtlw81pInitializeDeviceStructures.attached K Env OsDevice)).Device with
                IoBuffer := some B }
              B.Fragment0.VirtualAddress B.Fragment0.PhysicalAddress).VirtualAddress
            BufferPhysicalAddress := (Rtlw81pInitializeDeviceStructures.bulkIn K Env
              Env.MmGetIoBufferAlignment K.RTLW81_BULK_IN_TRANSFER_COUNT 0
              { (Rtlw81pSetUpUsbDevice Env
                  (Rtlw81pInitializeDeviceStructures.attached K Env OsDevice)).Device with
                IoBuffer := some B }
              B.Fragment0.VirtualAddress B.Fragment0.PhysicalAddress).PhysicalAddress
            Direction := none
            Length := 0
            BufferActualLength := MaxControlSize K Env.MmGetIoBufferAlignment } } ∧
    (Rtlw81pInitializeDeviceStructures.bulkIn K Env
      Env.MmGetIoBufferAlignment K.RTLW81_BULK_IN_TRANSFER_COUNT 0
      { (Rtlw81pSetUpUsbDevice Env
          (Rtlw81pInitializeDeviceStructures.attached K Env OsDevice)).Device with
        IoBuffer := some B }
      B.Fragment0.VirtualAddress B.Fragment0.PhysicalAddress).Completed = true ∧
    Event.MmAllocateNonPagedIoBuffer Env.MmGetIoBufferAlignment
      (IoBufferSize K Env.MmGetIoBufferAlignment) true ∈
      (Rtlw81pInitializeDeviceStructures K Env OsDevice).Trace ∧
    (B.FragmentCount ≠ 1 → Event.RtlRaiseAssertion ∈
      (Rtlw81pInitializeDeviceStructures K Env OsDevice).Trace) := by
  have hnone : firstFailureStatus K Env OsDevice = none := by
    cases hf : firstFailureStatus K Env OsDevice with
    | none => rfl
    | some s =>
      have h1 := initialize_status K Env OsDevice
      rw [hf, hstatus] at h1
      exact absurd h1.symm (firstFailureStatus_ne_success K Env OsDevice s hf)
  obtain ⟨hpool, hlock, hattach, hsetup, _, hk, hc⟩ := firstFailureStatus_none K Env OsDevice hnone
  obtain ⟨_, _, _, f4, _⟩ := setUp_frame Env
    (Rtlw81pInitializeDeviceStructures.attached K Env OsDevice)
  have hD : ({ (Rtlw81pSetUpUsbDevice Env
      (Rtlw81pInitializeDeviceStructures.attached K Env OsDevice)).Device with
      IoBuffer := some B } : RTLW81_DEVICE).BulkInTransfer =
      List.replicate K.RTLW81_BULK_IN_TRANSFER_COUNT none := by
    show (Rtlw81pSetUpUsbDevice Env _).Device.BulkInTransfer = _
    rw [f4]; rfl
  obtain ⟨e1, e2, e3⟩ := transfers_eq K Env Env.MmGetIoBufferAlignment _ B hD
  obtain ⟨_, l2, _⟩ := bulkIn_loop_eq K Env Env.MmGetIoBufferAlignment
    K.RTLW81_BULK_IN_TRANSFER_COUNT 0
    { (Rtlw81pSetUpUsbDevice Env
        (Rtlw81pInitializeDeviceStructures.attached K Env OsDevice)).Device with
      IoBuffer := some B }
    B.Fragment0.VirtualAddress B.Fragment0.PhysicalAddress [] (by simpa using hD) rfl
  rw [initialize_transfers K Env OsDevice B hpool hlock hattach hsetup hbuf, e2,
    if_pos ⟨hk, hc⟩, End_success]
  refine ⟨?_, ?_, ?_, ?_⟩
  · simp only [e1, hk, hc, and_self, if_true, Nat.sub_self, List.replicate_zero,
      List.append_nil]
    rw [List.take_of_length_le (by rw [expectedTransfers_length])]
  · rw [l2, hk]; simp
  · simp
  · intro hfrag
    rw [e3]
    simp [ASSERT, hfrag]


/-! ## Claims about `Rtlw81pInitializeDeviceStructures` -/

/-- Counterexample to C7 as stated, two successful runs. In the first the
returned buffer has two fragments that are not adjacent physically (only an
assertion checks the count): the transfers are sliced from the base of fragment
0, the physical regions of the second receive transfer and of the control
transfer lie in no fragment of the buffer, and the lengths sum to 8256 while
fragment 0 holds 4096 bytes. In the second the alignment is `2 ^ 31`: `R` and
`C` are `2 ^ 31`, the 32-bit size computation `R * 2 + C` wraps to `2 ^ 31`,
which is the size requested for the buffer, while the lengths of the regions sum
to `3 * 2 ^ 31`, and the regions of the second receive transfer and of the
control transfer lie outside the buffer. -/
theorem initialize_regions_counterexample :
    (Rtlw81pInitializeDeviceStructures exampleConstants
      exampleEnvironmentTwoFragments 0).Status = KSTATUS.STATUS_SUCCESS ∧
    (Rtlw81pInitializeDeviceStructures exampleConstants
      exampleEnvironmentTwoFragments 0).NewDevice = some exampleTwoFragmentsInitialized ∧
    exampleTwoFragmentsInitialized.IoBuffer = some exampleTwoFragments ∧
    exampleTwoFragmentsInitialized.physicalRegions =
      [(0x200000, 4096), (0x201000, 4096), (0x202000, 64)] ∧
    ¬ (∀ r ∈ exampleTwoFragmentsInitialized.physicalRegions,
      ∃ F ∈ exampleTwoFragments.Fragment0 :: exampleTwoFragments.MoreFragments,
        F.PhysicalAddress ≤ r.1 ∧ r.1 + r.2 ≤ F.PhysicalAddress + F.Size) ∧
    (exampleTwoFragmentsInitialized.physicalRegions.map Prod.snd).sum = 8256 ∧
    exampleTwoFragments.Fragment0.Size = 4096 ∧
    (Rtlw81pInitializeDeviceStructures exampleConstants
      exampleEnvironmentWideAlignment 0).Status = KSTATUS.STATUS_SUCCESS ∧
    (Rtlw81pInitializeDeviceStructures exampleConstants
      exampleEnvironmentWideAlignment 0).NewDevice = some exampleWideInitialized ∧
    exampleWideInitialized.IoBuffer = some exampleWideIoBuffer ∧
    exampleWideIoBuffer.FragmentCount = 1 ∧
    MaxBulkInTransferSize exampleConstants 0x80000000 = 0x80000000 ∧
    MaxControlSize exampleConstants 0x80000000 = 0x80000000 ∧
    Event.MmAllocateNonPagedIoBuffer 0x80000000 0x80000000 true ∈
      (Rtlw81pInitializeDeviceStructures exampleConstants
        exampleEnvironmentWideAlignment 0).Trace ∧
    exampleWideInitialized.regions =
      [(0x100000000, 0x80000000), (0x180000000, 0x80000000), (0x200000000, 0x80000000)] ∧
    (exampleWideInitialized.regions.map Prod.snd).sum = 3 * 0x80000000 ∧
    ¬ (∀ r ∈ exampleWideInitialized.regions,
      exampleWideIoBuffer.Fragment0.VirtualAddress ≤ r.1 ∧
      r.1 + r.2 ≤ exampleWideIoBuffer.Fragment0.VirtualAddress +
        exampleWideIoBuffer.Fragment0.Size) := by
  decide

/-- C7, amended: after a successful `Rtlw81pInitializeDeviceStructures`, with `R`
and `C` the aligned receive and control sizes for the alignment `A` and `N` the
number of receive transfers, provided that the 32-bit size computation
`R * N + C` does not wrap, that fragment 0 of the returned buffer holds at least
the requested size, and that fragment 0 ends below `2 ^ 64` in the virtual and
in the physical address space: receive transfer `i` has its region at offset
`i * R` in both addresses with `BufferActualLength` `R`; the control transfer
has the region at offset `N * R` with length `C`; the lengths sum to the
requested size `N * R + C`; the regions are in increasing order without overlap
and lie inside fragment 0, virtually and physically. -/
theorem initialize_regions (K : RTLW81_CONSTANTS) (Env : Environment) (OsDevice : Nat)
    (D : RTLW81_DEVICE) (B : IO_BUFFER)
    (hstatus : (Rtlw81pInitializeDeviceStructures K Env OsDevice).Status =
      KSTATUS.STATUS_SUCCESS)
    (hdevice : (Rtlw81pInitializeDeviceStructures K Env OsDevice).NewDevice = some D)
    (hbuf : Env.MmAllocateNonPagedIoBuffer = some B)
    (hfit : MaxBulkInTransferSize K Env.MmGetIoBufferAlignment *
      K.RTLW81_BULK_IN_TRANSFER_COUNT + MaxControlSize K Env.MmGetIoBufferAlignment < 2 ^ 32)
    (hsize : IoBufferSize K Env.MmGetIoBufferAlignment ≤ B.Fragment0.Size)
    (hvirt : B.Fragment0.VirtualAddress + B.Fragment0.Size < 2 ^ 64)
    (hphys : B.Fragment0.PhysicalAddress + B.Fragment0.Size < 2 ^ 64) :
    D.IoBuffer = some B ∧
    Event.MmAllocateNonPagedIoBuffer Env.MmGetIoBufferAlignment
      (K.RTLW81_BULK_IN_TRANSFER_COUNT * MaxBulkInTransferSize K Env.MmGetIoBufferAlignment +
        MaxControlSize K Env.MmGetIoBufferAlignment) true ∈
      (Rtlw81pInitializeDeviceStructures K Env OsDevice).Trace ∧
    D.BulkInTransfer.length = K.RTLW81_BULK_IN_TRANSFER_COUNT ∧
    (∀ i, i < K.RTLW81_BULK_IN_TRANSFER_COUNT →
      D.BulkInTransfer[i]? = some (some
        { Id := i
          Buffer := B.Fragment0.VirtualAddress +
            i * MaxBulkInTransferSize K Env.MmGetIoBufferAlignment
          BufferPhysicalAddress := B.Fragment0.PhysicalAddress +
            i * MaxBulkInTransferSize K Env.MmGetIoBufferAlignment
          Direction := some USB_TRANSFER_DIRECTION.UsbTransferDirectionIn
          Length := K.RTLW81_BULK_IN_TRANSFER_SIZE
          BufferActualLength := MaxBulkInTransferSize K Env.MmGetIoBufferAlignment })) ∧
    D.ControlTransfer = some
      { Id := K.RTLW81_BULK_IN_TRANSFER_COUNT
        Buffer := B.Fragment0.VirtualAddress +
          K.RTLW81_BULK_IN_TRANSFER_COUNT * MaxBulkInTransferSize K Env.MmGetIoBufferAlignment
        BufferPhysicalAddress := B.Fragment0.PhysicalAddress +
          K.RTLW81_BULK_IN_TRANSFER_COUNT * MaxBulkInTransferSize K Env.MmGetIoBufferAlignment
        Direction := none
        Length := 0
        BufferActualLength := MaxControlSize K Env.MmGetIoBufferAlignment } ∧
    (D.regions.map Prod.snd).sum =
      K.RTLW81_BULK_IN_TRANSFER_COUNT * MaxBulkInTransferSize K Env.MmGetIoBufferAlignment +
        MaxControlSize K Env.MmGetIoBufferAlignment ∧
    D.regions.Pairwise (fun a b => a.1 + a.2 ≤ b.1) ∧
    (∀ r ∈ D.regions, B.Fragment0.VirtualAddress ≤ r.1 ∧
      r.1 + r.2 ≤ B.Fragment0.VirtualAddress + B.Fragment0.Size) ∧
    (D.physicalRegions.map Prod.snd).sum =
      K.RTLW81_BULK_IN_TRANSFER_COUNT * MaxBulkInTransferSize K Env.MmGetIoBufferAlignment +
        MaxControlSize K Env.MmGetIoBufferAlignment ∧
    D.physicalRegions.Pairwise (fun a b => a.1 + a.2 ≤ b.1) ∧
    (∀ r ∈ D.physicalRegions, B.Fragment0.PhysicalAddress ≤ r.1 ∧
      r.1 + r.2 ≤ B.Fragment0.PhysicalAddress + B.Fragment0.Size) := by
  obtain ⟨hnew, hcompleted, hevent, _⟩ := initialize_success K Env OsDevice B hstatus hbuf
  have hcomm : K.RTLW81_BULK_IN_TRANSFER_COUNT *
      MaxBulkInTransferSize K Env.MmGetIoBufferAlignment =
      MaxBulkInTransferSize K Env.MmGetIoBufferAlignment * K.RTLW81_BULK_IN_TRANSFER_COUNT :=
    Nat.mul_comm _ _
  have hio : IoBufferSize K Env.MmGetIoBufferAlignment =
      K.RTLW81_BULK_IN_TRANSFER_COUNT * MaxBulkInTransferSize K Env.MmGetIoBufferAlignment +
        MaxControlSize K Env.MmGetIoBufferAlignment := by
    unfold IoBufferSize
    rw [Nat.mod_eq_of_lt (a := MaxBulkInTransferSize K Env.MmGetIoBufferAlignment *
      K.RTLW81_BULK_IN_TRANSFER_COUNT) (by omega), Nat.mod_eq_of_lt hfit, hcomm]
  have hwrap : B.Fragment0.PhysicalAddress + K.RTLW81_BULK_IN_TRANSFER_COUNT *
      MaxBulkInTransferSize K Env.MmGetIoBufferAlignment < 2 ^ 64 := by
    rw [hio] at hsize
    omega
  have hvwrap : B.Fragment0.VirtualAddress + K.RTLW81_BULK_IN_TRANSFER_COUNT *
      MaxBulkInTransferSize K Env.MmGetIoBufferAlignment < 2 ^ 64 := by
    rw [hio] at hsize
    omega
  obtain ⟨hva, hpa⟩ := bulkIn_loop_addresses K Env Env.MmGetIoBufferAlignment
    K.RTLW81_BULK_IN_TRANSFER_COUNT 0 _ _ _ hcompleted hvwrap hwrap
  rw [hnew, hva, hpa] at hdevice
  have hD := (Option.some.inj hdevice).symm
  have hregions : D.regions =
      (List.range K.RTLW81_BULK_IN_TRANSFER_COUNT).map
        (fun i => (B.Fragment0.VirtualAddress +
          i * MaxBulkInTransferSize K Env.MmGetIoBufferAlignment,
          MaxBulkInTransferSize K Env.MmGetIoBufferAlignment)) ++
      [(B.Fragment0.VirtualAddress + K.RTLW81_BULK_IN_TRANSFER_COUNT *
          MaxBulkInTransferSize K Env.MmGetIoBufferAlignment,
        MaxControlSize K Env.MmGetIoBufferAlignment)] := by
    rw [hD]
    simp only [RTLW81_DEVICE.regions]
    rw [← expectedTransfers_regions K Env.MmGetIoBufferAlignment
      K.RTLW81_BULK_IN_TRANSFER_COUNT 0 B.Fragment0.VirtualAddress
      B.Fragment0.PhysicalAddress hvwrap]
    have := filterMap_map_some (fun T : USB_TRANSFER => (T.Buffer, T.BufferActualLength))
      (expectedTransfers K Env.MmGetIoBufferAlignment K.RTLW81_BULK_IN_TRANSFER_COUNT 0
        B.Fragment0.VirtualAddress B.Fragment0.PhysicalAddress) 0
    simp only [List.replicate_zero, List.append_nil] at this
    rw [this]
  have hphysical : D.physicalRegions =
      (List.range K.RTLW81_BULK_IN_TRANSFER_COUNT).map
        (fun i => (B.Fragment0.PhysicalAddress +
          i * MaxBulkInTransferSize K Env.MmGetIoBufferAlignment,
          MaxBulkInTransferSize K Env.MmGetIoBufferAlignment)) ++
      [(B.Fragment0.PhysicalAddress + K.RTLW81_BULK_IN_TRANSFER_COUNT *
          MaxBulkInTransferSize K Env.MmGetIoBufferAlignment,
        MaxControlSize K Env.MmGetIoBufferAlignment)] := by
    rw [hD]
    simp only [RTLW81_DEVICE.physicalRegions]
    rw [← expectedTransfers_physicalRegions K Env.MmGetIoBufferAlignment
      K.RTLW81_BULK_IN_TRANSFER_COUNT 0 B.Fragment0.VirtualAddress
      B.Fragment0.PhysicalAddress hwrap]
    have := filterMap_map_some
      (fun T : USB_TRANSFER => (T.BufferPhysicalAddress, T.BufferActualLength))
      (expectedTransfers K Env.MmGetIoBufferAlignment K.RTLW81_BULK_IN_TRANSFER_COUNT 0
        B.Fragment0.VirtualAddress B.Fragment0.PhysicalAddress) 0
    simp only [List.replicate_zero, List.append_nil] at this
    rw [this]
  have hsum : ∀ (Base : Nat),
      (((List.range K.RTLW81_BULK_IN_TRANSFER_COUNT).map
        (fun i => (Base + i * MaxBulkInTransferSize K Env.MmGetIoBufferAlignment,
          MaxBulkInTransferSize K Env.MmGetIoBufferAlignment)) ++
      [(Base + K.RTLW81_BULK_IN_TRANSFER_COUNT *
          MaxBulkInTransferSize K Env.MmGetIoBufferAlignment,
        MaxControlSize K Env.MmGetIoBufferAlignment)]).map Prod.snd).sum =
      K.RTLW81_BULK_IN_TRANSFER_COUNT * MaxBulkInTransferSize K Env.MmGetIoBufferAlignment +
        MaxControlSize K Env.MmGetIoBufferAlignment := by
    intro Base
    simp [List.map_map, Function.comp_def, List.sum_append]
  have hpair : ∀ (Base : Nat),
      ((List.range K.RTLW81_BULK_IN_TRANSFER_COUNT).map
        (fun i => (Base + i * MaxBulkInTransferSize K Env.MmGetIoBufferAlignment,
          MaxBulkInTransferSize K Env.MmGetIoBufferAlignment)) ++
      [(Base + K.RTLW81_BULK_IN_TRANSFER_COUNT *
          MaxBulkInTransferSize K Env.MmGetIoBufferAlignment,
        MaxControlSize K Env.MmGetIoBufferAlignment)]).Pairwise
      (fun a b => a.1 + a.2 ≤ b.1) := by
    intro Base
    rw [List.pairwise_append]
    refine ⟨?_, List.pairwise_singleton _ _, ?_⟩
    · rw [List.pairwise_map]
      apply (List.pairwise_lt_range K.RTLW81_BULK_IN_TRANSFER_COUNT).imp
      intro i j hij
      have := Nat.mul_le_mul_right (MaxBulkInTransferSize K Env.MmGetIoBufferAlignment)
        (Nat.succ_le_of_lt hij)
      rw [Nat.succ_mul] at this
      show Base + i * _ + _ ≤ Base + j * _
      omega
    · intro a ha b hb
      rw [List.mem_map] at ha
      obtain ⟨i, hi, rfl⟩ := ha
      rw [List.mem_singleton] at hb
      subst hb
      rw [List.mem_range] at hi
      have := Nat.mul_le_mul_right (MaxBulkInTransferSize K Env.MmGetIoBufferAlignment)
        (Nat.succ_le_of_lt hi)
      rw [Nat.succ_mul] at this
      show Base + i * _ + _ ≤ Base + K.RTLW81_BULK_IN_TRANSFER_COUNT * _
      omega
  have hinside : ∀ (Base : Nat), ∀ r ∈
      ((List.range K.RTLW81_BULK_IN_TRANSFER_COUNT).map
        (fun i => (Base + i * MaxBulkInTransferSize K Env.MmGetIoBufferAlignment,
          MaxBulkInTransferSize K Env.MmGetIoBufferAlignment)) ++
      [(Base + K.RTLW81_BULK_IN_TRANSFER_COUNT *
          MaxBulkInTransferSize K Env.MmGetIoBufferAlignment,
        MaxControlSize K Env.MmGetIoBufferAlignment)]),
      Base ≤ r.1 ∧ r.1 + r.2 ≤ Base + B.Fragment0.Size := by
    intro Base r hr
    rw [hio] at hsize
    rw [List.mem_append] at hr
    rcases hr with hr | hr
    · rw [List.mem_map] at hr
      obtain ⟨i, hi, rfl⟩ := hr
      rw [List.mem_range] at hi
      have := Nat.mul_le_mul_right (MaxBulkInTransferSize K Env.MmGetIoBufferAlignment)
        (Nat.succ_le_of_lt hi)
      rw [Nat.succ_mul] at this
      constructor
      · show Base ≤ Base + i * _
        omega
      · show Base + i * _ + _ ≤ _
        omega
    · rw [List.mem_singleton] at hr
      subst hr
      constructor
      · show Base ≤ Base + _ * _
        omega
      · show Base + _ * _ + _ ≤ _
        omega
  refine ⟨by rw [hD], ?_, by rw [hD]; simp [expectedTransfers_length], ?_, by rw [hD],
    ?_, ?_, ?_, ?_, ?_, ?_⟩
  · rw [← hio]; exact hevent
  · intro i hi
    rw [hD]
    simp only [List.getElem?_map]
    rw [expectedTransfers_getElem K Env.MmGetIoBufferAlignment _ 0 _ _ i hi hvwrap hwrap]
    simp
  · rw [hregions]; exact hsum _
  · rw [hregions]; exact hpair _
  · rw [hregions]; exact hinside _
  · rw [hphysical]; exact hsum _
  · rw [hphysical]; exact hpair _
  · rw [hphysical]; exact hinside _


/-- Witness of C7: in the example environment (alignment 64, two receive
transfers of 4096 bytes, a control region of 64 bytes) the regions are
consecutive from the fragment base. -/
theorem initialize_regions_witness :
    (Rtlw81pInitializeDeviceStructures exampleConstants exampleEnvironment 0).Status =
      KSTATUS.STATUS_SUCCESS ∧
    (Rtlw81pInitializeDeviceStructures exampleConstants exampleEnvironment 0).NewDevice =
      some exampleInitialized ∧
    MaxBulkInTransferSize exampleConstants 64 * 2 + MaxControlSize exampleConstants 64 <
      2 ^ 32 ∧
    IoBufferSize exampleConstants 64 ≤ exampleIoBuffer.Fragment0.Size ∧
    exampleIoBuffer.Fragment0.VirtualAddress + exampleIoBuffer.Fragment0.Size < 2 ^ 64 ∧
    exampleIoBuffer.Fragment0.PhysicalAddress + exampleIoBuffer.Fragment0.Size < 2 ^ 64 ∧
    exampleInitialized.regions = [(0x100000, 4096), (0x101000, 4096), (0x102000, 64)] ∧
    (exampleInitialized.regions.map Prod.snd).sum =
      2 * MaxBulkInTransferSize exampleConstants 64 + MaxControlSize exampleConstants 64 ∧
    exampleInitialized.regions.Pairwise (fun a b => a.1 + a.2 ≤ b.1) :=
  have h := initialize_regions exampleConstants exampleEnvironment 0 exampleInitialized
    exampleIoBuffer (by decide) (by decide) rfl (by decide) (by decide) (by decide)
    (by decide)
  ⟨by decide, by decide, by decide, by decide, by decide, by decide, by decide,
    h.2.2.2.2.2.1, h.2.2.2.2.2.2.1⟩

theorem End_status (s : KSTATUS) (D : Option RTLW81_DEVICE) (T : List Event) :
    (Rtlw81pInitializeDeviceStructures.End s D T).Status = s := by
  unfold Rtlw81pInitializeDeviceStructures.End
  split
  · cases D <;> rfl
  · rfl

theorem End_trace_mem (s : KSTATUS) (D : Option RTLW81_DEVICE) (T : List Event) (e : Event)
    (he : e ∈ T) : e ∈ (Rtlw81pInitializeDeviceStructures.End s D T).Trace := by
  unfold Rtlw81pInitializeDeviceStructures.End
  split
  · cases D
    · exact he
    · exact List.mem_append_left _ he
  · exact he

/-- Counterexample to C8 as stated: with an I/O buffer of two fragments the
routine does not fail with `STATUS_INSUFFICIENT_RESOURCES`; it returns
`STATUS_SUCCESS`, creates all three transfers and slices their regions from
fragment 0, raising only the assertion on the fragment count. -/
theorem initialize_multi_fragment_counterexample :
    exampleEnvironmentTwoFragments.MmAllocateNonPagedIoBuffer.map IO_BUFFER.FragmentCount =
      some 2 ∧
    (Rtlw81pInitializeDeviceStructures exampleConstants exampleEnvironmentTwoFragments
      0).Status = KSTATUS.STATUS_SUCCESS ∧
    createdTransfers (Rtlw81pInitializeDeviceStructures exampleConstants
      exampleEnvironmentTwoFragments 0).Trace = [0, 1, 2] ∧
    Event.RtlRaiseAssertion ∈ (Rtlw81pInitializeDeviceStructures exampleConstants
      exampleEnvironmentTwoFragments 0).Trace ∧
    (Rtlw81pInitializeDeviceStructures exampleConstants exampleEnvironmentTwoFragments
      0).NewDevice.map RTLW81_DEVICE.regions =
      some [(0x100000, 4096), (0x101000, 4096), (0x102000, 64)] := by
  decide

/-- C8, amended: once the interface is set up, `Rtlw81pInitializeDeviceStructures`
fails with `STATUS_INSUFFICIENT_RESOURCES` when the I/O buffer allocation returns
no buffer, and then no transfer is created. A returned buffer is not rejected
for its fragment count: the status depends only on the transfer allocations, a
fragment count other than 1 only raises an assertion, and when the allocations
succeed the transfers are sliced from fragment 0. -/
theorem initialize_arena (K : RTLW81_CONSTANTS) (Env : Environment) (OsDevice : Nat)
    (hpool : Env.MmAllocatePagedPool = true) (hlock : Env.KeCreateQueuedLock ≠ none)
    (hattach : Env.UsbDriverAttach = KSTATUS.STATUS_SUCCESS)
    (hsetup : (Rtlw81pSetUpUsbDevice Env
      (Rtlw81pInitializeDeviceStructures.attached K Env OsDevice)).Status =
      KSTATUS.STATUS_SUCCESS) :
    (Env.MmAllocateNonPagedIoBuffer = none →
      (Rtlw81pInitializeDeviceStructures K Env OsDevice).Status =
        KSTATUS.STATUS_INSUFFICIENT_RESOURCES ∧
      (Rtlw81pInitializeDeviceStructures K Env OsDevice).NewDevice = none ∧
      createdTransfers (Rtlw81pInitializeDeviceStructures K Env OsDevice).Trace = []) ∧
    (∀ B, Env.MmAllocateNonPagedIoBuffer = some B →
      (Rtlw81pInitializeDeviceStructures K Env OsDevice).Status =
        (if allocatedCount Env K.RTLW81_BULK_IN_TRANSFER_COUNT 0 =
            K.RTLW81_BULK_IN_TRANSFER_COUNT ∧
            Env.UsbAllocateTransfer K.RTLW81_BULK_IN_TRANSFER_COUNT = true then
          KSTATUS.STATUS_SUCCESS
        else KSTATUS.STATUS_INSUFFICIENT_RESOURCES) ∧
      (B.FragmentCount ≠ 1 →
        Event.RtlRaiseAssertion ∈ (Rtlw81pInitializeDeviceStructures K Env OsDevice).Trace) ∧
      (allocatedCount Env K.RTLW81_BULK_IN_TRANSFER_COUNT 0 =
          K.RTLW81_BULK_IN_TRANSFER_COUNT ∧
          Env.UsbAllocateTransfer K.RTLW81_BULK_IN_TRANSFER_COUNT = true →
        ∃ D, (Rtlw81pInitializeDeviceStructures K Env OsDevice).NewDevice = some D ∧
          D.IoBuffer = some B ∧
          D.BulkInTransfer =
            (expectedTransfers K Env.MmGetIoBufferAlignment K.RTLW81_BULK_IN_TRANSFER_COUNT 0
              B.Fragment0.VirtualAddress B.Fragment0.PhysicalAddress).map some)) := by
  obtain ⟨_, f2, f3, f4, _⟩ := setUp_frame Env
    (Rtlw81pInitializeDeviceStructures.attached K Env OsDevice)
  constructor
  · intro hbuf
    have hb1 := setUp_balanced Env (balanced_attached K Env OsDevice) rfl
    have hb2 := ioBuffer_balanced Env.MmGetIoBufferAlignment
      (IoBufferSize K Env.MmGetIoBufferAlignment) none hb1 (by rw [f2]; rfl)
    rw [initialize_no_buffer K Env OsDevice hpool hlock hattach hsetup hbuf,
      End_failure _ _ _ (fun h => KSTATUS.noConfusion h)]
    refine ⟨rfl, rfl, ?_⟩
    show createdTransfers (_ ++ Rtlw81pDestroyDeviceStructures _) = []
    rw [createdTransfers_append, (destroy_ledger _).2.2.1, List.append_nil]
    have := hb2.1
    simp only [Option.isSome_none] at this ⊢
    rw [this]
    simp only [RTLW81_DEVICE.transferIds, f3, f4]
    simp [Rtlw81pInitializeDeviceStructures.attached,
      Rtlw81pInitializeDeviceStructures.allocated, RTLW81_DEVICE.zero,
      filterMap_replicate_none]
  · intro B hbuf
    have hD : ({ (Rtlw81pSetUpUsbDevice Env
        (Rtlw81pInitializeDeviceStructures.attached K Env OsDevice)).Device with
        IoBuffer := some B } : RTLW81_DEVICE).BulkInTransfer =
        List.replicate K.RTLW81_BULK_IN_TRANSFER_COUNT none := by
      show (Rtlw81pSetUpUsbDevice Env _).Device.BulkInTransfer = _
      rw [f4]; rfl
    obtain ⟨_, e2, e3⟩ := transfers_eq K Env Env.MmGetIoBufferAlignment _ B hD
    have hstatus : (Rtlw81pInitializeDeviceStructures K Env OsDevice).Status =
        (if allocatedCount Env K.RTLW81_BULK_IN_TRANSFER_COUNT 0 =
            K.RTLW81_BULK_IN_TRANSFER_COUNT ∧
            Env.UsbAllocateTransfer K.RTLW81_BULK_IN_TRANSFER_COUNT = true then
          KSTATUS.STATUS_SUCCESS
        else KSTATUS.STATUS_INSUFFICIENT_RESOURCES) := by
      rw [initialize_transfers K Env OsDevice B hpool hlock hattach hsetup hbuf, End_status, e2]
    refine ⟨hstatus, ?_, ?_⟩
    · intro hfrag
      rw [initialize_transfers K Env OsDevice B hpool hlock hattach hsetup hbuf]
      apply End_trace_mem
      rw [e3]
      simp [ASSERT, hfrag]
    · intro hkc
      rw [if_pos hkc] at hstatus
      obtain ⟨hnew, _⟩ := initialize_success K Env OsDevice B hstatus hbuf
      exact ⟨_, hnew, rfl, rfl⟩

/-- Witness of the amended C8: without an I/O buffer the example environment
gives `STATUS_INSUFFICIENT_RESOURCES` and no transfer. -/
theorem initialize_arena_witness :
    exampleEnvironmentNoBuffer.MmAllocatePagedPool = true ∧
    exampleEnvironmentNoBuffer.KeCreateQueuedLock ≠ none ∧
    (Rtlw81pSetUpUsbDevice exampleEnvironmentNoBuffer
      (Rtlw81pInitializeDeviceStructures.attached exampleConstants exampleEnvironmentNoBuffer
        0)).Status = KSTATUS.STATUS_SUCCESS ∧
    (Rtlw81pInitializeDeviceStructures exampleConstants exampleEnvironmentNoBuffer 0).Status =
      KSTATUS.STATUS_INSUFFICIENT_RESOURCES ∧
    createdTransfers
      (Rtlw81pInitializeDeviceStructures exampleConstants exampleEnvironmentNoBuffer 0).Trace
      = [] :=
  have h := (initialize_arena exampleConstants exampleEnvironmentNoBuffer 0 rfl (by decide)
    rfl (by decide)).1 rfl
  ⟨rfl, by decide, by decide, h.1, h.2.2⟩

/-! ## Claims about `Rtlw81AddDevice` -/

/-- C9: the `switch` of `Rtlw81AddDevice` ors `RTLW81_FLAG_8188E` into the flags
exactly for the pairs (0x2001, 0x3310), (0x056E, 0x4008), (0x0BDA, 0x0179) and
(0x0BDA, 0x8179) and leaves the flags unchanged otherwise, so no other bit
changes; (0x2001, 0x330F) and (0x1234, 0x0001) are not among them and
(0x0BDA, 0x8179) is; and the device a successful `Rtlw81AddDevice` attaches has
exactly that flag value for the parsed pair, the flags being zero before. -/
theorem addDevice_variant (K : RTLW81_CONSTANTS) (Env : Environment) (DeviceToken : Nat) :
    (∀ UsbVendorId UsbProductId Flags,
      Rtlw81AddDevice.variant K UsbVendorId UsbProductId Flags =
        if (UsbVendorId, UsbProductId) ∈ knownVariants then Flags ||| K.RTLW81_FLAG_8188E
        else Flags) ∧
    (∀ Flags, Rtlw81AddDevice.variant K 0x2001 0x330F Flags = Flags) ∧
    (∀ Flags, Rtlw81AddDevice.variant K 0x0BDA 0x8179 Flags =
      Flags ||| K.RTLW81_FLAG_8188E) ∧
    (∀ Flags, Rtlw81AddDevice.variant K 0x1234 0x0001 Flags = Flags) ∧
    (∀ D, (Rtlw81AddDevice K Env DeviceToken).NewDevice = some D →
      D.Flags = if (Env.UsbVendorId, Env.UsbProductId) ∈ knownVariants then
        K.RTLW81_FLAG_8188E else 0) ∧
    (Rtlw81AddDevice exampleConstants exampleEnvironment 0).NewDevice.map
      RTLW81_DEVICE.Flags = some exampleConstants.RTLW81_FLAG_8188E := by
  have hvariant : ∀ UsbVendorId UsbProductId Flags,
      Rtlw81AddDevice.variant K UsbVendorId UsbProductId Flags =
        if (UsbVendorId, UsbProductId) ∈ knownVariants then Flags ||| K.RTLW81_FLAG_8188E
        else Flags := by
    intro v p Flags
    unfold Rtlw81AddDevice.variant knownVariants RTLW81_VENDOR_DLINK RTLW81_DLINK_DWA123D1
      RTLW81_VENDOR_ELECOM RTLW81_ELECOM_WDC150SU2M RTLW81_VENDOR_REALTEK
      RTLW81_REALTEK_RTL8188ETV RTLW81_REALTEK_RTL8188EU
    simp only [List.mem_cons, Prod.mk.injEq, List.mem_singleton, List.not_mem_nil, or_false,
      or_self]
    by_cases h1 : v = 0x2001
    · subst h1
      by_cases hp : p = 0x3310 <;> simp [hp]
    · by_cases h2 : v = 0x056E
      · subst h2
        by_cases hp : p = 0x4008 <;> simp [hp]
      · by_cases h3 : v = 0x0BDA
        · subst h3
          by_cases hp1 : p = 0x0179
          · simp [hp1]
          · by_cases hp2 : p = 0x8179 <;> simp [hp1, hp2]
        · simp [h1, h2, h3]
  refine ⟨hvariant, ?_, ?_, ?_, ?_, by decide⟩
  · intro Flags
    rw [hvariant]
    simp [knownVariants]
  · intro Flags
    rw [hvariant]
    simp [knownVariants]
  · intro Flags
    rw [hvariant]
    simp [knownVariants]
  · intro D hD
    unfold Rtlw81AddDevice Rtlw81AddDevice.End at hD
    by_cases hinit : KSUCCESS (Rtlw81pInitializeDeviceStructures K Env DeviceToken).Status =
        false
    · rw [if_pos hinit] at hD
      simp only [hinit, if_true] at hD
      cases hnd : (Rtlw81pInitializeDeviceStructures K Env DeviceToken).NewDevice <;>
        simp [hnd] at hD
    · rw [if_neg hinit] at hD
      have hs : (Rtlw81pInitializeDeviceStructures K Env DeviceToken).Status =
          KSTATUS.STATUS_SUCCESS := by
        by_contra hne
        exact hinit ((KSUCCESS_eq_false_iff _).2 hne)
      cases hnd : (Rtlw81pInitializeDeviceStructures K Env DeviceToken).NewDevice with
      | none =>
        simp only [hnd] at hD
        split at hD <;> exact Option.noConfusion hD
      | some D0 =>
        have hflags : D0.Flags = 0 := by
          cases hbuf : Env.MmAllocateNonPagedIoBuffer with
          | none =>
            have := (firstFailureStatus_none K Env DeviceToken (by
              cases hf : firstFailureStatus K Env DeviceToken with
              | none => rfl
              | some s =>
                have h1 := initialize_status K Env DeviceToken
                rw [hf, hs] at h1
                exact absurd h1.symm
                  (firstFailureStatus_ne_success K Env DeviceToken s hf))).2.2.2.2.1
            exact absurd hbuf this
          | some B =>
            obtain ⟨hnew, _⟩ := initialize_success K Env DeviceToken B hs hbuf
            rw [hnd] at hnew
            rw [Option.some.inj hnew]
            show (Rtlw81pSetUpUsbDevice Env _).Device.Flags = 0
            rw [(setUp_frame Env _).2.2.2.2.2.2.1]
            rfl
        simp only [hnd] at hD
        by_cases hscan : KSUCCESS Env.RtlStringScan = false
        · rw [if_pos hscan] at hD
          simp [hscan] at hD
        · rw [if_neg hscan] at hD
          by_cases hitems : Env.ItemsScanned ≠ 2
          · rw [if_pos hitems] at hD
            simp [KSUCCESS] at hD
          · rw [if_neg hitems] at hD
            by_cases hatt : KSUCCESS Env.IoAttachDriverToDevice = false
            · simp [hatt] at hD
            · simp only [hatt] at hD
              have := Option.some.inj hD
              rw [← this]
              show Rtlw81AddDevice.variant K Env.UsbVendorId Env.UsbProductId D0.Flags = _
              rw [hvariant, hflags]
              simp

/-! ## The order of `Rtlw81pDestroyDeviceStructures` -/

theorem destroy_bulkIn_eq (L : List (Option USB_TRANSFER)) :
    Rtlw81pDestroyDeviceStructures.bulkIn L = cancelAndDestroy (L.filterMap (fun T => T)) := by
  induction L with
  | nil => rfl
  | cons T L ih =>
    cases T with
    | none => simpa [Rtlw81pDestroyDeviceStructures.bulkIn] using ih
    | some T => simp [Rtlw81pDestroyDeviceStructures.bulkIn, cancelAndDestroy, ih]

theorem cancelAndDestroy_append (A B : List USB_TRANSFER) :
    cancelAndDestroy (A ++ B) = cancelAndDestroy A ++ cancelAndDestroy B := by
  induction A with
  | nil => rfl
  | cons T A ih => simp [cancelAndDestroy, ih]

/-- The routine `Rtlw81pDestroyDeviceStructures` in three parts: the detach, the
cancel and destroy of each transfer the device holds, and the remaining calls. -/
theorem destroy_eq (D : RTLW81_DEVICE) :
    Rtlw81pDestroyDeviceStructures D =
      (if D.UsbCoreHandle ≠ none then [Event.UsbDetachDevice] else []) ++
        (cancelAndDestroy D.transfers ++ destroyTail D) := by
  unfold Rtlw81pDestroyDeviceStructures RTLW81_DEVICE.transfers destroyTail
  rw [destroy_bulkIn_eq, cancelAndDestroy_append]
  cases D.ControlTransfer <;> simp [cancelAndDestroy, List.append_assoc]

theorem cancelAndDestroy_release (Ts : List USB_TRANSFER) :
    ∀ e ∈ cancelAndDestroy Ts, e.isTransferRelease = true := by
  induction Ts with
  | nil => intro e he; cases he
  | cons T Ts ih =>
    intro e he
    simp only [cancelAndDestroy, List.mem_cons] at he
    rcases he with h | h | h
    · subst h; rfl
    · subst h; rfl
    · exact ih e h

theorem cancelAndDestroy_synchronous (Ts : List USB_TRANSFER) (Id : Nat) (Wait : Bool)
    (h : Event.UsbCancelTransfer Id Wait ∈ cancelAndDestroy Ts) : Wait = true := by
  induction Ts with
  | nil => cases h
  | cons T Ts ih =>
    simp only [cancelAndDestroy, List.mem_cons] at h
    rcases h with h | h | h
    · injection h with _ h2
    · exact Event.noConfusion h
    · exact ih h

/-- In the cancel and destroy block every destroy is immediately preceded by the
synchronous cancel of the same transfer. -/
theorem cancelAndDestroy_paired (Ts : List USB_TRANSFER) :
    ∀ (i Id : Nat), (cancelAndDestroy Ts)[i]? = some (Event.UsbDestroyTransfer Id) →
      ∃ j, i = j + 1 ∧ (cancelAndDestroy Ts)[j]? = some (Event.UsbCancelTransfer Id true) := by
  induction Ts with
  | nil => intro i Id h; simp [cancelAndDestroy] at h
  | cons T Ts ih =>
    intro i Id h
    match i with
    | 0 => simp [cancelAndDestroy] at h
    | 1 =>
      simp only [cancelAndDestroy, List.getElem?_cons_succ, List.getElem?_cons_zero,
        Option.some.injEq, Event.UsbDestroyTransfer.injEq] at h
      exact ⟨0, rfl, by simp [cancelAndDestroy, h]⟩
    | i + 2 =>
      simp only [cancelAndDestroy, List.getElem?_cons_succ] at h
      obtain ⟨j, hj, hc⟩ := ih i Id h
      exact ⟨j + 2, by omega, by simpa [cancelAndDestroy] using hc⟩

theorem cancelAndDestroy_ledger (Ts : List USB_TRANSFER) :
    cancelledTransfers (cancelAndDestroy Ts) = Ts.map USB_TRANSFER.Id ∧
    destroyedTransfers (cancelAndDestroy Ts) = Ts.map USB_TRANSFER.Id := by
  induction Ts with
  | nil => exact ⟨rfl, rfl⟩
  | cons T Ts ih =>
    obtain ⟨h1, h2⟩ := ih
    constructor
    · simp only [cancelledTransfers] at h1 ⊢
      simp [cancelAndDestroy, Event.cancels, h1]
    · simp only [destroyedTransfers] at h2 ⊢
      simp [cancelAndDestroy, Event.destroys, h2]

theorem destroyTail_no_release (D : RTLW81_DEVICE) :
    ∀ e ∈ destroyTail D, e.isTransferRelease = false := by
  intro e he
  unfold destroyTail at he
  simp only [List.mem_append, List.mem_singleton] at he
  rcases he with ((((((h | h) | h) | h) | h) | h) | h) | h
  · split at h
    · simp at h; subst h; rfl
    · cases h
  · split at h
    · simp at h; subst h; rfl
    · cases h
  · split at h
    · simp at h; subst h; rfl
    · cases h
  · subst h; rfl
  · split at h
    · simp at h; subst h; rfl
    · cases h
  · subst h; rfl
  · split at h
    · simp at h; subst h; rfl
    · cases h
  · subst h; rfl

theorem destroyTail_ledger (D : RTLW81_DEVICE) :
    cancelledTransfers (destroyTail D) = [] ∧ destroyedTransfers (destroyTail D) = [] := by
  unfold destroyTail
  simp only [cancelledTransfers_append, destroyedTransfers_append, cancelledTransfers_cond,
    destroyedTransfers_cond]
  constructor
  · simp [cancelledTransfers, Event.cancels]
  · simp [destroyedTransfers, Event.destroys]

theorem mem_cond (c : Prop) [Decidable c] (a e : Event) :
    e ∈ (if c then [a] else []) ↔ c ∧ e = a := by
  split <;> simp [*]

theorem free_mem_destroyTail (D : RTLW81_DEVICE) :
    Event.MmFreeIoBuffer ∈ destroyTail D ↔ D.IoBuffer ≠ none := by
  unfold destroyTail
  simp only [List.mem_append, mem_cond, List.mem_singleton]
  simp

/-- A trace in three parts, whose middle part holds all the cancels and destroys
in pairs: every destroy directly follows its cancel, and an event of the last
part comes after every cancel and destroy. -/
theorem three_parts (P M S : List Event)
    (hP : ∀ e ∈ P, e = Event.UsbDetachDevice)
    (hM : ∀ e ∈ M, e.isTransferRelease = true)
    (hS : ∀ e ∈ S, e.isTransferRelease = false)
    (hpair : ∀ (i Id : Nat), M[i]? = some (Event.UsbDestroyTransfer Id) →
      ∃ j, i = j + 1 ∧ M[j]? = some (Event.UsbCancelTransfer Id true)) :
    (∀ (i Id : Nat), (P ++ (M ++ S))[i]? = some (Event.UsbDestroyTransfer Id) →
      ∃ j, i = j + 1 ∧ (P ++ (M ++ S))[j]? = some (Event.UsbCancelTransfer Id true)) ∧
    (∀ (i j : Nat) (e : Event), (P ++ (M ++ S))[i]? = some Event.MmFreeIoBuffer →
      (P ++ (M ++ S))[j]? = some e → e.isTransferRelease = true → j < i) := by
  constructor
  · intro i Id h
    by_cases hi : i < P.length
    · rw [List.getElem?_append_left hi] at h
      exact Event.noConfusion (hP _ (List.getElem?_mem h))
    · rw [List.getElem?_append_right (by omega)] at h
      by_cases hi2 : i - P.length < M.length
      · rw [List.getElem?_append_left hi2] at h
        obtain ⟨j, hj, hc⟩ := hpair _ _ h
        refine ⟨j + P.length, by omega, ?_⟩
        rw [List.getElem?_append_right (by omega), List.getElem?_append_left (by omega)]
        simpa using hc
      · rw [List.getElem?_append_right (by omega)] at h
        have := hS _ (List.getElem?_mem h)
        simp [Event.isTransferRelease] at this
  · intro i j e hi hj he
    by_cases hi1 : i < P.length
    · rw [List.getElem?_append_left hi1] at hi
      exact Event.noConfusion (hP _ (List.getElem?_mem hi))
    · rw [List.getElem?_append_right (by omega)] at hi
      by_cases hi2 : i - P.length < M.length
      · rw [List.getElem?_append_left hi2] at hi
        have := hM _ (List.getElem?_mem hi)
        simp [Event.isTransferRelease] at this
      · by_cases hj1 : j < P.length
        · omega
        · rw [List.getElem?_append_right (by omega)] at hj
          by_cases hj2 : j - P.length < M.length
          · omega
          · rw [List.getElem?_append_right (by omega)] at hj
            have := hS _ (List.getElem?_mem hj)
            rw [this] at he
            exact absurd he Bool.false_ne_true

/-- C11: in the calls of `Rtlw81pDestroyDeviceStructures`, for every device, the
transfers cancelled synchronously and the transfers destroyed are exactly the
non-NULL receive transfers and the non-NULL control transfer, in order; every
cancel waits; every destroy is immediately preceded by the cancel of the same
transfer; and `MmFreeIoBuffer`, which occurs exactly when the device has an I/O
buffer, comes after every cancel and every destroy. -/
theorem destroy_transfers_before_buffer (D : RTLW81_DEVICE) :
    cancelledTransfers (Rtlw81pDestroyDeviceStructures D) =
      D.transfers.map USB_TRANSFER.Id ∧
    destroyedTransfers (Rtlw81pDestroyDeviceStructures D) =
      D.transfers.map USB_TRANSFER.Id ∧
    (∀ Id Wait, Event.UsbCancelTransfer Id Wait ∈ Rtlw81pDestroyDeviceStructures D →
      Wait = true) ∧
    (∀ (i Id : Nat),
      (Rtlw81pDestroyDeviceStructures D)[i]? = some (Event.UsbDestroyTransfer Id) →
      ∃ j, i = j + 1 ∧
        (Rtlw81pDestroyDeviceStructures D)[j]? = some (Event.UsbCancelTransfer Id true)) ∧
    (∀ (i j : Nat) (e : Event),
      (Rtlw81pDestroyDeviceStructures D)[i]? = some Event.MmFreeIoBuffer →
      (Rtlw81pDestroyDeviceStructures D)[j]? = some e → e.isTransferRelease = true → j < i) ∧
    (Event.MmFreeIoBuffer ∈ Rtlw81pDestroyDeviceStructures D ↔ D.IoBuffer ≠ none) := by
  have hhead : ∀ e ∈ (if D.UsbCoreHandle ≠ none then [Event.UsbDetachDevice] else []),
      e = Event.UsbDetachDevice := by
    intro e he
    split at he
    · simpa using he
    · cases he
  have hmid := cancelAndDestroy_release D.transfers
  have htail := destroyTail_no_release D
  obtain ⟨l1, l2⟩ := cancelAndDestroy_ledger D.transfers
  obtain ⟨t1, t2⟩ := destroyTail_ledger D
  rw [destroy_eq]
  refine ⟨?_, ?_, ?_, ?_, ?_, ?_⟩
  · rw [cancelledTransfers_append, cancelledTransfers_append, cancelledTransfers_cond, l1, t1]
    simp [Event.cancels]
  · rw [destroyedTransfers_append, destroyedTransfers_append, destroyedTransfers_cond, l2, t2]
    simp [Event.destroys]
  · intro Id Wait h
    rcases List.mem_append.1 h with h | h
    · exact Event.noConfusion (hhead _ h)
    · rcases List.mem_append.1 h with h | h
      · exact cancelAndDestroy_synchronous _ _ _ h
      · have := htail _ h
        simp [Event.isTransferRelease] at this
  · exact (three_parts _ _ _ hhead hmid htail (cancelAndDestroy_paired D.transfers)).1
  · exact (three_parts _ _ _ hhead hmid htail (cancelAndDestroy_paired D.transfers)).2
  · rw [← free_mem_destroyTail]
    simp only [List.mem_append]
    constructor
    · rintro (h | h | h)
      · exact Event.noConfusion (hhead _ h)
      · have := hmid _ h
        simp [Event.isTransferRelease] at this
      · exact h
    · intro h
      exact Or.inr (Or.inr h)


theorem count_cond (c : Prop) [Decidable c] (a e : Event) :
    (if c then [a] else []).count e = if c ∧ a = e then 1 else 0 := by
  by_cases hc : c
  · by_cases ha : a = e
    · simp [hc, ha]
    · simp [hc, ha, List.count_cons]
  · simp [hc]

theorem count_cancelAndDestroy (Ts : List USB_TRANSFER) (e : Event)
    (he : e.isTransferRelease = false) : (cancelAndDestroy Ts).count e = 0 := by
  apply List.count_eq_zero_of_not_mem
  intro hmem
  rw [cancelAndDestroy_release Ts e hmem] at he
  exact absurd he.symm Bool.false_ne_true

/-- The number of occurrences, in the calls of `Rtlw81pDestroyDeviceStructures`,
of an event that is neither the detach nor a cancel or destroy. -/
theorem count_destroy (D : RTLW81_DEVICE) (e : Event)
    (he : e.isTransferRelease = false) (hd : e ≠ Event.UsbDetachDevice) :
    (Rtlw81pDestroyDeviceStructures D).count e = (destroyTail D).count e := by
  rw [destroy_eq, List.count_append, List.count_append, count_cond,
    count_cancelAndDestroy _ _ he, if_neg (fun h => hd h.2.symm)]
  simp

theorem count_destroyTail (D : RTLW81_DEVICE) :
    (destroyTail D).count (Event.IoRegisterDeviceInformation true) = 0 ∧
    (destroyTail D).count (Event.IoRegisterDeviceInformation false) = 1 ∧
    (destroyTail D).count Event.NetDestroyLink =
      (if D.NetworkLink ≠ none then 1 else 0) ∧
    (destroyTail D).count Event.MmFreePagedPool = 1 ∧
    (∀ s, (destroyTail D).count (Event.IoCompleteIrp s) = 0) := by
  unfold destroyTail
  simp only [List.count_append, count_cond]
  refine ⟨?_, ?_, ?_, ?_, ?_⟩
  · simp [List.count_cons]
  · simp [List.count_cons]
  · simp [List.count_cons]
  · simp [List.count_cons]
  · intro s
    simp [List.count_cons]

/-! ## Claims about the teardown -/

/-- Counterexample to C12 as stated: on a fully set-up device with a network
link the calls are not in the order link, transfers and arena, interface, USB
session, device. The USB device is detached first, the I/O buffer is freed after
the interface is released and the handle is closed, and the deregistration and
`NetDestroyLink` come after all of these. -/
theorem destroy_order_counterexample :
    Rtlw81pDestroyDeviceStructures exampleLinked =
      [Event.UsbDetachDevice,
        Event.UsbCancelTransfer 0 true, Event.UsbDestroyTransfer 0,
        Event.UsbCancelTransfer 1 true, Event.UsbDestroyTransfer 1,
        Event.UsbCancelTransfer 2 true, Event.UsbDestroyTransfer 2,
        Event.UsbReleaseInterface 0, Event.UsbDeviceClose, Event.MmFreeIoBuffer,
        Event.IoRegisterDeviceInformation false, Event.NetDestroyLink,
        Event.Rtlw81pDestroyBulkOutTransfers, Event.KeDestroyQueuedLock,
        Event.MmFreePagedPool] ∧
    position (Rtlw81pDestroyDeviceStructures exampleLinked) (Event.UsbCancelTransfer 0 true) <
      position (Rtlw81pDestroyDeviceStructures exampleLinked) Event.NetDestroyLink ∧
    position (Rtlw81pDestroyDeviceStructures exampleLinked)
        (Event.IoRegisterDeviceInformation false) >
      position (Rtlw81pDestroyDeviceStructures exampleLinked) Event.MmFreeIoBuffer ∧
    position (Rtlw81pDestroyDeviceStructures exampleLinked) (Event.UsbReleaseInterface 0) <
      position (Rtlw81pDestroyDeviceStructures exampleLinked) Event.MmFreeIoBuffer ∧
    position (Rtlw81pDestroyDeviceStructures exampleLinked) Event.UsbDetachDevice <
      position (Rtlw81pDestroyDeviceStructures exampleLinked) (Event.UsbReleaseInterface 0) ∧
    position (Rtlw81pDestroyDeviceStructures exampleInitialized) (Event.UsbReleaseInterface 0) <
      position (Rtlw81pDestroyDeviceStructures exampleInitialized) Event.MmFreeIoBuffer ∧
    position (Rtlw81pDestroyDeviceStructures exampleInitialized) Event.UsbDetachDevice = 0 := by
  decide

/-- C12, amended: on a fully set-up device (attached, claimed, with an I/O
buffer and a lock) `Rtlw81pDestroyDeviceStructures` makes its calls in this
order: detach the USB device; cancel and destroy each receive transfer, then
the control transfer; release the claimed interface; close the USB handle; free
the I/O buffer; deregister the device information; destroy the network link if
there is one; destroy the bulk-out transfers; destroy the lock; free the device.
The abort path of `Rtlw81pInitializeDeviceStructures` ends with these calls. -/
theorem destroy_order (D : RTLW81_DEVICE)
    (hhandle : D.UsbCoreHandle ≠ none) (hclaimed : D.InterfaceClaimed = true)
    (hbuffer : D.IoBuffer ≠ none) (hlock : D.BulkOutListLock ≠ none) :
    Rtlw81pDestroyDeviceStructures D =
      [Event.UsbDetachDevice] ++ cancelAndDestroy D.transfers ++
      [Event.UsbReleaseInterface D.InterfaceNumber, Event.UsbDeviceClose,
        Event.MmFreeIoBuffer, Event.IoRegisterDeviceInformation false] ++
      (if D.NetworkLink ≠ none then [Event.NetDestroyLink] else []) ++
      [Event.Rtlw81pDestroyBulkOutTransfers, Event.KeDestroyQueuedLock,
        Event.MmFreePagedPool] ∧
    (∀ (s : KSTATUS) (T : List Event), s ≠ KSTATUS.STATUS_SUCCESS →
      (Rtlw81pInitializeDeviceStructures.End s (some D) T).Trace =
        T ++ Rtlw81pDestroyDeviceStructures D) := by
  constructor
  · rw [destroy_eq]
    unfold destroyTail
    simp [hhandle, hclaimed, hbuffer, hlock]
  · intro s T hs
    rw [End_failure s D T hs]

/-- Witness of the amended C12 on the device the example environment
initializes. -/
theorem destroy_order_witness :
    exampleInitialized.UsbCoreHandle ≠ none ∧ exampleInitialized.InterfaceClaimed = true ∧
    exampleInitialized.IoBuffer ≠ none ∧ exampleInitialized.BulkOutListLock ≠ none ∧
    Rtlw81pDestroyDeviceStructures exampleInitialized =
      [Event.UsbDetachDevice] ++ cancelAndDestroy exampleInitialized.transfers ++
      [Event.UsbReleaseInterface exampleInitialized.InterfaceNumber, Event.UsbDeviceClose,
        Event.MmFreeIoBuffer, Event.IoRegisterDeviceInformation false] ++
      (if exampleInitialized.NetworkLink ≠ none then [Event.NetDestroyLink] else []) ++
      [Event.Rtlw81pDestroyBulkOutTransfers, Event.KeDestroyQueuedLock,
        Event.MmFreePagedPool] :=
  ⟨by decide, by decide, by decide, by decide,
    (destroy_order exampleInitialized (by decide) (by decide) (by decide) (by decide)).1⟩

/-- C13: a remove request travelling up first runs `Rtlw81pStopDevice`, which
returns `STATUS_SUCCESS` and changes only `InitializationPhase`, to 0; then
`Rtlw81pDestroyDeviceStructures` is called once on that device, which makes the
same calls as on the device before the stop and as the abort path makes; the
device is freed once and `IoCompleteIrp` is not called. -/
theorem dispatch_remove (InitializeStatus : KSTATUS) (Initialized : RTLW81_DEVICE)
    (Irp : IRP) (D : RTLW81_DEVICE)
    (hup : Irp.Direction = IRP_DIRECTION.IrpUp)
    (hminor : Irp.MinorCode = IRP_MINOR_CODE.IrpMinorRemoveDevice) :
    (Rtlw81pStopDevice D).1 = KSTATUS.STATUS_SUCCESS ∧
    (Rtlw81pStopDevice D).2 = { D with InitializationPhase := 0 } ∧
    (Rtlw81DispatchStateChange InitializeStatus Initialized Irp D).Device = none ∧
    (Rtlw81DispatchStateChange InitializeStatus Initialized Irp D).Trace =
      ASSERT (decide (Irp.MajorCode = IRP_MAJOR_CODE.IrpMajorStateChange)) ++
        Rtlw81pDestroyDeviceStructures (Rtlw81pStopDevice D).2 ∧
    Rtlw81pDestroyDeviceStructures (Rtlw81pStopDevice D).2 =
      Rtlw81pDestroyDeviceStructures D ∧
    (∀ (s : KSTATUS) (T : List Event), s ≠ KSTATUS.STATUS_SUCCESS →
      (Rtlw81pInitializeDeviceStructures.End s (some (Rtlw81pStopDevice D).2) T).Trace =
        T ++ Rtlw81pDestroyDeviceStructures (Rtlw81pStopDevice D).2) ∧
    (Rtlw81DispatchStateChange InitializeStatus Initialized Irp D).Trace.count
      Event.MmFreePagedPool = 1 ∧
    (∀ s, Event.IoCompleteIrp s ∉
      (Rtlw81DispatchStateChange InitializeStatus Initialized Irp D).Trace) := by
  have htrace : Rtlw81DispatchStateChange InitializeStatus Initialized Irp D =
      { Device := none
        Trace := ASSERT (decide (Irp.MajorCode = IRP_MAJOR_CODE.IrpMajorStateChange)) ++
          Rtlw81pDestroyDeviceStructures (Rtlw81pStopDevice D).2 } := by
    unfold Rtlw81DispatchStateChange
    rw [if_pos hup]
    simp only [hminor]
    rw [if_neg (by simp [Rtlw81pStopDevice, KSUCCESS])]
  have hassert : ∀ (c : Bool) (e : Event), e ≠ Event.RtlRaiseAssertion →
      (ASSERT c).count e = 0 := by
    intro c e he
    unfold ASSERT
    split
    · rfl
    · simp [List.count_cons, Ne.symm he]
  rw [htrace]
  refine ⟨rfl, rfl, rfl, rfl, rfl, ?_, ?_, ?_⟩
  · intro s T hs
    rw [End_failure s _ T hs]
  · show List.count Event.MmFreePagedPool
      (ASSERT (decide (Irp.MajorCode = IRP_MAJOR_CODE.IrpMajorStateChange)) ++
        Rtlw81pDestroyDeviceStructures (Rtlw81pStopDevice D).2) = 1
    rw [List.count_append, hassert _ _ (fun h => Event.noConfusion h),
      count_destroy _ Event.MmFreePagedPool rfl (fun h => Event.noConfusion h),
      (count_destroyTail _).2.2.2.1]
  · intro s hmem
    have hzero : (ASSERT (decide (Irp.MajorCode = IRP_MAJOR_CODE.IrpMajorStateChange)) ++
        Rtlw81pDestroyDeviceStructures (Rtlw81pStopDevice D).2).count (Event.IoCompleteIrp s)
        = 0 := by
      rw [List.count_append, hassert _ _ (fun h => Event.noConfusion h),
        count_destroy _ (Event.IoCompleteIrp s) rfl (fun h => Event.noConfusion h),
        (count_destroyTail _).2.2.2.2 s]
    exact (List.count_pos_iff.2 hmem).ne' hzero

/-- Witness of C13: the example remove request on the initialized example
device frees it, with the calls of `Rtlw81pDestroyDeviceStructures`. -/
theorem dispatch_remove_witness :
    exampleRemoveIrp.Direction = IRP_DIRECTION.IrpUp ∧
    exampleRemoveIrp.MinorCode = IRP_MINOR_CODE.IrpMinorRemoveDevice ∧
    (Rtlw81DispatchStateChange KSTATUS.STATUS_SUCCESS exampleInitialized exampleRemoveIrp
      exampleInitialized).Device = none ∧
    (Rtlw81DispatchStateChange KSTATUS.STATUS_SUCCESS exampleInitialized exampleRemoveIrp
      exampleInitialized).Trace.count Event.MmFreePagedPool = 1 :=
  have h := dispatch_remove KSTATUS.STATUS_SUCCESS exampleInitialized exampleRemoveIrp
    exampleInitialized rfl rfl
  ⟨rfl, rfl, h.2.2.1, h.2.2.2.2.2.2.1⟩

/-- Counterexample to C14 as stated: the initialized example device never had a
link and was never registered, yet destroying it deregisters; and two
`Rtlw81pCreateNetworkDevice` calls followed by the destroy register twice and
deregister once, while no link is created or destroyed. -/
theorem link_registration_counterexample :
    exampleInitialized.NetworkLink = none ∧
    (runLinkCalls [LinkCall.Destroy] exampleInitialized).count
      (Event.IoRegisterDeviceInformation true) = 0 ∧
    (runLinkCalls [LinkCall.Destroy] exampleInitialized).count
      (Event.IoRegisterDeviceInformation false) = 1 ∧
    (Rtlw81pCreateNetworkDevice KSTATUS.STATUS_SUCCESS exampleInitialized).Device.NetworkLink
      = none ∧
    (runLinkCalls [LinkCall.Create KSTATUS.STATUS_SUCCESS,
      LinkCall.Create KSTATUS.STATUS_SUCCESS, LinkCall.Destroy] exampleInitialized).count
      (Event.IoRegisterDeviceInformation true) = 2 ∧
    (runLinkCalls [LinkCall.Create KSTATUS.STATUS_SUCCESS,
      LinkCall.Create KSTATUS.STATUS_SUCCESS, LinkCall.Destroy] exampleInitialized).count
      (Event.IoRegisterDeviceInformation false) = 1 ∧
    (runLinkCalls [LinkCall.Create KSTATUS.STATUS_SUCCESS,
      LinkCall.Create KSTATUS.STATUS_SUCCESS, LinkCall.Destroy] exampleInitialized).count
      Event.NetDestroyLink = 0 := by
  decide

/-- C14, amended: over every sequence of `Rtlw81pCreateNetworkDevice` and
`Rtlw81pDestroyDeviceStructures` calls on a device,
`Rtlw81pCreateNetworkDevice` registers exactly when the device has no network
link and never creates one, so the registrations are the create calls on a
device without a link and none on a device with one;
`Rtlw81pDestroyDeviceStructures` deregisters exactly once whether or not the
device was registered, and calls `NetDestroyLink` exactly when the device has a
network link. -/
theorem link_registration (Calls : List LinkCall) (D : RTLW81_DEVICE) :
    (∀ s, (Rtlw81pCreateNetworkDevice s D).Device = D) ∧
    (runLinkCalls Calls D).count (Event.IoRegisterDeviceInformation true) =
      (if D.NetworkLink = none then createCalls Calls else 0) ∧
    (runLinkCalls Calls D).count (Event.IoRegisterDeviceInformation false) =
      (if LinkCall.Destroy ∈ Calls then 1 else 0) ∧
    (runLinkCalls Calls D).count Event.NetDestroyLink =
      (if LinkCall.Destroy ∈ Calls ∧ D.NetworkLink ≠ none then 1 else 0) := by
  have hcreate : ∀ s, (Rtlw81pCreateNetworkDevice s D).Device = D := by
    intro s
    unfold Rtlw81pCreateNetworkDevice
    split <;> rfl
  refine ⟨hcreate, ?_⟩
  induction Calls with
  | nil => simp [runLinkCalls, createCalls]
  | cons Call Next ih =>
    obtain ⟨i1, i2, i3⟩ := ih
    cases Call with
    | Destroy =>
      obtain ⟨t1, t2, t3, _, _⟩ := count_destroyTail D
      simp only [runLinkCalls, createCalls, List.mem_cons, true_or, if_true, true_and]
      rw [count_destroy _ (Event.IoRegisterDeviceInformation true) rfl
          (fun h => Event.noConfusion h),
        count_destroy _ (Event.IoRegisterDeviceInformation false) rfl
          (fun h => Event.noConfusion h),
        count_destroy _ Event.NetDestroyLink rfl (fun h => Event.noConfusion h), t1, t2, t3]
      simp
    | Create s =>
      simp only [runLinkCalls, createCalls, hcreate, List.count_append, i1, i2, i3]
      unfold Rtlw81pCreateNetworkDevice
      by_cases hlink : D.NetworkLink = none
      · simp [hlink, List.count_cons]
        omega
      · simp [hlink]

end Rtlw81
